import Mathlib

/-!
# Verification of the SONiC configuration-database migration engine

Shallow embedding of `scripts/db_migrator.py` (class `DBMigrator`): the
config / application / state / loglevel stores, the per-version migration
step functions, the version-chain driver `migrate`, and the common
post-migration pass, together with theorems settling the specification
claims about them.

Conventions of the embedding:
* a config-DB entry is an association list of field/value pairs (the typed
  view that `ConfigDBConnector.get_entry` returns, with the `NULL`
  place-holder already stripped);
* config-DB keys are the `|`-split component lists (`get_table` returns a
  plain string for one component and a tuple for several; we uniformly use
  the component list, length 1 standing for the plain string);
* the application / state / loglevel stores are flat maps from the single
  delimited key string to a field map, as `SonicV2Connector` exposes them;
* Python exceptions are modelled with `Except String`;
* external collaborators that are not part of this repository
  (`device_info`, the parsed contents of `init_cfg.json`, the minigraph /
  golden-config source snapshot, and the Mellanox buffer sub-migrator's
  boolean results) enter through an explicit environment record.
-/

set_option maxRecDepth 4000

deriving instance DecidableEq for Except

namespace DBMig

/-- A field/value record of one store entry (Python `dict` of strings). -/
abbrev Entry := List (String × String)

/-- A config-DB key split into its `|`-separated components. -/
abbrev CKey := List String

/-- The config store: a list of (table, key, fields) rows. -/
abbrev ConfigDB := List (String × CKey × Entry)

/-- A flat key/value store (APPL_DB / STATE_DB / LOGLEVEL_DB):
single delimited key strings mapped to field maps. -/
abbrev KVDB := List (String × Entry)

/-! ## Field map operations (Python dict semantics) -/

/-- `e.get(f)` / `e[f]` lookup: the first binding of field `f`. -/
def fGet (e : Entry) (f : String) : Option String :=
  (e.find? (fun p => p.1 == f)).map (·.2)

/-- Does the field exist (Python `f in e`)? -/
def fHas (e : Entry) (f : String) : Bool := (fGet e f).isSome

/-- `e[f] = v`: replace the binding of `f` in place, or append a new one
(store entries are duplicate-free, so replacing the first binding is the
Python dict update). -/
def fSet : Entry → String → String → Entry
  | [], f, v => [(f, v)]
  | p :: e, f, v => if p.1 == f then (f, v) :: e else p :: fSet e f v

/-- `e.pop(f, None)`: drop any binding of `f`. -/
def fRemove (e : Entry) (f : String) : Entry := e.filter (fun p => p.1 != f)

/-- Python `{**base, **overlay}`: keys of `base` first (values from
`overlay` when it also binds them), then the keys only `overlay` has. -/
def fMerge (base overlay : Entry) : Entry :=
  base.map (fun p => (p.1, (fGet overlay p.1).getD p.2)) ++
    overlay.filter (fun p => !(fHas base p.1))

/-! ## Config store operations (`ConfigDBConnector`) -/

/-- Find the entry at (table, key), if the key exists. -/
def cfgFind (db : ConfigDB) (t : String) (k : CKey) : Option Entry :=
  (db.find? (fun r => r.1 == t && r.2.1 == k)).map (·.2.2)

/-- `get_entry(table, key)`: `{}` when the key is missing. -/
def cfgGetEntry (db : ConfigDB) (t : String) (k : CKey) : Entry :=
  (cfgFind db t k).getD []

/-- Write an entry: update the row in place, or append a fresh row
(store keys are unique, so replacing the first matching row is the redis
hash write). -/
def cfgSetEntryF : ConfigDB → String → CKey → Entry → ConfigDB
  | [], t, k, e => [(t, k, e)]
  | r :: db, t, k, e =>
    if r.1 == t && r.2.1 == k then (t, k, e) :: db else r :: cfgSetEntryF db t k e

/-- Delete a key from a table. -/
def cfgDeleteEntry (db : ConfigDB) (t : String) (k : CKey) : ConfigDB :=
  db.filter (fun r => !(r.1 == t && r.2.1 == k))

/-- `set_entry(table, key, data)`: `None` data deletes the key. -/
def cfgSetEntry (db : ConfigDB) (t : String) (k : CKey) (v : Option Entry) : ConfigDB :=
  match v with
  | none => cfgDeleteEntry db t k
  | some e => cfgSetEntryF db t k e

/-- `mod_entry(table, key, data)`: merge `data` over the existing fields. -/
def cfgModEntry (db : ConfigDB) (t : String) (k : CKey) (e : Entry) : ConfigDB :=
  cfgSetEntryF db t k (fMerge (cfgGetEntry db t k) e)

/-- `get_table(table)`: the rows of one table, in store order. -/
def cfgGetTable (db : ConfigDB) (t : String) : List (CKey × Entry) :=
  db.filterMap (fun r => if r.1 == t then some (r.2.1, r.2.2) else none)

/-- `get_keys(table)`. -/
def cfgGetKeys (db : ConfigDB) (t : String) : List CKey :=
  (cfgGetTable db t).map (·.1)

/-- `delete_table(table)`. -/
def cfgDeleteTable (db : ConfigDB) (t : String) : ConfigDB :=
  db.filter (fun r => r.1 != t)

/-- Raw `set(CONFIG_DB, "T|k", field, value)`: set one hash field,
creating the row when absent. -/
def cfgSetField (db : ConfigDB) (t : String) (k : CKey) (f v : String) : ConfigDB :=
  cfgSetEntryF db t k (fSet (cfgGetEntry db t k) f v)

/-! ## Flat store operations (`SonicV2Connector` and APPL_DB access) -/

/-- `get_all(db, key)`: `{}` when missing. -/
def kvGetAll (db : KVDB) (k : String) : Entry :=
  ((db.find? (fun p => p.1 == k)).map (·.2)).getD []

/-- Does the flat key exist? -/
def kvHasKey (db : KVDB) (k : String) : Bool :=
  (db.find? (fun p => p.1 == k)).isSome

/-- `get(db, key, field)`: `None` when the key or field is missing. -/
def kvGet (db : KVDB) (k f : String) : Option String := fGet (kvGetAll db k) f

/-- `hexists(db, key, field)`. -/
def kvHexists (db : KVDB) (k f : String) : Bool := (kvGet db k f).isSome

/-- `set(db, key, field, value)`: set one hash field, creating the key. -/
def kvSetField : KVDB → String → String → String → KVDB
  | [], k, f, v => [(k, fSet [] f v)]
  | p :: db, k, f, v =>
    if p.1 == k then (k, fSet p.2 f v) :: db else p :: kvSetField db k f v

/-- `delete(db, key)`. -/
def kvDelete (db : KVDB) (k : String) : KVDB := db.filter (fun p => p.1 != k)

/-- Replace the whole field map of a flat key. -/
def kvSetAll : KVDB → String → Entry → KVDB
  | [], k, e => [(k, e)]
  | p :: db, k, e => if p.1 == k then (k, e) :: db else p :: kvSetAll db k e

/-! ## String utilities

The Python code splits, joins, searches and replaces strings.  The
corresponding core-library functions recurse on string positions through
well-founded recursion, which the kernel does not reduce, so we define
structurally recursive versions over the character list of the string. -/

/-- One step of splitting: `splitLF n sep acc l` splits `l` at every
(non-overlapping, leftmost) occurrence of the non-empty separator `sep`;
`n` is fuel (any `n ≥ l.length` is exact). -/
def splitLF : Nat → List Char → List Char → List Char → List (List Char)
  | 0, _, acc, l => [acc.reverse ++ l]
  | _ + 1, _, acc, [] => [acc.reverse]
  | n + 1, sep, acc, c :: rest =>
    if sep.isPrefixOf (c :: rest) then
      acc.reverse :: splitLF n sep [] (List.drop (sep.length - 1) rest)
    else splitLF n sep (c :: acc) rest

/-- Python `s.split(sep)` for a non-empty separator. -/
def pySplit (s sep : String) : List String :=
  (splitLF s.data.length sep.data [] s.data).map List.asString

/-- Python `sep.join(parts)`. -/
def pyJoin (sep : String) (parts : List String) : String :=
  match parts with
  | [] => ""
  | p :: ps => ps.foldl (fun acc q => acc ++ sep ++ q) p

/-- Is `pat` a contiguous substring (Python `pat in s`, `re`-free)? -/
def containsL : List Char → List Char → Bool
  | pat, [] => pat.isEmpty
  | pat, c :: rest => pat.isPrefixOf (c :: rest) || containsL pat rest

/-- Python `pat in s` for strings. -/
def pyContains (s pat : String) : Bool := containsL pat.data s.data

/-- Python `s.startswith(p)` (also used for the trivial `*`-glob patterns
`"PREFIX*"` that the migrator passes to `keys`). -/
def pyStartsWith (s p : String) : Bool := p.data.isPrefixOf s.data

/-- Python `s.replace(old, new)` for a non-empty `old`:
split at `old` and re-join with `new`. -/
def pyReplace (s old new : String) : String := pyJoin new (pySplit s old)

/-- Python `s[1:-1]`: drop the first and last character. -/
def pyDropEnds (s : String) : String :=
  List.asString (s.data.drop 1 |>.dropLast)

/-- List indexing `xs[i]` as an `Option` (Python raises `IndexError`). -/
def pyIndex {α : Type} (xs : List α) (i : Nat) : Option α := xs.get? i

/-- Parse a non-negative decimal integer (Python `int(s)` for the digit
strings the migrator stores as counters; anything else raises). -/
def parseNat (s : String) : Option Nat :=
  if s.data ≠ [] ∧ s.data.all (fun c => c.isDigit) then
    some (s.data.foldl (fun acc c => acc * 10 + (c.toNat - 48)) 0)
  else none

/-- Render a natural number back to its decimal string (Python `str(n)`). -/
def natToString (n : Nat) : String :=
  List.asString (Nat.toDigits 10 n)

/-- The raw CONFIG_DB key of a row: components joined with `|`. -/
def rawKey (t : String) (k : CKey) : String := pyJoin "|" (t :: k)

/-! ## The lossless-profile name pattern

`re.search('pg_lossless_([1-9][0-9]*000)_([1-9][0-9]*m)_profile', name)`.

Because the characters after each capture group (`_`, `m`) are non-digits,
the greedy groups always consume a maximal digit run, so a match at one
position is equivalent to: the literal `pg_lossless_`, a maximal digit run
that starts with `1`-`9` and ends in `000` (group 1), `_`, a maximal digit
run that starts with `1`-`9` (with the following `m`, group 2), and the
literal `_profile`.  `re.search` takes the leftmost matching position. -/

/-- Split off the leading maximal run of ASCII digits. -/
def spanDigits : List Char → List Char × List Char
  | [] => ([], [])
  | c :: rest =>
    if c.isDigit then
      let (run, rem) := spanDigits rest
      (c :: run, rem)
    else ([], c :: rest)

/-- Try to match the pattern with the match starting exactly here;
returns the two capture groups. -/
def profileMatchAt (l : List Char) : Option (String × String) := do
  let rest1 ← if ("pg_lossless_".data).isPrefixOf l then
      some (l.drop ("pg_lossless_".data.length)) else none
  let (speedRun, rest2) := spanDigits rest1
  let _ ← if h : speedRun ≠ [] then
      if '1' ≤ speedRun.head h ∧ speedRun.head h ≤ '9' then some () else none
    else none
  let _ ← if speedRun.length ≥ 4 ∧ speedRun.drop (speedRun.length - 3) = ['0', '0', '0'] then
      some () else none
  let rest3 ← match rest2 with
    | '_' :: r => some r
    | _ => none
  let (cableRun, rest4) := spanDigits rest3
  let _ ← if h : cableRun ≠ [] then
      if '1' ≤ cableRun.head h ∧ cableRun.head h ≤ '9' then some () else none
    else none
  let rest5 ← match rest4 with
    | 'm' :: r => some r
    | _ => none
  let _ ← if ("_profile".data).isPrefixOf rest5 then some () else none
  pure (List.asString speedRun, List.asString (cableRun ++ ['m']))

/-- Leftmost search over all start positions. -/
def profileSearchL : List Char → Option (String × String)
  | [] => profileMatchAt []
  | c :: rest =>
    match profileMatchAt (c :: rest) with
    | some r => some r
    | none => profileSearchL rest

/-- `re.search(profile_pattern, name)`, returning `(group 1, group 2)`. -/
def profileSearch (name : String) : Option (String × String) :=
  profileSearchL name.data

/-! ## Migrator state and environment -/

/-- An item of the Mellanox sub-migrator's pending-configuration list:
(table, key, fields-or-delete), exactly the tuples
`db_migrator.py` hands to `append_item_method`. -/
abbrev PendingItem := String × CKey × Option Entry

instance : DecidableEq PendingItem := inferInstance

/-- The pending-change list held by the Mellanox sub-migrator. -/
structure PendingState where
  items : List PendingItem
  abandoned : Bool
deriving Repr, DecidableEq

/-- The source-of-truth snapshot `config_src_data` (minigraph overridden
by golden config): table name → key → fields. -/
abbrev SrcData := List (String × List (String × Entry))

/-- `config_src_data[t]` / `'t' in config_src_data`. -/
def srcGet (d : SrcData) (t : String) : Option (List (String × Entry)) :=
  (d.find? (fun p => p.1 == t)).map (·.2)

/-- `tbl.get(k)` on one snapshot table. -/
def srcTblGet (tbl : List (String × Entry)) (k : String) : Option Entry :=
  (tbl.find? (fun p => p.1 == k)).map (·.2)

/-- The four stores a `DBMigrator` instance mutates, plus the Mellanox
sub-migrator's pending list and a trace of the sub-migrator calls made
(used to state the short-circuit property). -/
structure MigState where
  configDB : ConfigDB
  appDB : KVDB
  stateDB : KVDB
  loglevelDB : KVDB
  pending : PendingState
  trace : List String
deriving Repr, DecidableEq

/-- Everything the migrator reads from outside the four stores:
platform identity (`device_info`), the parsed `init_cfg.json`
contents, the source-of-truth snapshot built by `generate_config_src`,
the external warm-restart query used by the S6100 fix-up, and the
boolean results of the opaque Mellanox buffer sub-migrator operations
(`mellanox_buffer_migrator` is a collaborator outside this repository's
`scripts/db_migrator.py`). -/
structure Env where
  asic_type : String
  hwsku : String
  config_src_data : Option SrcData
  init_db : List (String × List (String × Entry))
  warm_restart_swss : Bool
  mlnx_pool_size : String → String → Bool
  mlnx_profile : String → String → Bool
  mlnx_flush : Bool
  mlnx_is_dynamic : Bool
  mlnx_reclaiming : Bool
  default_speed_list : List String
  default_cable_len_list : List String

/-- Lift a Python lookup that raises on `None` into `Except`. -/
def liftOpt {α : Type} (msg : String) : Option α → Except String α
  | none => .error msg
  | some a => .ok a

/-! ## Spec-modelled Mellanox pending-list helpers

`mlnx_append_item_on_pending_configuration_list`,
`mlnx_abandon_pending_buffer_configuration` and
`mlnx_flush_new_buffer_configuration` live in
`scripts/mellanox_buffer_migrator.py`, which is part of the repository
but not under `src/`; they are modelled from the spec here. -/

/-- Modelled from the spec: `mlnx_append_item_on_pending_configuration_list`
(missing from `src/`) — "any update to buffer configuration will be pended
and won't be applied until all configuration is checked". -/
def mlnxAppendItem (it : PendingItem) (ps : PendingState) : PendingState :=
  { ps with items := ps.items ++ [it] }

/-- Modelled from the spec: `mlnx_abandon_pending_buffer_configuration`
(missing from `src/`) — "aborts and discards all pending edits the moment
any entry does not match the expected convention". -/
def mlnxAbandon (_ : PendingState) : PendingState :=
  { items := [], abandoned := true }

/-- Modelled from the spec: the flush of the pending list into the config
store (missing from `src/`) — pending edits "applied only if every
validated precondition across the whole table set holds; if any entry
fails validation the whole list is discarded and the store is left
untouched". -/
def mlnxApplyPending (ps : PendingState) (db : ConfigDB) : ConfigDB :=
  if ps.abandoned then db
  else ps.items.foldl (fun d it => cfgSetEntry d it.1 it.2.1 it.2.2) db

/-! ## Migration operations, part 1 -/

/-- `DBMigrator.migrate_pfc_wd_table`: move every `PFC_WD_TABLE` entry
under `PFC_WD`, then drop the old table. -/
def migrate_pfc_wd_table (db : ConfigDB) : ConfigDB :=
  let data := cfgGetTable db "PFC_WD_TABLE"
  let db := data.foldl (fun d ke => cfgSetEntry d "PFC_WD" ke.1 (some ke.2)) db
  cfgDeleteTable db "PFC_WD_TABLE"

/-- `DBMigrator.is_ip_prefix_in_key`: compound (tuple) keys are the
`|`-split lists of length ≥ 2. -/
def is_ip_prefix_in_key (k : CKey) : Bool := k.length != 1

/-- The fixed table set of `migrate_interface_table` (a Python set
literal; we fix the literal's textual order). -/
def ifTables : List String :=
  ["INTERFACE", "PORTCHANNEL_INTERFACE", "VLAN_INTERFACE", "LOOPBACK_INTERFACE"]

/-- First pass of `migrate_interface_table`: collect the keys lacking an
IP prefix (for a plain key the Python code appends the key string itself). -/
def collectIfBases (db : ConfigDB) : List String :=
  ifTables.foldl (fun acc t =>
    (cfgGetTable db t).foldl (fun acc2 ke =>
      if is_ip_prefix_in_key ke.1 then acc2 else acc2 ++ ke.1) acc) []

/-- Second pass of `migrate_interface_table` over one table's snapshot:
for a compound key whose base is not yet in `if_db`, add the address-less
alias entry carrying the compound entry's fields. -/
def addIfAliases (t : String) : List (CKey × Entry) → ConfigDB × List String → ConfigDB × List String
  | [], st => st
  | (k, e) :: rest, (db, names) =>
    match k with
    | b :: _ :: _ =>
      if b ∈ names then addIfAliases t rest (db, names)
      else addIfAliases t rest (cfgSetEntryF db t [b] e, names ++ [b])
    | _ => addIfAliases t rest (db, names)

/-- `DBMigrator.migrate_interface_table`. -/
def migrate_interface_table (db : ConfigDB) : ConfigDB :=
  (ifTables.foldl (fun st t => addIfAliases t (cfgGetTable st.1 t) st)
    (db, collectIfBases db)).1

/-- `DBMigrator.migrate_copp_table`: delete every `COPP_TABLE:*` key of
the application store. -/
def migrate_copp_table (s : MigState) : MigState :=
  let keys := (s.appDB.map (·.1)).filter (fun k => pyStartsWith k "COPP_TABLE:")
  { s with appDB := keys.foldl kvDelete s.appDB }

/-- `DBMigrator.migrate_feature_table`: rename `status` to `state` inside
`FEATURE`, then merge `CONTAINER_FEATURE` into `FEATURE` and delete it. -/
def migrate_feature_table (db : ConfigDB) : ConfigDB :=
  let db := (cfgGetTable db "FEATURE").foldl (fun d ke =>
      match fGet ke.2 "status" with
      | none => d
      | some st =>
        cfgSetEntry d "FEATURE" ke.1 (some (fRemove (fSet ke.2 "state" st) "status"))) db
  (cfgGetTable db "CONTAINER_FEATURE").foldl (fun d ke =>
      cfgSetEntry (cfgModEntry d "FEATURE" ke.1 ke.2) "CONTAINER_FEATURE" ke.1 none) db

/-- `DBMigrator.migrate_feature_timer`: rename `has_timer` to `delayed`. -/
def migrate_feature_timer (db : ConfigDB) : ConfigDB :=
  (cfgGetTable db "FEATURE").foldl (fun d ke =>
      match fGet ke.2 "has_timer" with
      | none => d
      | some st =>
        cfgSetEntry d "FEATURE" ke.1 (some (fRemove (fSet ke.2 "delayed" st) "has_timer"))) db

/-- The keys of a flat store matching the glob `prefix ++ "*"`. -/
def kvKeysMatching (db : KVDB) (pref : String) : List String :=
  (db.map (·.1)).filter (fun k => pyStartsWith k pref)

/-- One row of the first loop of `migrate_intf_table`: re-home an
`INTF_TABLE:lo:...` row to its CONFIG_DB loopback name (default
`Loopback0`), and record names lacking an IP prefix in `if_db`. -/
def intfTableRow (loAddrToInt : List (String × String)) (lo_row : String)
    (st : MigState × List String) : Except String (MigState × List String) := do
  let (s, ifdb) := st
  let lo_name ← liftOpt "IndexError" (pyIndex (pySplit lo_row ":") 1)
  let s ←
    if lo_name == "lo" then do
      let s := { s with appDB := kvDelete s.appDB lo_row }
      let lo_addr ← liftOpt "IndexError" (pyIndex (pySplit lo_row "INTF_TABLE:lo:") 1)
      let newRow :=
        match fGet loAddrToInt lo_addr with
        | none => pyReplace lo_row lo_name "Loopback0"
        | some n =>
          if n == "" then pyReplace lo_row lo_name "Loopback0"
          else pyReplace lo_row lo_name n
      pure { s with appDB := kvSetField s.appDB newRow "NULL" "NULL" }
    else pure s
  let ifdb := if pyContains lo_row "/" then ifdb else ifdb ++ [lo_name]
  pure (s, ifdb)

/-- `DBMigrator.migrate_intf_table`: during warm boot, give every
`INTF_TABLE` APPL_DB entry with an IP prefix an additional prefix-less
entry, migrating `lo` to its configured loopback name. -/
def migrate_intf_table (s : MigState) : Except String MigState := do
  let loAddrToInt : List (String × String) :=
    (cfgGetKeys s.configDB "LOOPBACK_INTERFACE").foldl (fun m k =>
      match k with
      | name :: addr :: _ => fSet m addr name
      | _ => m) []
  let loData := kvKeysMatching s.appDB "INTF_TABLE:"
  let (s, ifdb) ← loData.foldlM (fun st r => intfTableRow loAddrToInt r st) (s, [])
  let data := kvKeysMatching s.appDB "INTF_TABLE:"
  let (s, _) ← data.foldlM (fun (st : MigState × List String) key => do
      let (s, ifdb) := st
      let ifName ← liftOpt "IndexError" (pyIndex (pySplit key ":") 1)
      if ifName ∈ ifdb then pure (s, ifdb)
      else
        pure ({ s with appDB := kvSetField s.appDB ("INTF_TABLE:" ++ ifName) "NULL" "NULL" },
              ifdb ++ [ifName])) (s, ifdb)
  pure s

/-- The two fixed 10G management port entries of the S6100 fix-up
(`db_migrator.py`, `migrate_mgmt_ports_on_s6100`). -/
def s6100PortEntries : List (String × Entry) :=
  [("Ethernet64",
    [("alias", "tenGigE1/1"), ("description", "tenGigE1/1"), ("index", "64"),
     ("lanes", "129"), ("mtu", "9100"), ("pfc_asym", "off"), ("speed", "10000")]),
   ("Ethernet65",
    [("alias", "tenGigE1/2"), ("description", "tenGigE1/2"), ("index", "65"),
     ("lanes", "131"), ("mtu", "9100"), ("pfc_asym", "off"), ("speed", "10000")])]

/-- `DBMigrator.migrate_mgmt_ports_on_s6100`: during warm reboot add the
two removed 10G management ports back to CONFIG_DB and APPL_DB and bump
the APPL_DB port count.  (`int(portCount)` raises when the stored count
is missing or not a plain decimal.) -/
def migrate_mgmt_ports_on_s6100 (env : Env) (s : MigState) : Except String MigState := do
  if env.warm_restart_swss == false then pure s
  else
    let (s, added) := s6100PortEntries.foldl (fun (st : MigState × Nat) pe =>
      let (s, added) := st
      if cfgGetEntry s.configDB "PORT" [pe.1] != [] then (s, added)
      else
        let s := { s with configDB := cfgSetEntry s.configDB "PORT" [pe.1] (some pe.2) }
        let key := "PORT_TABLE:" ++ pe.1
        let s := { s with appDB := pe.2.foldl (fun a (fv : String × String) => kvSetField a key fv.1 fv.2) s.appDB }
        let s := { s with appDB := kvSetField s.appDB key "admin_status" "down" }
        (s, added + 1)) (s, 0)
    match kvGet s.appDB "PORT_TABLE:PortConfigDone" "count" with
    | none => .error "TypeError: int() argument is None"
    | some "" => pure s
    | some pc => do
      let n ← liftOpt "ValueError: invalid literal for int()" (parseNat pc)
      pure { s with
        appDB := kvSetField s.appDB "PORT_TABLE:PortConfigDone" "count" (natToString (n + added)) }

/-! ## The dynamic buffer-calculation migration (version 1.0.6, Mellanox) -/

/-- The outcome of one `BUFFER_PG` row inside the `try` block of
`migrate_config_db_buffer_tables_for_dynamic_calculation`:
`none` — some precondition failed or a lookup raised, so the migration is
abandoned; `some none` — PG `0` with the default lossy profile, skipped;
`some (some item)` — the row passed every check and clearing its profile
reference is pended.  The check order mirrors the source: key unpacking,
`profile['profile'][1:-1].split('|')[1]`, the PG-`0` / `3-4` tests, the
profile-name pattern, then the short-circuited speed and cable-length
comparisons against `PORT` and the first `CABLE_LENGTH` row. -/
def bufferPgOutcome (ports : List (CKey × Entry)) (cableLengths : Entry)
    (k : CKey) (e : Entry) : Option (Option PendingItem) :=
  match k with
  | [port, pg] =>
    match fGet e "profile" with
    | none => none
    | some pv =>
      match pyIndex (pySplit (pyDropEnds pv) "|") 1 with
      | none => none
      | some profile_name =>
        if pg == "0" then
          if profile_name != "ingress_lossy_profile" then none else some none
        else if pg != "3-4" then none
        else
          match profileSearch profile_name with
          | none => none
          | some (speed, cable_length) =>
            match (ports.find? (fun p => p.1 == [port])).map (·.2) with
            | none => none
            | some portEntry =>
              match fGet portEntry "speed" with
              | none => none
              | some pspeed =>
                if speed != pspeed then none
                else
                  match fGet cableLengths port with
                  | none => none
                  | some plen =>
                    if cable_length == plen then
                      some (some ("BUFFER_PG", k, some [("profile", "NULL")]))
                    else none
  | _ => none

/-- The `BUFFER_PG` loop of the dynamic-calculation migration, with its
early `return True` on abandon (second component: was it abandoned?). -/
def processBufferPgs {σ : Type} (abandon_method : σ → σ)
    (append_item_method : PendingItem → σ → σ)
    (ports : List (CKey × Entry)) (cableLengths : Entry) :
    List (CKey × Entry) → σ → σ × Bool
  | [], st => (st, false)
  | ke :: rest, st =>
    match bufferPgOutcome ports cableLengths ke.1 ke.2 with
    | none => (abandon_method st, true)
    | some none => processBufferPgs abandon_method append_item_method ports cableLengths rest st
    | some (some it) =>
      processBufferPgs abandon_method append_item_method ports cableLengths rest
        (append_item_method it st)

/-- The `BUFFER_PROFILE` loop of the dynamic-calculation migration: pend
the removal of every profile whose name matches the lossless convention
with a supported speed and cable length.  (A compound key would reach
`re.search` as a tuple and raise `TypeError` outside any `try`.) -/
def pendProfileRemovals {σ : Type} (speed_list cable_len_list : List String)
    (append_item_method : PendingItem → σ → σ) :
    List (CKey × Entry) → σ → Except String σ
  | [], st => .ok st
  | ke :: rest, st => do
    let name ← match ke.1 with
      | [n] => pure n
      | _ => Except.error "TypeError: expected string or bytes-like object"
    let st := match profileSearch name with
      | none => st
      | some sc =>
        if sc.1 ∈ speed_list ∧ sc.2 ∈ cable_len_list then
          append_item_method ("BUFFER_PROFILE", ke.1, none) st
        else st
    pendProfileRemovals speed_list cable_len_list append_item_method rest st

/-- `DBMigrator.migrate_config_db_buffer_tables_for_dynamic_calculation`.
Generic in the sub-migrator state `σ` the two callback methods act on,
exactly as the source receives `abandon_method` / `append_item_method` as
opaque callables. -/
def migrate_config_db_buffer_tables_for_dynamic_calculation {σ : Type}
    (db : ConfigDB) (speed_list cable_len_list : List String)
    (default_dynamic_th : String)
    (abandon_method : σ → σ) (append_item_method : PendingItem → σ → σ)
    (st : σ) : Except String (σ × Bool) := do
  let st ← pendProfileRemovals speed_list cable_len_list append_item_method
    (cfgGetTable db "BUFFER_PROFILE") st
  let buffer_pgs := cfgGetTable db "BUFFER_PG"
  let ports := cfgGetTable db "PORT"
  let all_cable_lengths := cfgGetTable db "CABLE_LENGTH"
  if buffer_pgs.isEmpty || ports.isEmpty || all_cable_lengths.isEmpty then
    pure (abandon_method st, true)
  else
    let cable_lengths := ((all_cable_lengths.head?).map (·.2)).getD []
    let (st, aborted) :=
      processBufferPgs abandon_method append_item_method ports cable_lengths buffer_pgs st
    if aborted then pure (st, true)
    else
      let metadata := fSet (cfgGetEntry db "DEVICE_METADATA" ["localhost"]) "buffer_model" "dynamic"
      let st := append_item_method ("DEVICE_METADATA", ["localhost"], some metadata) st
      let st := append_item_method
        ("DEFAULT_LOSSLESS_BUFFER_PARAMETER", ["AZURE"],
         some [("default_dynamic_th", default_dynamic_th)]) st
      let st := append_item_method
        ("LOSSLESS_TRAFFIC_PATTERN", ["AZURE"],
         some [("mtu", "1024"), ("small_packet_percentage", "100")]) st
      pure (st, true)

/-! ## Cross-store buffer propagation for warm reboot -/

/-- Translate one `|`-joined table-then-key reference into the APPL_DB
`:`-joined form, appending `_TABLE` to the referenced table name
(the inner loop over `subitems` of `prepare_dynamic_buffer_for_warm_reboot`). -/
def translateRefItem (item : String) : String :=
  match pySplit item "|" with
  | [] => ""
  | h :: t => t.foldl (fun acc sub => acc ++ ":" ++ sub) (h ++ "_TABLE")

/-- Translate a comma-separated reference field value. -/
def translateRef (r : String) : String :=
  pyJoin "," ((pySplit r ",").map translateRefItem)

/-- Copy one config-store buffer entry into the application store
(the body of the `for key, items in entries.items()` loop): when the
table has a reference field, skip rows with a missing/`NULL` reference
and rewrite the reference with `translateRef`, then write every field
unconditionally under `app_table_name:key`.  Second component: was the
row copied (vs ignored)? -/
def copyBufferEntry (appDB : KVDB) (app_table_name : String)
    (refField : Option String) (k : CKey) (items : Entry) : KVDB × Bool :=
  let write := fun (its : Entry) =>
    let key := app_table_name ++ ":" ++ pyJoin ":" k
    its.foldl (fun a (fv : String × String) => kvSetField a key fv.1 fv.2) appDB
  match refField with
  | none => (write items, true)
  | some rf =>
    match fGet items rf with
    | none => (appDB, false)
    | some r =>
      if r == "" || r == "NULL" then (appDB, false)
      else (write (fSet items rf (translateRef r)), true)

/-- The fixed table list of `prepare_dynamic_buffer_for_warm_reboot`
(table name, optionally provided entries, reference field). -/
def bufferTableList (buffer_pools buffer_profiles buffer_pgs : Option (List (CKey × Entry))) :
    List (String × Option (List (CKey × Entry)) × Option String) :=
  [("BUFFER_POOL", buffer_pools, none),
   ("BUFFER_PROFILE", buffer_profiles, some "pool"),
   ("BUFFER_PG", buffer_pgs, some "profile"),
   ("BUFFER_QUEUE", none, some "profile"),
   ("BUFFER_PORT_INGRESS_PROFILE_LIST", none, some "profile_list"),
   ("BUFFER_PORT_EGRESS_PROFILE_LIST", none, some "profile_list")]

/-- `DBMigrator.prepare_dynamic_buffer_for_warm_reboot`: on the first
warm reboot into a dynamic-buffer image, copy the buffer tables from the
config store into the application store, translating reference-field
separators.  Returns `True` on every path. -/
def prepare_dynamic_buffer_for_warm_reboot (s : MigState)
    (buffer_pools buffer_profiles buffer_pgs : Option (List (CKey × Entry)) := none) :
    MigState × Bool :=
  let warm := kvGet s.stateDB "WARM_RESTART_ENABLE_TABLE|system" "enable"
  let mmu := kvGet s.stateDB "BUFFER_MAX_PARAM_TABLE|global" "mmu_size"
  if !(warm == some "true" && (mmu == none || mmu == some "")) then (s, true)
  else
    let appDB := (bufferTableList buffer_pools buffer_profiles buffer_pgs).foldl
      (fun a tbl =>
        let entries := match tbl.2.1 with
          | some es => if es.isEmpty then cfgGetTable s.configDB tbl.1 else es
          | none => cfgGetTable s.configDB tbl.1
        entries.foldl (fun a ke =>
          (copyBufferEntry a (tbl.1 ++ "_TABLE") tbl.2.2 ke.1 ke.2).1) a) s.appDB
    ({ s with appDB := appDB }, true)

/-! ## Migration operations, part 2 -/

/-- APPL_DB `get_table`: rows under `t ++ ":"` with the `:`-split row key
(`ConfigDBConnector.get_table` on the application store). -/
def kvGetTable (db : KVDB) (t : String) : List (CKey × Entry) :=
  db.filterMap (fun p =>
    if pyStartsWith p.1 (t ++ ":") then
      some (pySplit (List.asString (p.1.data.drop (t ++ ":").data.length)) ":", p.2)
    else none)

/-- `DBMigrator.migrate_config_db_port_table_for_auto_neg`: rewrite the
legacy `autoneg` values `1`/`0` to `on`/`off`, filling `adv_speeds` from
`speed` when turning autoneg on. -/
def migrate_config_db_port_table_for_auto_neg (db : ConfigDB) : ConfigDB :=
  (cfgGetTable db "PORT").foldl (fun d ke =>
    match fGet ke.2 "autoneg" with
    | some "1" =>
      let d := cfgSetField d "PORT" ke.1 "autoneg" "on"
      if fHas ke.2 "speed" && !(fHas ke.2 "adv_speeds") then
        cfgSetField d "PORT" ke.1 "adv_speeds" ((fGet ke.2 "speed").getD "")
      else d
    | some "0" => cfgSetField d "PORT" ke.1 "autoneg" "off"
    | _ => d) db

/-- `DBMigrator.migrate_config_db_port_table_for_dhcp_rate_limit`:
ensure every port carries a `dhcp_rate_limit`, defaulting to `300`. -/
def migrate_config_db_port_table_for_dhcp_rate_limit (db : ConfigDB) : ConfigDB :=
  (cfgGetTable db "PORT").foldl (fun d ke =>
    match fGet ke.2 "dhcp_rate_limit" with
    | some v => cfgSetField d "PORT" ke.1 "dhcp_rate_limit" v
    | none => cfgSetField d "PORT" ke.1 "dhcp_rate_limit" "300") db

/-- Convert one ABNF-format reference field value to its plain form
(the inner rewrite of `migrate_qos_db_fieldval_reference_remove`):
keep, for each `[Table<delim>name]` item, just `name`, comma-joined.
An empty comma item raises `IndexError` at `item[0]`. -/
def qosRemoveFieldRef (delim : String) (fieldVal : String) : Except String String := do
  let newVal ← (pySplit fieldVal ",").foldlM (fun (acc : String) item => do
      let c0 ← liftOpt "IndexError" item.data.head?
      if c0 != '[' || !(pyContains item delim) then pure acc
      else if item.data.getLast? != some ']' then pure acc
      else do
        let part ← liftOpt "IndexError" (pyIndex (pySplit (pyDropEnds item) delim) 1)
        pure (acc ++ part ++ ",")) ""
  pure (List.asString newVal.data.dropLast)

/-- `DBMigrator.migrate_qos_db_fieldval_reference_remove`, generic over
the store `σ` (`db` argument), its `get_table` and its raw field `set`,
with the store's key delimiter. -/
def migrate_qos_db_fieldval_reference_remove {σ : Type}
    (get_table : σ → String → List (CKey × Entry))
    (setField : σ → String → CKey → String → String → σ)
    (delim : String)
    (table_list : List (String × List String)) (db : σ) : Except String σ :=
  table_list.foldlM (fun db pair =>
    (get_table db pair.1).foldlM (fun db ke =>
      pair.2.foldlM (fun db field =>
        match fGet ke.2 field with
        | none => pure db
        | some fv =>
          if fv == "" || fv == "NULL" then pure db
          else if pyContains fv "[" && pyContains fv delim && pyContains fv "]" then do
            let nv ← qosRemoveFieldRef delim fv
            pure (setField db pair.1 ke.1 field nv)
          else pure db) db) db) db

/-- The APPL_DB table/field list of `migrate_qos_fieldval_reference_format`. -/
def qosAppTableList : List (String × List String) :=
  [("BUFFER_PG_TABLE", ["profile"]),
   ("BUFFER_QUEUE_TABLE", ["profile"]),
   ("BUFFER_PROFILE_TABLE", ["pool"]),
   ("BUFFER_PORT_INGRESS_PROFILE_LIST_TABLE", ["profile_list"]),
   ("BUFFER_PORT_EGRESS_PROFILE_LIST_TABLE", ["profile_list"])]

/-- The CONFIG_DB table/field list of `migrate_qos_fieldval_reference_format`. -/
def qosCfgTableList : List (String × List String) :=
  [("QUEUE", ["scheduler", "wred_profile"]),
   ("PORT_QOS_MAP", ["dscp_to_tc_map", "dot1p_to_tc_map", "pfc_to_queue_map",
                     "tc_to_pg_map", "tc_to_queue_map", "pfc_to_pg_map"]),
   ("BUFFER_PG", ["profile"]),
   ("BUFFER_QUEUE", ["profile"]),
   ("BUFFER_PROFILE", ["pool"]),
   ("BUFFER_PORT_INGRESS_PROFILE_LIST", ["profile_list"]),
   ("BUFFER_PORT_EGRESS_PROFILE_LIST", ["profile_list"])]

/-- `DBMigrator.migrate_qos_fieldval_reference_format`: strip the ABNF
`[Table:name]` / `[Table|name]` reference format from the APPL_DB and
CONFIG_DB QoS tables.  Returns `True`. -/
def migrate_qos_fieldval_reference_format (s : MigState) : Except String (MigState × Bool) := do
  let app ← migrate_qos_db_fieldval_reference_remove kvGetTable
    (fun db t k f v => kvSetField db (t ++ ":" ++ pyJoin ":" k) f v) ":" qosAppTableList s.appDB
  let cfg ← migrate_qos_db_fieldval_reference_remove cfgGetTable
    cfgSetField "|" qosCfgTableList s.configDB
  pure ({ s with appDB := app, configDB := cfg }, true)

/-- `DBMigrator.migrate_vxlan_config`: copy every `VXLAN_TUNNEL*` config
entry into the application store under the `_TABLE`-suffixed, `:`-joined
key, writing each field only when APPL_DB does not already have it. -/
def migrate_vxlan_config (s : MigState) : MigState :=
  let vxlan_data := (s.configDB.map (fun r => rawKey r.1 r.2.1)).filter
    (fun k => pyStartsWith k "VXLAN_TUNNEL")
  vxlan_data.foldl (fun s vk =>
    let parts := pySplit vk "|"
    let mapping := match parts with
      | t :: k => cfgGetEntry s.configDB t k
      | [] => []
    let appKey := match parts with
      | h :: rest => pyJoin ":" ((h ++ "_TABLE") :: rest)
      | [] => ""
    mapping.foldl (fun s (fv : String × String) =>
      if kvHexists s.appDB appKey fv.1 then s
      else { s with appDB := kvSetField s.appDB appKey fv.1 fv.2 }) s) s

/-- The truthiness test `if not self.config_src_data` on the
source-of-truth snapshot (an empty dict is falsy). -/
def srcData (env : Env) : Option SrcData :=
  match env.config_src_data with
  | some [] => none
  | x => x

/-- `DBMigrator.migrate_restapi`: fill the `RESTAPI` `config` and `certs`
keys from the snapshot when absent. -/
def migrate_restapi (env : Env) (db : ConfigDB) : ConfigDB :=
  match (srcData env).bind (fun src => srcGet src "RESTAPI") with
  | none => db
  | some restapi_data =>
    let db := if cfgGetEntry db "RESTAPI" ["config"] == [] then
        cfgSetEntry db "RESTAPI" ["config"] (srcTblGet restapi_data "config")
      else db
    if cfgGetEntry db "RESTAPI" ["certs"] == [] then
      cfgSetEntry db "RESTAPI" ["certs"] (srcTblGet restapi_data "certs")
    else db

/-- `DBMigrator.migrate_telemetry`: fill the `TELEMETRY` `gnmi` and
`certs` keys from the snapshot when absent. -/
def migrate_telemetry (env : Env) (db : ConfigDB) : ConfigDB :=
  match (srcData env).bind (fun src => srcGet src "TELEMETRY") with
  | none => db
  | some telemetry_data =>
    let db := if cfgGetEntry db "TELEMETRY" ["gnmi"] == [] then
        cfgSetEntry db "TELEMETRY" ["gnmi"] (srcTblGet telemetry_data "gnmi")
      else db
    if cfgGetEntry db "TELEMETRY" ["certs"] == [] then
      cfgSetEntry db "TELEMETRY" ["certs"] (srcTblGet telemetry_data "certs")
    else db

/-- `DBMigrator.migrate_gnmi`: skip only when both `GNMI` keys exist;
otherwise copy from the snapshot's `GNMI` table, or — when there is no
snapshot at all — from the CONFIG_DB `TELEMETRY` table. -/
def migrate_gnmi (env : Env) (db : ConfigDB) : ConfigDB :=
  let gnmi := cfgGetEntry db "GNMI" ["gnmi"]
  let certs := cfgGetEntry db "GNMI" ["certs"]
  if gnmi != [] && certs != [] then db
  else
    match srcData env with
    | some src =>
      match srcGet src "GNMI" with
      | none => db
      | some gnmi_data =>
        let db := match srcTblGet gnmi_data "gnmi" with
          | some v => cfgSetEntry db "GNMI" ["gnmi"] (some v)
          | none => db
        match srcTblGet gnmi_data "certs" with
        | some v => cfgSetEntry db "GNMI" ["certs"] (some v)
        | none => db
    | none =>
      let g := cfgGetEntry db "TELEMETRY" ["gnmi"]
      let db := if g != [] then cfgSetEntry db "GNMI" ["gnmi"] (some g) else db
      let c := cfgGetEntry db "TELEMETRY" ["certs"]
      if c != [] then cfgSetEntry db "GNMI" ["certs"] (some c) else db

/-- `DBMigrator.migrate_console_switch`: fill `CONSOLE_SWITCH|console_mgmt`
from the snapshot when absent. -/
def migrate_console_switch (env : Env) (db : ConfigDB) : ConfigDB :=
  match (srcData env).bind (fun src => srcGet src "CONSOLE_SWITCH") with
  | none => db
  | some data =>
    if cfgGetEntry db "CONSOLE_SWITCH" ["console_mgmt"] == [] then
      cfgSetEntry db "CONSOLE_SWITCH" ["console_mgmt"] (srcTblGet data "console_mgmt")
    else db

/-- `DBMigrator.migrate_device_metadata`: add `synchronous_mode` from the
snapshot when the localhost metadata lacks it (`config_src_data
["DEVICE_METADATA"]["localhost"]` raises `KeyError` when missing; a
snapshot value of Python `None` is serialized as the string `None`). -/
def migrate_device_metadata (env : Env) (db : ConfigDB) : Except String ConfigDB :=
  match (srcData env).bind (fun src => srcGet src "DEVICE_METADATA") with
  | none => pure db
  | some dm => do
    let dmd ← liftOpt "KeyError: localhost" (srcTblGet dm "localhost")
    let metadata := cfgGetEntry db "DEVICE_METADATA" ["localhost"]
    if fHas metadata "synchronous_mode" then pure db
    else
      pure (cfgSetEntry db "DEVICE_METADATA" ["localhost"]
        (some (fSet metadata "synchronous_mode" ((fGet dmd "synchronous_mode").getD "None"))))

/-- `DBMigrator.migrate_dns_nameserver`: load `DNS_NAMESERVER` from the
snapshot only when the CONFIG_DB table is entirely empty. -/
def migrate_dns_nameserver (env : Env) (db : ConfigDB) : ConfigDB :=
  match (srcData env).bind (fun src => srcGet src "DNS_NAMESERVER") with
  | none => db
  | some tbl =>
    if (cfgGetTable db "DNS_NAMESERVER").isEmpty then
      tbl.foldl (fun d ac => cfgSetEntry d "DNS_NAMESERVER" [ac.1] (some ac.2)) db
    else db

/-- `DBMigrator.migrate_routing_config_mode`: overwrite
`docker_routing_config_mode` with the snapshot value when it is missing
or differs (`["localhost"]` raises `KeyError` when the snapshot lacks it). -/
def migrate_routing_config_mode (env : Env) (db : ConfigDB) : Except String ConfigDB :=
  match (srcData env).bind (fun src => srcGet src "DEVICE_METADATA") with
  | none => pure db
  | some dm => do
    let device_metadata_new ← liftOpt "KeyError: localhost" (srcTblGet dm "localhost")
    let device_metadata_old := cfgGetEntry db "DEVICE_METADATA" ["localhost"]
    let fOld := fGet device_metadata_old "docker_routing_config_mode"
    let fNew := fGet device_metadata_new "docker_routing_config_mode"
    if (fOld == none && fNew != none) || fOld != fNew then
      pure (cfgSetEntry db "DEVICE_METADATA" ["localhost"]
        (some (fSet device_metadata_old "docker_routing_config_mode" (fNew.getD "None"))))
    else pure db

/-- `DBMigrator.update_edgezone_aggregator_config`: when EdgeZone
Aggregator neighbors exist and `CABLE_LENGTH|AZURE` lengths are not all
equal, pin the lengths of the EdgeZone-connected interfaces to `40m`.
(A compound key never equals the neighbor-name string; an empty
`CABLE_LENGTH|AZURE` entry raises `StopIteration` at `next(iter(...))`.) -/
def update_edgezone_aggregator_config (db : ConfigDB) : Except String ConfigDB := do
  let device_neighbor_metadata := cfgGetTable db "DEVICE_NEIGHBOR_METADATA"
  let device_neighbors := cfgGetTable db "DEVICE_NEIGHBOR"
  let edgezone_aggregator_devs : List (Option String) :=
    device_neighbor_metadata.foldl (fun acc ke =>
      if fGet ke.2 "type" == some "EdgeZoneAggregator" then
        acc ++ [match ke.1 with | [n] => some n | _ => none]
      else acc) []
  if edgezone_aggregator_devs.length == 0 then pure db
  else do
    let edgezone_aggregator_intfs : List (Option String) :=
      device_neighbors.foldl (fun acc ke =>
        if (fGet ke.2 "name").isSome && (fGet ke.2 "name") ∈ edgezone_aggregator_devs then
          acc ++ [match ke.1 with | [n] => some n | _ => none]
        else acc) []
    let cable_length_table := cfgGetEntry db "CABLE_LENGTH" ["AZURE"]
    let first ← liftOpt "StopIteration" cable_length_table.head?
    if cable_length_table.all (fun il => il.2 == first.2) then pure db
    else
      pure (cable_length_table.foldl (fun d (il : String × String) =>
        if some il.1 ∈ edgezone_aggregator_intfs then
          cfgSetField d "CABLE_LENGTH" ["AZURE"] il.1 "40m"
        else d) db)

/-- `DBMigrator.migrate_config_db_flex_counter_delay_status`: force
`FLEX_COUNTER_DELAY_STATUS` to `true` when it is absent or `false`. -/
def migrate_config_db_flex_counter_delay_status (db : ConfigDB) : ConfigDB :=
  (cfgGetKeys db "FLEX_COUNTER_TABLE").foldl (fun d obj =>
    let flex_counter := cfgGetEntry d "FLEX_COUNTER_TABLE" obj
    let ds := fGet flex_counter "FLEX_COUNTER_DELAY_STATUS"
    if ds == none || ds == some "false" then
      cfgModEntry d "FLEX_COUNTER_TABLE" obj
        (fSet flex_counter "FLEX_COUNTER_DELAY_STATUS" "true")
    else d) db

/-- `DBMigrator.migrate_flex_counter_delay_status_removal`: drop the
`FLEX_COUNTER_DELAY_STATUS` field everywhere. -/
def migrate_flex_counter_delay_status_removal (db : ConfigDB) : ConfigDB :=
  (cfgGetKeys db "FLEX_COUNTER_TABLE").foldl (fun d obj =>
    cfgSetEntry d "FLEX_COUNTER_TABLE" obj
      (some (fRemove (cfgGetEntry d "FLEX_COUNTER_TABLE" obj) "FLEX_COUNTER_DELAY_STATUS"))) db

/-- `DBMigrator.migrate_sflow_table`: default `sample_direction` to `rx`
in the CONFIG_DB `SFLOW`/`SFLOW_SESSION` tables and the APPL_DB
`SFLOW_TABLE`/`SFLOW_SESSION_TABLE` tables (APPL_DB keys of these tables
are single-component in practice). -/
def migrate_sflow_table (s : MigState) : MigState :=
  let cfg := (cfgGetTable s.configDB "SFLOW").foldl (fun d ke =>
    if fHas ke.2 "sample_direction" then d
    else cfgSetEntry d "SFLOW" ke.1 (some (fSet ke.2 "sample_direction" "rx"))) s.configDB
  let cfg := (cfgGetTable cfg "SFLOW_SESSION").foldl (fun d ke =>
    if fHas ke.2 "sample_direction" then d
    else cfgSetEntry d "SFLOW_SESSION" ke.1 (some (fSet ke.2 "sample_direction" "rx"))) cfg
  let app := (kvGetTable s.appDB "SFLOW_TABLE").foldl (fun a ke =>
    if fHas ke.2 "sample_direction" then a
    else kvSetField a ("SFLOW_TABLE:" ++ pyJoin ":" ke.1) "sample_direction" "rx") s.appDB
  let app := (kvGetTable app "SFLOW_SESSION_TABLE").foldl (fun a ke =>
    if fHas ke.2 "sample_direction" then a
    else kvSetField a ("SFLOW_SESSION_TABLE:" ++ pyJoin ":" ke.1) "sample_direction" "rx") app
  { s with configDB := cfg, appDB := app }

/-- `DBMigrator.migrate_tacplus`: fill `TACPLUS|global` from the snapshot
when absent. -/
def migrate_tacplus (env : Env) (db : ConfigDB) : ConfigDB :=
  match (srcData env).bind (fun src => srcGet src "TACPLUS") with
  | none => db
  | some tacplus_new =>
    if cfgGetEntry db "TACPLUS" ["global"] == [] then
      cfgSetEntry db "TACPLUS" ["global"] (srcTblGet tacplus_new "global")
    else db

/-- `DBMigrator.migrate_aaa`: fill `AAA` `authentication` and `accounting`
from the snapshot when absent; fill `authorization` only when
`TACPLUS|global` carries a non-empty `passkey`, otherwise actively delete
any existing `AAA|authorization` key. -/
def migrate_aaa (env : Env) (db : ConfigDB) : ConfigDB :=
  match (srcData env).bind (fun src => srcGet src "AAA") with
  | none => db
  | some aaa_new =>
    let db := if cfgGetEntry db "AAA" ["authentication"] == [] then
        cfgSetEntry db "AAA" ["authentication"] (srcTblGet aaa_new "authentication")
      else db
    let db := if cfgGetEntry db "AAA" ["accounting"] == [] then
        cfgSetEntry db "AAA" ["accounting"] (srcTblGet aaa_new "accounting")
      else db
    let tacplus_config := cfgGetEntry db "TACPLUS" ["global"]
    if fHas tacplus_config "passkey" && fGet tacplus_config "passkey" != some "" then
      if cfgGetEntry db "AAA" ["authorization"] == [] then
        cfgSetEntry db "AAA" ["authorization"] (srcTblGet aaa_new "authorization")
      else db
    else
      if (cfgFind db "AAA" ["authorization"]).isSome then
        cfgDeleteEntry db "AAA" ["authorization"]
      else db

/-- `DBMigrator.migrate_dhcp_servers_to_dhcpv4_relay`: move each VLAN's
`dhcp_servers` into `DHCPV4_RELAY|<vlan>` as `dhcpv4_servers` (when not
already set there) and drop the field from the VLAN entry.  The
post-write verification re-read always matches what was just written. -/
def migrate_dhcp_servers_to_dhcpv4_relay (db : ConfigDB) : ConfigDB :=
  (cfgGetTable db "VLAN").foldl (fun d ke =>
    match fGet ke.2 "dhcp_servers" with
    | none => d
    | some dhcp_servers =>
      let relay_data := cfgGetEntry d "DHCPV4_RELAY" ke.1
      let d := if fHas relay_data "dhcpv4_servers" then d
        else cfgSetEntry d "DHCPV4_RELAY" ke.1
          (some (fSet relay_data "dhcpv4_servers" dhcp_servers))
      cfgSetEntry d "VLAN" ke.1 (some (fRemove ke.2 "dhcp_servers"))) db

/-- `DBMigrator.migrate_port_qos_map_global`: on Broadcom, create a
global `PORT_QOS_MAP` entry referencing the first `DSCP_TO_TC_MAP` key. -/
def migrate_port_qos_map_global (env : Env) (db : ConfigDB) : ConfigDB :=
  if env.asic_type != "broadcom" then db
  else
    match cfgGetKeys db "DSCP_TO_TC_MAP" with
    | [] => db
    | n0 :: _ =>
      if ["global"] ∈ cfgGetKeys db "PORT_QOS_MAP" then db
      else cfgSetEntry db "PORT_QOS_MAP" ["global"]
        (some [("dscp_to_tc_map", pyJoin "|" n0)])

/-- `DBMigrator.migrate_ipinip_tunnel`: split `dst_ip`/`src_ip` off each
APPL_DB `TUNNEL_DECAP_TABLE` entry into `TUNNEL_DECAP_TERM_TABLE` decap
terms (keys of this APPL_DB table are single-component in practice). -/
def migrate_ipinip_tunnel (s : MigState) : MigState :=
  (kvGetTable s.appDB "TUNNEL_DECAP_TABLE").foldl (fun s ke =>
    let key := pyJoin ":" ke.1
    let dst_ip := fGet ke.2 "dst_ip"
    let src_ip := fGet ke.2 "src_ip"
    let attrs := fRemove (fRemove ke.2 "dst_ip") "src_ip"
    let dstTruthy := dst_ip != none && dst_ip != some ""
    let srcTruthy := src_ip != none && src_ip != some ""
    let s := if dstTruthy then
        (pySplit ((dst_ip).getD "") ",").foldl (fun s dip =>
          let tk := pyJoin ":" ["TUNNEL_DECAP_TERM_TABLE", key, dip]
          if srcTruthy then
            let a := kvSetField s.appDB tk "src_ip" (src_ip.getD "")
            { s with appDB := kvSetField a tk "term_type" "P2P" }
          else { s with appDB := kvSetField s.appDB tk "term_type" "P2MP" }) s
      else s
    if dstTruthy || srcTruthy then
      { s with appDB := kvSetAll s.appDB ("TUNNEL_DECAP_TABLE:" ++ key) attrs }
    else s) s

/-- The per-key body of the LOGLEVEL-store drain of `version_3_0_5`:
re-home the key's `LOGLEVEL`/`LOGOUTPUT` fields under `LOGGER|component`
(any per-key failure is caught and logged), and delete the key in the
`finally` block regardless. -/
def drainLoglevelKey (s : MigState) (key : String) : MigState :=
  let s :=
    if key == "JINJA2_CACHE" then s
    else
      let fvs := kvGetAll s.loglevelDB key
      match pyIndex (pySplit key ":") 1, fGet fvs "LOGLEVEL", fGet fvs "LOGOUTPUT" with
      | some component, some loglevel, some logoutput =>
        let c := cfgSetField s.configDB "LOGGER" [component] "LOGLEVEL" loglevel
        { s with configDB := cfgSetField c "LOGGER" [component] "LOGOUTPUT" logoutput }
      | _, _, _ => s
  { s with loglevelDB := kvDelete s.loglevelDB key }

/-! ## Mellanox sub-migrator call wrappers

Each wrapper records the delegated call in the trace (used to state the
short-circuit evaluation order) and returns the opaque boolean result
from the environment. -/

/-- `mlnx_migrate_buffer_pool_size(from, to)`. -/
def mlnxPoolSize (env : Env) (fromV toV : String) (s : MigState) : MigState × Bool :=
  ({ s with trace := s.trace ++ ["mlnx_migrate_buffer_pool_size " ++ fromV ++ " " ++ toV] },
   env.mlnx_pool_size fromV toV)

/-- `mlnx_migrate_buffer_profile(from, to)`. -/
def mlnxProfile (env : Env) (fromV toV : String) (s : MigState) : MigState × Bool :=
  ({ s with trace := s.trace ++ ["mlnx_migrate_buffer_profile " ++ fromV ++ " " ++ toV] },
   env.mlnx_profile fromV toV)

/-- `mlnx_is_buffer_model_dynamic()`. -/
def mlnxIsDynamic (env : Env) (s : MigState) : MigState × Bool :=
  ({ s with trace := s.trace ++ ["mlnx_is_buffer_model_dynamic"] }, env.mlnx_is_dynamic)

/-- `mlnx_reclaiming_unused_buffer()` (its return value is discarded by
the caller, `version_3_0_3`). -/
def mlnxReclaiming (env : Env) (s : MigState) : MigState × Bool :=
  ({ s with trace := s.trace ++ ["mlnx_reclaiming_unused_buffer"] }, env.mlnx_reclaiming)

/-- `mlnx_flush_new_buffer_configuration()`.  The flush of the pending
list into the config store is modelled from the spec (the sub-migrator
is outside `src/`): pending edits are applied unless abandoned, then the
list is reset; the boolean result comes from the environment. -/
def mlnxFlushCall (env : Env) (s : MigState) : MigState × Bool :=
  ({ s with configDB := mlnxApplyPending s.pending s.configDB,
            pending := ⟨[], false⟩,
            trace := s.trace ++ ["mlnx_flush_new_buffer_configuration"] },
   env.mlnx_flush)

/-! ## Version marker access and the per-version handlers -/

/-- `DBMigrator.CURRENT_VERSION`. -/
def CURRENT_VERSION : String := "version_202505_01"

/-- `DBMigrator.set_version`: rewrite `VERSIONS|DATABASE` to
`{VERSION: version}` (an empty argument stands for Python `None` and
falls back to `CURRENT_VERSION`). -/
def set_version (version : String) (s : MigState) : MigState :=
  let v := if version == "" then CURRENT_VERSION else version
  { s with configDB := cfgSetEntry s.configDB "VERSIONS" ["DATABASE"] (some [("VERSION", v)]) }

/-- `DBMigrator.get_version`: the stored marker; `version_unknown` when
the entry is absent or the `VERSION` value is empty; a non-empty entry
without the `VERSION` field raises `KeyError`. -/
def get_version (s : MigState) : Except String String :=
  let version := cfgGetEntry s.configDB "VERSIONS" ["DATABASE"]
  if version == [] then pure "version_unknown"
  else
    match fGet version "VERSION" with
    | none => .error "KeyError: VERSION"
    | some "" => pure "version_unknown"
    | some v => pure v

/-- The type of a dispatched `DBMigrator` method body: it may raise, and
returns the updated stores plus the method's return value seen as the
next version (`none` for Python `None`). -/
abbrev HBody := Env → MigState → Except String (MigState × Option String)

/-- `FEATURE|dhcp_relay` gate shared by the 202305/202311/202405 steps:
run the DHCPv4-relay migration only when `has_sonic_dhcpv4_relay` is the
string `True`. -/
def dhcpRelayFeatureCheck (db : ConfigDB) : ConfigDB :=
  let feature_table := cfgGetTable db "FEATURE"
  let dhcp := (((feature_table.find? (fun ke => ke.1 == ["dhcp_relay"]))).map (·.2)).getD []
  if fGet dhcp "has_sonic_dhcpv4_relay" == some "True" then
    migrate_dhcp_servers_to_dhcpv4_relay db
  else db

/-- `DBMigrator.version_unknown` (the bootstrap handler). -/
def version_unknown : HBody := fun _ s => do
  let s := { s with configDB := migrate_pfc_wd_table s.configDB }
  let s := { s with configDB := migrate_interface_table s.configDB }
  let s ← migrate_intf_table s
  pure (set_version "version_1_0_2" s, some "version_1_0_2")

/-- `DBMigrator.version_1_0_1`. -/
def version_1_0_1 : HBody := fun _ s => do
  let s := { s with configDB := migrate_interface_table s.configDB }
  let s ← migrate_intf_table s
  pure (set_version "version_1_0_2" s, some "version_1_0_2")

/-- `DBMigrator.version_1_0_2`. -/
def version_1_0_2 : HBody := fun env s =>
  let s :=
    if env.asic_type == "mellanox" then
      let (s, b1) := mlnxPoolSize env "version_1_0_2" "version_1_0_3" s
      if b1 then
        let (s, b2) := mlnxFlushCall env s
        if b2 then set_version "version_1_0_3" s else s
      else s
    else set_version "version_1_0_3" s
  .ok (s, some "version_1_0_3")

/-- The shared shape of `version_1_0_3` … `version_1_0_5`: on Mellanox,
advance only when pool-size, profile and flush migrations all succeed
(short-circuit); otherwise advance unconditionally. -/
def mlnxGatedStep (env : Env) (fromV toV : String) (s : MigState) : MigState :=
  if env.asic_type == "mellanox" then
    let (s, b1) := mlnxPoolSize env fromV toV s
    if b1 then
      let (s, b2) := mlnxProfile env fromV toV s
      if b2 then
        let (s, b3) := mlnxFlushCall env s
        if b3 then set_version toV s else s
      else s
    else s
  else set_version toV s

/-- `DBMigrator.version_1_0_3`. -/
def version_1_0_3 : HBody := fun env s =>
  let s := { s with configDB := migrate_feature_table s.configDB }
  .ok (mlnxGatedStep env "version_1_0_3" "version_1_0_4" s, some "version_1_0_4")

/-- `DBMigrator.version_1_0_4`. -/
def version_1_0_4 : HBody := fun env s =>
  .ok (mlnxGatedStep env "version_1_0_4" "version_1_0_5" s, some "version_1_0_5")

/-- `DBMigrator.version_1_0_5`. -/
def version_1_0_5 : HBody := fun env s =>
  .ok (mlnxGatedStep env "version_1_0_5" "version_1_0_6" s, some "version_1_0_6")

/-- `DBMigrator.version_1_0_6`: on Mellanox the step gates on the
buffer-pool, buffer-profile, (conditionally) dynamic-calculation, flush
and warm-reboot-preparation results in short-circuit conjunction; on
other platforms it runs the warm-reboot preparation and pins
`buffer_model` to `traditional`. -/
def version_1_0_6 : HBody := fun env s =>
  if env.asic_type == "mellanox" then
    let buffer_pools := cfgGetTable s.configDB "BUFFER_POOL"
    let buffer_profiles := cfgGetTable s.configDB "BUFFER_PROFILE"
    let buffer_pgs := cfgGetTable s.configDB "BUFFER_PG"
    let (s, b1) := mlnxPoolSize env "version_1_0_6" "version_2_0_0" s
    if b1 then
      let (s, b2) := mlnxProfile env "version_1_0_6" "version_2_0_0" s
      if b2 then do
        let (s, b3) := mlnxIsDynamic env s
        let (s, b4) ←
          if b3 then do
            let pr ← migrate_config_db_buffer_tables_for_dynamic_calculation
              s.configDB env.default_speed_list env.default_cable_len_list "0"
              mlnxAbandon mlnxAppendItem s.pending
            pure ({ s with pending := pr.1 }, pr.2)
          else pure (s, true)
        if b4 then
          let (s, b5) := mlnxFlushCall env s
          if b5 then
            let (s, b6) := prepare_dynamic_buffer_for_warm_reboot s
              (some buffer_pools) (some buffer_profiles) (some buffer_pgs)
            if b6 then pure (set_version "version_2_0_0" s, some "version_2_0_0")
            else pure (s, some "version_2_0_0")
          else pure (s, some "version_2_0_0")
        else pure (s, some "version_2_0_0")
      else .ok (s, some "version_2_0_0")
    else .ok (s, some "version_2_0_0")
  else
    let (s, _) := prepare_dynamic_buffer_for_warm_reboot s
    let metadata := fSet (cfgGetEntry s.configDB "DEVICE_METADATA" ["localhost"])
      "buffer_model" "traditional"
    let c := cfgSetEntry s.configDB "DEVICE_METADATA" ["localhost"] (some metadata)
    .ok (set_version "version_2_0_0" ({ s with configDB := c }), some "version_2_0_0")

/-- `DBMigrator.version_2_0_0`. -/
def version_2_0_0 : HBody := fun env s =>
  let s := { s with configDB := migrate_port_qos_map_global env s.configDB }
  .ok (set_version "version_2_0_1" s, some "version_2_0_1")

/-- `DBMigrator.version_2_0_1`. -/
def version_2_0_1 : HBody := fun env s => do
  let s := migrate_vxlan_config s
  let s := { s with configDB := migrate_restapi env s.configDB }
  let s := { s with configDB := migrate_telemetry env s.configDB }
  let s := { s with configDB := migrate_console_switch env s.configDB }
  let c ← migrate_device_metadata env s.configDB
  let s := { s with configDB := c }
  pure (set_version "version_2_0_2" s, some "version_2_0_2")

/-- `DBMigrator.version_2_0_2`. -/
def version_2_0_2 : HBody := fun _ s =>
  .ok (set_version "version_3_0_0" s, some "version_3_0_0")

/-- `DBMigrator.version_3_0_0`. -/
def version_3_0_0 : HBody := fun _ s =>
  let c := migrate_config_db_port_table_for_auto_neg s.configDB
  let c := migrate_config_db_port_table_for_dhcp_rate_limit c
  .ok (set_version "version_3_0_1" ({ s with configDB := c }), some "version_3_0_1")

/-- `DBMigrator.version_3_0_1`: outside warm reboot, pin every
port-channel's `lacp_key` to `auto`. -/
def version_3_0_1 : HBody := fun _ s =>
  let warm := kvGet s.stateDB "WARM_RESTART_ENABLE_TABLE|system" "enable"
  let s :=
    if warm != some "true" then
      { s with configDB := (cfgGetTable s.configDB "PORTCHANNEL").foldl (fun d ke =>
          cfgSetEntry d "PORTCHANNEL" ke.1 (some (fSet ke.2 "lacp_key" "auto"))) s.configDB }
    else s
  .ok (set_version "version_3_0_2" s, some "version_3_0_2")

/-- `DBMigrator.version_3_0_2`. -/
def version_3_0_2 : HBody := fun _ s => do
  let pr ← migrate_qos_fieldval_reference_format s
  pure (set_version "version_3_0_3" pr.1, some "version_3_0_3")

/-- `DBMigrator.version_3_0_3`: on Mellanox, delegate the unused-buffer
reclamation (discarding its result) and advance unconditionally. -/
def version_3_0_3 : HBody := fun env s =>
  let s := if env.asic_type == "mellanox" then (mlnxReclaiming env s).1 else s
  .ok (set_version "version_3_0_4" s, some "version_3_0_4")

/-- `DBMigrator.version_3_0_4`: copy `pfc_enable` to `pfcwd_sw_enable`. -/
def version_3_0_4 : HBody := fun _ s =>
  let c := (cfgGetTable s.configDB "PORT_QOS_MAP").foldl (fun d ke =>
    match fGet ke.2 "pfc_enable" with
    | some v => cfgSetEntry d "PORT_QOS_MAP" ke.1 (some (fSet ke.2 "pfcwd_sw_enable" v))
    | none => d) s.configDB
  .ok (set_version "version_3_0_5" ({ s with configDB := c }), some "version_3_0_5")

/-- `DBMigrator.version_3_0_5`: during warm reboot, drain the LOGLEVEL
store into `LOGGER` (best-effort per key, always deleting the key). -/
def version_3_0_5 : HBody := fun _ s =>
  let warm := kvGet s.stateDB "WARM_RESTART_ENABLE_TABLE|system" "enable"
  let s :=
    if warm == some "true" then
      (s.loglevelDB.map (·.1)).foldl drainLoglevelKey s
    else s
  .ok (set_version "version_3_0_6" s, some "version_3_0_6")

/-- `DBMigrator.version_3_0_6`. -/
def version_3_0_6 : HBody := fun _ s =>
  .ok (set_version "version_3_0_7" s, some "version_3_0_7")

/-- `DBMigrator.version_3_0_7`. -/
def version_3_0_7 : HBody := fun _ s =>
  .ok (set_version "version_4_0_0" s, some "version_4_0_0")

/-- `DBMigrator.version_4_0_0`: seed `FAST_RESTART_ENABLE_TABLE|system`
from the presence of the legacy `FAST_REBOOT|system` key. -/
def version_4_0_0 : HBody := fun _ s =>
  let s :=
    if kvHasKey s.stateDB "FAST_RESTART_ENABLE_TABLE|system" then s
    else
      let enable_state := if kvHasKey s.stateDB "FAST_REBOOT|system" then "true" else "false"
      { s with stateDB :=
          kvSetField s.stateDB "FAST_RESTART_ENABLE_TABLE|system" "enable" enable_state }
  .ok (set_version "version_4_0_1" s, some "version_4_0_1")

/-- `DBMigrator.version_4_0_1`. -/
def version_4_0_1 : HBody := fun _ s =>
  let s := { s with configDB := migrate_feature_timer s.configDB }
  .ok (set_version "version_4_0_2" s, some "version_4_0_2")

/-- `DBMigrator.version_4_0_2`: after fast reboot, delay the flex
counters. -/
def version_4_0_2 : HBody := fun _ s =>
  let s :=
    if kvHasKey s.stateDB "FAST_REBOOT|system" then
      { s with configDB := migrate_config_db_flex_counter_delay_status s.configDB }
    else s
  .ok (set_version "version_4_0_3" s, some "version_4_0_3")

/-- `DBMigrator.version_4_0_3`. -/
def version_4_0_3 : HBody := fun _ s =>
  .ok (set_version "version_202305_01" s, some "version_202305_01")

/-- `DBMigrator.version_202305_01`. -/
def version_202305_01 : HBody := fun _ s =>
  let s := { s with configDB := dhcpRelayFeatureCheck s.configDB }
  .ok (set_version "version_202311_01" s, some "version_202311_01")

/-- `DBMigrator.version_202311_01`. -/
def version_202311_01 : HBody := fun env s =>
  let s := { s with configDB := migrate_dns_nameserver env s.configDB }
  let s := migrate_sflow_table s
  let s := { s with configDB := dhcpRelayFeatureCheck s.configDB }
  .ok (set_version "version_202311_02" s, some "version_202311_02")

/-- `DBMigrator.version_202311_02`. -/
def version_202311_02 : HBody := fun env s =>
  let s := { s with configDB := migrate_gnmi env s.configDB }
  let s := { s with configDB := dhcpRelayFeatureCheck s.configDB }
  .ok (set_version "version_202311_03" s, some "version_202311_03")

/-- `DBMigrator.version_202311_03`. -/
def version_202311_03 : HBody := fun _ s =>
  let s := { s with configDB := dhcpRelayFeatureCheck s.configDB }
  .ok (set_version "version_202405_01" s, some "version_202405_01")

/-- `DBMigrator.version_202405_01`. -/
def version_202405_01 : HBody := fun _ s =>
  let s := { s with configDB := dhcpRelayFeatureCheck s.configDB }
  .ok (set_version "version_202405_02" s, some "version_202405_02")

/-- `DBMigrator.version_202405_02`. -/
def version_202405_02 : HBody := fun _ s =>
  let s := { s with configDB := dhcpRelayFeatureCheck s.configDB }
  let s := migrate_ipinip_tunnel s
  .ok (set_version "version_202411_01" s, some "version_202411_01")

/-- `DBMigrator.version_202411_01`. -/
def version_202411_01 : HBody := fun _ s =>
  .ok (set_version "version_202411_02" s, some "version_202411_02")

/-- `DBMigrator.version_202411_02`. -/
def version_202411_02 : HBody := fun _ s =>
  .ok (set_version "version_202505_01" s, some "version_202505_01")

/-- `DBMigrator.version_202505_01` (the terminal handler: it writes no
marker and returns Python `None`). -/
def version_202505_01 : HBody := fun _ s =>
  .ok ({ s with configDB := migrate_flex_counter_delay_status_removal s.configDB }, none)


/-- The shared shape of the snapshot fill-in steps: write a key from the
snapshot only when `get_entry` returns the empty dict. -/
def fillStep (T k : String) (v : Option Entry) (db : ConfigDB) : ConfigDB :=
  if cfgGetEntry db T [k] == [] then cfgSetEntry db T [k] v else db

/-- The per-command authorization stage at the end of
`DBMigrator.migrate_aaa`: fill `AAA|authorization` only under a non-empty
`passkey`, else delete it. -/
def aaaAuthzStep (v : Option Entry) (db : ConfigDB) : ConfigDB :=
  let tacplus_config := cfgGetEntry db "TACPLUS" ["global"]
  if fHas tacplus_config "passkey" && fGet tacplus_config "passkey" != some "" then
    if cfgGetEntry db "AAA" ["authorization"] == [] then
      cfgSetEntry db "AAA" ["authorization"] v
    else db
  else
    if (cfgFind db "AAA" ["authorization"]).isSome then
      cfgDeleteEntry db "AAA" ["authorization"]
    else db

/-! ## The common post-migration pass -/

/-- The `INIT_CFG` merge loop of `common_migration_ops`: for every
(table, key) of the parsed `init_cfg.json`, write `{**init_cfg,
**curr_cfg}` — existing config-store values win, missing default fields
are added.  The file itself is assumed readable (its parsed contents are
the `init_db` environment field; an unreadable file re-raises before any
of this runs). -/
def applyInitCfg (init_db : List (String × List (String × Entry))) (db : ConfigDB) : ConfigDB :=
  init_db.foldl (fun d tkv =>
    tkv.2.foldl (fun d kv =>
      let key := pySplit kv.1 "|"
      let curr_cfg := cfgGetEntry d tkv.1 key
      cfgSetEntry d tkv.1 key (some (fMerge kv.2 curr_cfg))) d) db

/-- `DBMigrator.common_migration_ops` up to (but excluding) the final
`migrate_aaa` call: the init-config merge, the platform-conditional COPP
cleanup, the S6100 fix-up, the EdgeZone cable-length normalization, the
routing-mode normalization and the TACPLUS fill-in, in source order. -/
def commonOpsPreAaa (env : Env) (s : MigState) : Except String MigState := do
  let s := { s with configDB := applyInitCfg env.init_db s.configDB }
  let s := if env.asic_type != "mellanox" then migrate_copp_table s else s
  let s ←
    if env.asic_type == "broadcom" && pyContains env.hwsku "Force10-S6100" then
      migrate_mgmt_ports_on_s6100 env s
    else pure s
  let c ← update_edgezone_aggregator_config s.configDB
  let c ← migrate_routing_config_mode env c
  let c := migrate_tacplus env c
  pure { s with configDB := c }

/-- `DBMigrator.common_migration_ops`: the pre-AAA operations followed by
`migrate_aaa` as the final operation. -/
def common_migration_ops (env : Env) (s : MigState) : Except String MigState :=
  (commonOpsPreAaa env s).map (fun s => { s with configDB := migrate_aaa env s.configDB })

/-! ## Dynamic dispatch and the driver loop -/

/-- The version-handler attributes of `DBMigrator`, in source order. -/
def versionHandlers : List (String × HBody) :=
  [("version_unknown", version_unknown),
   ("version_1_0_1", version_1_0_1),
   ("version_1_0_2", version_1_0_2),
   ("version_1_0_3", version_1_0_3),
   ("version_1_0_4", version_1_0_4),
   ("version_1_0_5", version_1_0_5),
   ("version_1_0_6", version_1_0_6),
   ("version_2_0_0", version_2_0_0),
   ("version_2_0_1", version_2_0_1),
   ("version_2_0_2", version_2_0_2),
   ("version_3_0_0", version_3_0_0),
   ("version_3_0_1", version_3_0_1),
   ("version_3_0_2", version_3_0_2),
   ("version_3_0_3", version_3_0_3),
   ("version_3_0_4", version_3_0_4),
   ("version_3_0_5", version_3_0_5),
   ("version_3_0_6", version_3_0_6),
   ("version_3_0_7", version_3_0_7),
   ("version_4_0_0", version_4_0_0),
   ("version_4_0_1", version_4_0_1),
   ("version_4_0_2", version_4_0_2),
   ("version_4_0_3", version_4_0_3),
   ("version_202305_01", version_202305_01),
   ("version_202311_01", version_202311_01),
   ("version_202311_02", version_202311_02),
   ("version_202311_03", version_202311_03),
   ("version_202405_01", version_202405_01),
   ("version_202405_02", version_202405_02),
   ("version_202411_01", version_202411_01),
   ("version_202411_02", version_202411_02),
   ("version_202505_01", version_202505_01)]

/-- The other callable `DBMigrator` attributes `getattr` can resolve a
stored marker to.  Zero-argument migration methods run their body and
return their Python value (`None`, a boolean rendered as the string
`"True"` — no attribute of that name exists, so the driver errors on the
next iteration just as `getattr(self, True)` raises — or, for
`get_version`, the stored marker string); methods requiring positional
arguments raise `TypeError` when called with none.  The re-entrant
`migrate` attribute itself is not modelled. -/
def opAttrs : List (String × HBody) :=
  [("generate_config_src", fun _ _ => .error "TypeError: missing argument"),
   ("migrate_pfc_wd_table", fun _ s =>
     .ok ({ s with configDB := migrate_pfc_wd_table s.configDB }, none)),
   ("is_ip_prefix_in_key", fun _ _ => .error "TypeError: missing argument"),
   ("migrate_interface_table", fun _ s =>
     .ok ({ s with configDB := migrate_interface_table s.configDB }, none)),
   ("migrate_mgmt_ports_on_s6100", fun env s =>
     (migrate_mgmt_ports_on_s6100 env s).map (fun s => (s, some "True"))),
   ("migrate_intf_table", fun _ s => (migrate_intf_table s).map (fun s => (s, none))),
   ("migrate_copp_table", fun _ s => .ok (migrate_copp_table s, none)),
   ("migrate_feature_table", fun _ s =>
     .ok ({ s with configDB := migrate_feature_table s.configDB }, none)),
   ("migrate_config_db_buffer_tables_for_dynamic_calculation",
     fun _ _ => .error "TypeError: missing argument"),
   ("prepare_dynamic_buffer_for_warm_reboot", fun _ s =>
     .ok ((prepare_dynamic_buffer_for_warm_reboot s).1, some "True")),
   ("migrate_config_db_port_table_for_auto_neg", fun _ s =>
     .ok ({ s with configDB := migrate_config_db_port_table_for_auto_neg s.configDB }, none)),
   ("migrate_config_db_port_table_for_dhcp_rate_limit", fun _ s =>
     .ok ({ s with configDB := migrate_config_db_port_table_for_dhcp_rate_limit s.configDB },
          none)),
   ("migrate_qos_db_fieldval_reference_remove",
     fun _ _ => .error "TypeError: missing argument"),
   ("migrate_qos_fieldval_reference_format", fun _ s =>
     (migrate_qos_fieldval_reference_format s).map (fun pr => (pr.1, some "True"))),
   ("migrate_vxlan_config", fun _ s => .ok (migrate_vxlan_config s, none)),
   ("migrate_restapi", fun env s =>
     .ok ({ s with configDB := migrate_restapi env s.configDB }, none)),
   ("migrate_telemetry", fun env s =>
     .ok ({ s with configDB := migrate_telemetry env s.configDB }, none)),
   ("migrate_gnmi", fun env s =>
     .ok ({ s with configDB := migrate_gnmi env s.configDB }, none)),
   ("migrate_console_switch", fun env s =>
     .ok ({ s with configDB := migrate_console_switch env s.configDB }, none)),
   ("migrate_device_metadata", fun env s =>
     (migrate_device_metadata env s.configDB).map (fun c => ({ s with configDB := c }, none))),
   ("migrate_ipinip_tunnel", fun _ s => .ok (migrate_ipinip_tunnel s, none)),
   ("migrate_port_qos_map_global", fun env s =>
     .ok ({ s with configDB := migrate_port_qos_map_global env s.configDB }, none)),
   ("migrate_feature_timer", fun _ s =>
     .ok ({ s with configDB := migrate_feature_timer s.configDB }, none)),
   ("migrate_dns_nameserver", fun env s =>
     .ok ({ s with configDB := migrate_dns_nameserver env s.configDB }, none)),
   ("migrate_routing_config_mode", fun env s =>
     (migrate_routing_config_mode env s.configDB).map (fun c => ({ s with configDB := c }, none))),
   ("update_edgezone_aggregator_config", fun _ s =>
     (update_edgezone_aggregator_config s.configDB).map (fun c => ({ s with configDB := c }, none))),
   ("migrate_config_db_flex_counter_delay_status", fun _ s =>
     .ok ({ s with configDB := migrate_config_db_flex_counter_delay_status s.configDB }, none)),
   ("migrate_flex_counter_delay_status_removal", fun _ s =>
     .ok ({ s with configDB := migrate_flex_counter_delay_status_removal s.configDB }, none)),
   ("migrate_sflow_table", fun _ s => .ok (migrate_sflow_table s, none)),
   ("migrate_tacplus", fun env s =>
     .ok ({ s with configDB := migrate_tacplus env s.configDB }, none)),
   ("migrate_aaa", fun env s =>
     .ok ({ s with configDB := migrate_aaa env s.configDB }, none)),
   ("migrate_dhcp_servers_to_dhcpv4_relay", fun _ s =>
     .ok ({ s with configDB := migrate_dhcp_servers_to_dhcpv4_relay s.configDB }, none)),
   ("get_version", fun _ s => (get_version s).map (fun v => (s, some v))),
   ("set_version", fun _ s => .ok (set_version "" s, none)),
   ("common_migration_ops", fun env s => (common_migration_ops env s).map (fun s => (s, none)))]

/-- Everything `getattr(self, version)` can resolve to a callable in this
embedding: the version handlers followed by the other migration methods. -/
def dbMigratorAttrs : List (String × HBody) := versionHandlers ++ opAttrs

/-- `getattr(self, version)`: `none` models `AttributeError`. -/
def dispatch (tbl : List (String × HBody)) (v : String) : Option HBody :=
  (tbl.find? (fun p => p.1 == v)).map (·.2)

/-- Fuel for the driver loop; any value above the chain length is exact. -/
def migrateFuel : Nat := 100

/-- The `while version:` loop of `DBMigrator.migrate`, generic in the
attribute table: resolve the marker (raising `AttributeError` when it
names nothing), run the method, abort when the returned next version
equals the current one, stop when the return value is falsy. -/
def migrateLoop (tbl : List (String × HBody)) (env : Env) :
    Nat → String → MigState → Except String MigState
  | 0, _, _ => .error "fuel exhausted"
  | n + 1, version, s =>
    match dispatch tbl version with
    | none =>
      .error ("AttributeError: 'DBMigrator' object has no attribute '" ++ version ++ "'")
    | some body => do
      let pr ← body env s
      if pr.2 == some version then
        .error ("Version migrate from " ++ version ++ " stuck in same version")
      else
        match pr.2 with
        | none => pure pr.1
        | some nv => if nv == "" then pure pr.1 else migrateLoop tbl env n nv pr.1

/-- `DBMigrator.migrate` over an explicit attribute table: read the
marker, run the chain, then the common pass. -/
def migrateWith (tbl : List (String × HBody)) (env : Env) (s : MigState) :
    Except String MigState := do
  let version ← get_version s
  let s ← migrateLoop tbl env migrateFuel version s
  common_migration_ops env s

/-- `DBMigrator.migrate`. -/
def migrate (env : Env) (s : MigState) : Except String MigState :=
  migrateWith dbMigratorAttrs env s

/-! ## The static successor chain -/

/-- The next version each handler returns (the literal `return` value of
each `version_*` method; `none` is the terminal `return None`). -/
def versionChainNext : List (String × Option String) :=
  [("version_unknown", some "version_1_0_2"),
   ("version_1_0_1", some "version_1_0_2"),
   ("version_1_0_2", some "version_1_0_3"),
   ("version_1_0_3", some "version_1_0_4"),
   ("version_1_0_4", some "version_1_0_5"),
   ("version_1_0_5", some "version_1_0_6"),
   ("version_1_0_6", some "version_2_0_0"),
   ("version_2_0_0", some "version_2_0_1"),
   ("version_2_0_1", some "version_2_0_2"),
   ("version_2_0_2", some "version_3_0_0"),
   ("version_3_0_0", some "version_3_0_1"),
   ("version_3_0_1", some "version_3_0_2"),
   ("version_3_0_2", some "version_3_0_3"),
   ("version_3_0_3", some "version_3_0_4"),
   ("version_3_0_4", some "version_3_0_5"),
   ("version_3_0_5", some "version_3_0_6"),
   ("version_3_0_6", some "version_3_0_7"),
   ("version_3_0_7", some "version_4_0_0"),
   ("version_4_0_0", some "version_4_0_1"),
   ("version_4_0_1", some "version_4_0_2"),
   ("version_4_0_2", some "version_4_0_3"),
   ("version_4_0_3", some "version_202305_01"),
   ("version_202305_01", some "version_202311_01"),
   ("version_202311_01", some "version_202311_02"),
   ("version_202311_02", some "version_202311_03"),
   ("version_202311_03", some "version_202405_01"),
   ("version_202405_01", some "version_202405_02"),
   ("version_202405_02", some "version_202411_01"),
   ("version_202411_01", some "version_202411_02"),
   ("version_202411_02", some "version_202505_01"),
   ("version_202505_01", none)]

/-- Static successor lookup. -/
def staticNext (v : String) : Option (Option String) :=
  (versionChainNext.find? (fun p => p.1 == v)).map (·.2)

/-- The markers reachable by the engine: the bootstrap state plus every
marker some handler writes via `set_version`. -/
def reachableMarkers : List String :=
  ["version_unknown",
   "version_1_0_2", "version_1_0_3", "version_1_0_4", "version_1_0_5", "version_1_0_6",
   "version_2_0_0", "version_2_0_1", "version_2_0_2",
   "version_3_0_0", "version_3_0_1", "version_3_0_2", "version_3_0_3", "version_3_0_4",
   "version_3_0_5", "version_3_0_6", "version_3_0_7",
   "version_4_0_0", "version_4_0_1", "version_4_0_2", "version_4_0_3",
   "version_202305_01", "version_202311_01", "version_202311_02", "version_202311_03",
   "version_202405_01", "version_202405_02",
   "version_202411_01", "version_202411_02", "version_202505_01"]

/-- Number of chain steps from `v` to the terminal handler along the
static successor chain, fuelled. -/
def chainSteps : Nat → String → Option Nat
  | 0, _ => none
  | n + 1, v =>
    match staticNext v with
    | none => none
    | some none => some 0
    | some (some v2) => (chainSteps n v2).map (· + 1)

/-- The version marker entry of a config store. -/
def markerOf (db : ConfigDB) : Option Entry := cfgFind db "VERSIONS" ["DATABASE"]

/-- The non-empty-passkey gate of `migrate_aaa`
(`'passkey' in tacplus_config and '' != tacplus_config.get('passkey')`). -/
def passkeyOk (e : Entry) : Bool := fHas e "passkey" && fGet e "passkey" != some ""

/-- Does some table of the `migrate_interface_table` set hold an
address-less entry for base name `b`? -/
def hasALess (db : ConfigDB) (b : String) : Bool :=
  ifTables.any (fun t => (cfgFind db t [b]).isSome)

/-- The compound-keyed (address-qualified) rows of one table. -/
def cfgCompounds (db : ConfigDB) (t : String) : List (CKey × Entry) :=
  (cfgGetTable db t).filter (fun ke => 2 ≤ ke.1.length)


/-- The invariant carried through `migrate_interface_table`'s second
pass: the collected base names are in the running name list, every
address-less row's base is in the name list, rows of the original store
are untouched, every listed name has an address-less row, compound rows
all come from the original store, and rows at collected bases are
exactly the original rows. -/
def StInv (db : ConfigDB) (st : ConfigDB × List String) : Prop :=
  (∀ b, b ∈ collectIfBases db → b ∈ st.2) ∧
  (∀ t, t ∈ ifTables → ∀ b, (cfgFind st.1 t [b]).isSome = true → b ∈ st.2) ∧
  (∀ t k, (cfgFind db t k).isSome = true → cfgFind st.1 t k = cfgFind db t k) ∧
  (∀ b, b ∈ st.2 → hasALess st.1 b = true) ∧
  (∀ t k e, (t, k, e) ∈ st.1 → 2 ≤ k.length → (t, k, e) ∈ db) ∧
  (∀ b, b ∈ collectIfBases db → ∀ t', cfgFind st.1 t' [b] = cfgFind db t' [b])

/-- For a base name with no pre-existing address-less entry: either no
alias has been created yet (and no interface table holds the base), or
exactly one table holds the alias and its fields are those of some
compound row of the original store. -/
def freshAliasInv (db : ConfigDB) (b : String) (st : ConfigDB × List String) : Prop :=
  (b ∉ st.2 ∧ ∀ t', t' ∈ ifTables → cfgFind st.1 t' [b] = none) ∨
  (b ∈ st.2 ∧ ∃ tw, tw ∈ ifTables ∧ ∃ ev,
    cfgFind st.1 tw [b] = some ev ∧
    (∀ t', t' ∈ ifTables → t' ≠ tw → cfgFind st.1 t' [b] = none) ∧
    ∃ ts, ts ∈ ifTables ∧ ∃ rest, rest ≠ [] ∧ (ts, b :: rest, ev) ∈ db)

/-! ## Concrete fixtures for witnesses and counterexamples -/

/-- A plain non-Mellanox, non-Broadcom environment with no external
snapshot and an empty init file. -/
def baseEnv : Env :=
  { asic_type := "vs", hwsku := "acs", config_src_data := none, init_db := [],
    warm_restart_swss := false,
    mlnx_pool_size := fun _ _ => true, mlnx_profile := fun _ _ => true,
    mlnx_flush := true, mlnx_is_dynamic := true, mlnx_reclaiming := true,
    default_speed_list := [], default_cable_len_list := [] }

/-- Empty stores. -/
def emptyState : MigState :=
  { configDB := [], appDB := [], stateDB := [], loglevelDB := [],
    pending := ⟨[], false⟩, trace := [] }

/-- The C9 scenario: no version marker, only `PFC_WD_TABLE` entries and
one address-keyed `INTERFACE` entry. -/
def scenarioState : MigState :=
  { emptyState with configDB :=
      [("PFC_WD_TABLE", ["Ethernet0"], [("action", "drop"), ("detection_time", "400")]),
       ("PFC_WD_TABLE", ["GLOBAL"], [("POLL_INTERVAL", "400")]),
       ("INTERFACE", ["Vlan1000", "192.168.0.1/21"], [])] }

/-- A Mellanox variant of the base environment. -/
def mlnxEnv : Env := { baseEnv with asic_type := "mellanox" }

/-- A Mellanox environment whose pool-size migration reports failure. -/
def mlnxFailEnv : Env := { mlnxEnv with mlnx_pool_size := fun _ _ => false }

/-- A Mellanox environment whose reclaiming call reports failure. -/
def mlnxReclaimFailEnv : Env := { mlnxEnv with mlnx_reclaiming := false }

/-- A store whose marker names a migration method that is not a version
handler. -/
def coppMarkerState : MigState :=
  { emptyState with
    configDB := [("VERSIONS", ["DATABASE"], [("VERSION", "migrate_copp_table")])],
    appDB := [("COPP_TABLE:x", [("f", "v")])] }

/-- A toy attribute table with a self-looping handler. -/
def loopTbl : List (String × HBody) :=
  [("loop", fun _ s => .ok (s, some "loop"))]

/-- A store for the abandon witness: one well-formed `BUFFER_PROFILE`
row and one `BUFFER_PG` row on a non-default PG. -/
def abandonDb : ConfigDB :=
  [("BUFFER_PROFILE", ["pg_lossless_40000_5m_profile"],
    [("dynamic_th", "0"), ("pool", "[BUFFER_POOL|ingress_lossless_pool]")]),
   ("BUFFER_PG", ["Ethernet0", "1-2"],
    [("profile", "[BUFFER_PROFILE|pg_lossless_40000_5m_profile]")]),
   ("PORT", ["Ethernet0"], [("speed", "40000")]),
   ("CABLE_LENGTH", ["AZURE"], [("Ethernet0", "5m")])]

/-- A state for the C5 counterexample: warm reboot pending, a profile
whose `pool` reference must be translated, and an APPL_DB that already
has the `size` field. -/
def clobberState : MigState :=
  { emptyState with
    configDB := [("BUFFER_PROFILE", ["prof1"],
                  [("pool", "BUFFER_POOL|ingress_pool"), ("size", "100")])],
    appDB := [("BUFFER_PROFILE_TABLE:prof1", [("size", "999")])],
    stateDB := [("WARM_RESTART_ENABLE_TABLE|system", [("enable", "true")])] }

/-- An environment whose snapshot has a `GNMI` table. -/
def gnmiEnv : Env :=
  { baseEnv with config_src_data := some [("GNMI", [("gnmi", [("y", "2")])])] }

/-- A config store holding an operator-set `GNMI|gnmi` entry but no
`GNMI|certs` entry. -/
def gnmiDb : ConfigDB := [("GNMI", ["gnmi"], [("x", "1")])]

/-- A snapshot with `RESTAPI` data. -/
def restapiSrc : SrcData :=
  [("RESTAPI", [("config", [("client_auth", "true")]),
                ("certs", [("ca_crt", "/etc/x.crt")])])]

/-- An environment whose snapshot has `RESTAPI` data. -/
def restapiEnv : Env := { baseEnv with config_src_data := some restapiSrc }

/-- A state for the C7 counterexample: an authorization entry and an
empty passkey, with no snapshot at all. -/
def aaaState : MigState :=
  { emptyState with configDB :=
      [("AAA", ["authorization"], [("login", "tacacs+")]),
       ("TACPLUS", ["global"], [("passkey", "")])] }

/-- A snapshot with `AAA` data. -/
def aaaSrc : SrcData :=
  [("AAA", [("authentication", [("login", "tacacs+")]),
            ("accounting", [("login", "tacacs+,local")]),
            ("authorization", [("login", "tacacs+")])])]

/-- An environment whose snapshot has `AAA` data. -/
def aaaEnv : Env := { baseEnv with config_src_data := some aaaSrc }

/-- A config store with one address-keyed interface entry and one
pre-existing address-less entry in another interface table. -/
def ifDb : ConfigDB :=
  [("INTERFACE", ["Ethernet8", "10.0.0.0/31"], [("f", "1")]),
   ("VLAN_INTERFACE", ["Vlan100", "192.168.0.1/21"], []),
   ("VLAN_INTERFACE", ["Vlan200"], [("g", "2")])]

/-! # Theorems

First a small lemma library about the store operations, then the claim
theorems. -/

theorem beq_symm_false {α : Type} [BEq α] [LawfulBEq α] {a b : α} (h : (a == b) = false) :
    (b == a) = false := by
  cases hg : b == a with
  | false => rfl
  | true =>
    have he := eq_of_beq hg
    subst he
    simp at h

/-! Unfolding laws for the store reads/writes. -/

theorem fGet_nil (f : String) : fGet [] f = none := rfl

theorem fGet_cons (p : String × String) (e : Entry) (f : String) :
    fGet (p :: e) f = if p.1 == f then some p.2 else fGet e f := by
  by_cases h : (p.1 == f) = true <;> simp [fGet, List.find?_cons, h]

theorem fGet_fSet_same (e : Entry) (f v : String) : fGet (fSet e f v) f = some v := by
  induction e with
  | nil => simp [fSet, fGet_cons]
  | cons p e ih =>
    rw [fSet]
    by_cases h : (p.1 == f) = true
    · simp [h, fGet_cons]
    · simp only [Bool.not_eq_true] at h
      rw [if_neg (by simp [h]), fGet_cons, if_neg (by simp [h])]
      exact ih

theorem fGet_fSet_ne (e : Entry) (f v f' : String) (h : (f' == f) = false) :
    fGet (fSet e f v) f' = fGet e f' := by
  have h2 : (f == f') = false := beq_symm_false h
  induction e with
  | nil => simp [fSet, fGet_cons, h2]
  | cons p e ih =>
    rw [fSet]
    by_cases hp : (p.1 == f) = true
    · have hp1 : p.1 = f := eq_of_beq hp
      rw [if_pos hp, fGet_cons, fGet_cons, if_neg (by simp [h2]), if_neg (by rw [hp1]; simp [h2])]
    · simp only [Bool.not_eq_true] at hp
      rw [if_neg (by simp [hp]), fGet_cons, fGet_cons]
      by_cases hq : (p.1 == f') = true
      · rw [if_pos hq, if_pos hq]
      · simp only [Bool.not_eq_true] at hq
        rw [if_neg (by simp [hq]), if_neg (by simp [hq])]
        exact ih

theorem fGet_append (e₁ e₂ : Entry) (f : String) :
    fGet (e₁ ++ e₂) f = (fGet e₁ f).or (fGet e₂ f) := by
  unfold fGet
  rw [List.find?_append]
  cases List.find? (fun p => p.1 == f) e₁ <;> simp

theorem fGet_mapOverlay (a : Entry) (g : String → String → String) (f : String) :
    fGet (a.map (fun p => (p.1, g p.1 p.2))) f =
      match a.find? (fun p => p.1 == f) with
      | some p => some (g p.1 p.2)
      | none => none := by
  induction a with
  | nil => simp [fGet]
  | cons p a ih =>
    rw [List.map_cons, fGet_cons, List.find?_cons]
    by_cases hp : (p.1 == f) = true
    · simp [hp]
    · simp only [Bool.not_eq_true] at hp
      rw [if_neg (by simp [hp])]
      simp only [hp]
      exact ih

theorem fGet_filterNotHas (a b : Entry) (f : String) :
    fGet (b.filter (fun p => !(fHas a p.1))) f = if fHas a f then none else fGet b f := by
  induction b with
  | nil => by_cases hf : fHas a f <;> simp [fGet, hf]
  | cons q b ih =>
    rw [List.filter_cons]
    by_cases ha : fHas a q.1
    · rw [if_neg (by simp [ha]), ih]
      by_cases hq : (q.1 == f) = true
      · have hq1 := eq_of_beq hq
        subst hq1
        simp [ha]
      · simp only [Bool.not_eq_true] at hq
        by_cases hf : fHas a f <;> simp [hf, fGet_cons, hq]
    · simp only [Bool.not_eq_true] at ha
      rw [if_pos (by simp [ha]), fGet_cons]
      by_cases hq : (q.1 == f) = true
      · have hq1 := eq_of_beq hq
        subst hq1
        simp [ha, fGet_cons]
      · simp only [Bool.not_eq_true] at hq
        rw [if_neg (by simp [hq]), ih]
        by_cases hf : fHas a f <;> simp [hf, fGet_cons, hq]

theorem fGet_fMerge (a b : Entry) (f : String) :
    fGet (fMerge a b) f = (fGet b f).or (fGet a f) := by
  unfold fMerge
  rw [fGet_append]
  rw [fGet_mapOverlay a (fun k v => (fGet b k).getD v) f]
  rw [fGet_filterNotHas a b f]
  cases hfa : a.find? (fun p => p.1 == f) with
  | some p =>
    have hp' := List.find?_some hfa
    have hp : p.1 = f := eq_of_beq hp'
    have hhas : fHas a f = true := by
      unfold fHas fGet
      rw [hfa]; rfl
    have hga : fGet a f = some p.2 := by unfold fGet; rw [hfa]; rfl
    simp only [hhas, if_pos, hga, hp]
    cases hb : fGet b f <;> simp
  | none =>
    have hhas : fHas a f = false := by
      unfold fHas fGet
      rw [hfa]; rfl
    have hga : fGet a f = none := by unfold fGet; rw [hfa]; rfl
    simp only [hhas, Bool.false_eq_true, if_neg, not_false_iff, hga]
    cases hb : fGet b f <;> simp

/-! Config-store write/read laws. -/

theorem cfgFind_nil (t : String) (k : CKey) : cfgFind [] t k = none := rfl

theorem cfgFind_cons (r : String × CKey × Entry) (db : ConfigDB) (t : String) (k : CKey) :
    cfgFind (r :: db) t k =
      if r.1 == t && r.2.1 == k then some r.2.2 else cfgFind db t k := by
  by_cases h : (r.1 == t && r.2.1 == k) = true <;> simp [cfgFind, List.find?_cons, h]

theorem cfgFind_setEntryF_same (db : ConfigDB) (t : String) (k : CKey) (e : Entry) :
    cfgFind (cfgSetEntryF db t k e) t k = some e := by
  induction db with
  | nil => simp [cfgSetEntryF, cfgFind_cons]
  | cons r db ih =>
    rw [cfgSetEntryF]
    by_cases h : (r.1 == t && r.2.1 == k) = true
    · simp [h, cfgFind_cons]
    · simp only [Bool.not_eq_true] at h
      rw [if_neg (by simp [h]), cfgFind_cons, if_neg (by simp [h])]
      exact ih

theorem cfgFind_setEntryF_ne (db : ConfigDB) (t : String) (k : CKey) (e : Entry)
    (t' : String) (k' : CKey) (h : (t' == t) = false ∨ (k' == k) = false) :
    cfgFind (cfgSetEntryF db t k e) t' k' = cfgFind db t' k' := by
  have hnk : (t == t' && k == k') = false := by
    cases h with
    | inl h => simp [beq_symm_false h]
    | inr h => simp [beq_symm_false h]
  induction db with
  | nil => simp [cfgSetEntryF, cfgFind_cons, hnk]
  | cons r db ih =>
    rw [cfgSetEntryF]
    by_cases hr : (r.1 == t && r.2.1 == k) = true
    · have h1 : r.1 = t := eq_of_beq (Bool.and_elim_left hr)
      have h2 : r.2.1 = k := eq_of_beq (Bool.and_elim_right hr)
      rw [if_pos hr, cfgFind_cons, cfgFind_cons, if_neg (by simp [hnk]),
        if_neg (by rw [h1, h2]; simp [hnk])]
    · simp only [Bool.not_eq_true] at hr
      rw [if_neg (by simp [hr]), cfgFind_cons, cfgFind_cons]
      by_cases hq : (r.1 == t' && r.2.1 == k') = true
      · rw [if_pos hq, if_pos hq]
      · simp only [Bool.not_eq_true] at hq
        rw [if_neg (by simp [hq]), if_neg (by simp [hq])]
        exact ih

theorem cfgDeleteEntry_nil (t : String) (k : CKey) : cfgDeleteEntry [] t k = [] := rfl

theorem cfgDeleteEntry_cons (r : String × CKey × Entry) (db : ConfigDB) (t : String) (k : CKey) :
    cfgDeleteEntry (r :: db) t k =
      if r.1 == t && r.2.1 == k then cfgDeleteEntry db t k
      else r :: cfgDeleteEntry db t k := by
  unfold cfgDeleteEntry
  rw [List.filter_cons]
  cases h : r.1 == t && r.2.1 == k
  · rw [if_pos (by simp [h]), if_neg (by simp [h])]
  · rw [if_neg (by simp [h]), if_pos (by simp [h])]

theorem cfgFind_deleteEntry_same (db : ConfigDB) (t : String) (k : CKey) :
    cfgFind (cfgDeleteEntry db t k) t k = none := by
  induction db with
  | nil => rfl
  | cons r db ih =>
    rw [cfgDeleteEntry_cons]
    by_cases h : (r.1 == t && r.2.1 == k) = true
    · rw [if_pos h]; exact ih
    · simp only [Bool.not_eq_true] at h
      rw [if_neg (by simp [h]), cfgFind_cons, if_neg (by simp [h])]
      exact ih

theorem cfgFind_deleteEntry_ne (db : ConfigDB) (t : String) (k : CKey)
    (t' : String) (k' : CKey) (h : (t' == t) = false ∨ (k' == k) = false) :
    cfgFind (cfgDeleteEntry db t k) t' k' = cfgFind db t' k' := by
  induction db with
  | nil => rfl
  | cons r db ih =>
    rw [cfgDeleteEntry_cons]
    by_cases hq : (r.1 == t' && r.2.1 == k') = true
    · have h1 : r.1 = t' := eq_of_beq (Bool.and_elim_left hq)
      have h2 : r.2.1 = k' := eq_of_beq (Bool.and_elim_right hq)
      have hr : (r.1 == t && r.2.1 == k) = false := by
        cases h with
        | inl h => rw [h1]; simp [h]
        | inr h => rw [h2]; simp [h]
      rw [if_neg (by simp [hr]), cfgFind_cons, cfgFind_cons, if_pos hq, if_pos hq]
    · simp only [Bool.not_eq_true] at hq
      by_cases hr : (r.1 == t && r.2.1 == k) = true
      · rw [if_pos hr, ih, cfgFind_cons, if_neg (by simp [hq])]
      · simp only [Bool.not_eq_true] at hr
        rw [if_neg (by simp [hr]), cfgFind_cons, if_neg (by simp [hq]), cfgFind_cons,
          if_neg (by simp [hq])]
        exact ih

theorem cfgFind_setEntry_ne (db : ConfigDB) (t : String) (k : CKey) (v : Option Entry)
    (t' : String) (k' : CKey) (h : (t' == t) = false ∨ (k' == k) = false) :
    cfgFind (cfgSetEntry db t k v) t' k' = cfgFind db t' k' := by
  cases v with
  | none => exact cfgFind_deleteEntry_ne db t k t' k' h
  | some e => exact cfgFind_setEntryF_ne db t k e t' k' h

theorem cfgGetEntry_setEntry_ne (db : ConfigDB) (t : String) (k : CKey) (v : Option Entry)
    (t' : String) (k' : CKey) (h : (t' == t) = false ∨ (k' == k) = false) :
    cfgGetEntry (cfgSetEntry db t k v) t' k' = cfgGetEntry db t' k' := by
  unfold cfgGetEntry
  rw [cfgFind_setEntry_ne db t k v t' k' h]

theorem optIsSome_map {α β : Type} (g : α → β) (o : Option α) :
    (o.map g).isSome = o.isSome := by
  cases o <;> rfl

theorem cfgFind_isSome_iff (db : ConfigDB) (t : String) (k : CKey) :
    (cfgFind db t k).isSome = true ↔ ∃ e, (t, k, e) ∈ db := by
  unfold cfgFind
  rw [optIsSome_map, List.find?_isSome]
  constructor
  · rintro ⟨r, hr, hp⟩
    have h1 : r.1 = t := eq_of_beq (Bool.and_elim_left hp)
    have h2 : r.2.1 = k := eq_of_beq (Bool.and_elim_right hp)
    exact ⟨r.2.2, by rw [← h1, ← h2]; exact hr⟩
  · rintro ⟨e, he⟩
    exact ⟨(t, k, e), he, by simp⟩

theorem mem_cfgGetTable (db : ConfigDB) (t : String) (k : CKey) (e : Entry) :
    (k, e) ∈ cfgGetTable db t ↔ (t, k, e) ∈ db := by
  unfold cfgGetTable
  rw [List.mem_filterMap]
  constructor
  · rintro ⟨r, hr, hp⟩
    by_cases h : (r.1 == t) = true
    · rw [if_pos h] at hp
      have h1 : r.1 = t := eq_of_beq h
      injection hp with hp1
      have hk : r.2.1 = k := congrArg Prod.fst hp1
      have he : r.2.2 = e := congrArg Prod.snd hp1
      have : r = (t, k, e) := by
        rcases r with ⟨rt, rk, re⟩
        simp only at h1 hk he
        rw [h1, hk, he]
      rwa [this] at hr
    · simp [h] at hp
  · intro hr
    exact ⟨(t, k, e), hr, by simp⟩

theorem cfgGetTable_eq_nil_iff (db : ConfigDB) (t : String) :
    cfgGetTable db t = [] ↔ ∀ k e, (t, k, e) ∉ db := by
  constructor
  · intro h k e hm
    have := (mem_cfgGetTable db t k e).2 hm
    rw [h] at this
    exact absurd this (List.not_mem_nil _)
  · intro h
    cases hg : cfgGetTable db t with
    | nil => rfl
    | cons p l =>
      have : p ∈ cfgGetTable db t := by rw [hg]; exact List.mem_cons_self p l
      have := (mem_cfgGetTable db t p.1 p.2).1 this
      exact absurd this (h p.1 p.2)

/-! Flat-store write/read laws. -/

theorem kvGetAll_nil (k : String) : kvGetAll [] k = [] := rfl

theorem kvGetAll_cons (p : String × Entry) (db : KVDB) (k : String) :
    kvGetAll (p :: db) k = if p.1 == k then p.2 else kvGetAll db k := by
  by_cases h : (p.1 == k) = true <;> simp [kvGetAll, List.find?_cons, h]

theorem kvGetAll_setField_same (db : KVDB) (k f v : String) :
    kvGetAll (kvSetField db k f v) k = fSet (kvGetAll db k) f v := by
  induction db with
  | nil => simp [kvSetField, kvGetAll_cons, kvGetAll]
  | cons p db ih =>
    rw [kvSetField]
    by_cases h : (p.1 == k) = true
    · have h1 : p.1 = k := eq_of_beq h
      rw [if_pos h, kvGetAll_cons, if_pos (by simp), kvGetAll_cons, if_pos h]
    · simp only [Bool.not_eq_true] at h
      rw [if_neg (by simp [h]), kvGetAll_cons, if_neg (by simp [h]), kvGetAll_cons,
        if_neg (by simp [h])]
      exact ih

theorem kvGetAll_setField_ne (db : KVDB) (k f v k' : String) (h : (k' == k) = false) :
    kvGetAll (kvSetField db k f v) k' = kvGetAll db k' := by
  have h2 : (k == k') = false := beq_symm_false h
  induction db with
  | nil => simp [kvSetField, kvGetAll_cons, h2]
  | cons p db ih =>
    rw [kvSetField]
    by_cases hp : (p.1 == k) = true
    · have h1 : p.1 = k := eq_of_beq hp
      rw [if_pos hp, kvGetAll_cons, if_neg (by simp [h2]), kvGetAll_cons,
        if_neg (by rw [h1]; simp [h2])]
    · simp only [Bool.not_eq_true] at hp
      rw [if_neg (by simp [hp]), kvGetAll_cons, kvGetAll_cons]
      by_cases hq : (p.1 == k') = true
      · rw [if_pos hq, if_pos hq]
      · simp only [Bool.not_eq_true] at hq
        rw [if_neg (by simp [hq]), if_neg (by simp [hq])]
        exact ih

theorem kvGet_setField_same (db : KVDB) (k f v : String) :
    kvGet (kvSetField db k f v) k f = some v := by
  unfold kvGet
  rw [kvGetAll_setField_same, fGet_fSet_same]

theorem kvGet_setField_other (db : KVDB) (k f v k' f' : String)
    (h : (k' == k) = false ∨ (f' == f) = false) :
    kvGet (kvSetField db k f v) k' f' = kvGet db k' f' := by
  unfold kvGet
  cases h with
  | inl h => rw [kvGetAll_setField_ne db k f v k' h]
  | inr h =>
    by_cases hk : (k' == k) = true
    · have h1 : k' = k := eq_of_beq hk
      subst h1
      rw [kvGetAll_setField_same, fGet_fSet_ne _ _ _ _ h]
    · simp only [Bool.not_eq_true] at hk
      rw [kvGetAll_setField_ne db k f v k' hk]

/-! ## Claim C2: the driver aborts on a self-loop -/

/-- **C2**: during `migrate()`, if the handler invoked for the current
version returns a next version equal to the current version, the whole
invocation aborts with the diagnostic "stuck in same version" error; the
driver never silently continues looping on the same version. -/
theorem c2_migrate_self_loop_aborts
    (tbl : List (String × HBody)) (env : Env) (n : Nat) (v : String) (s s' : MigState)
    (body : HBody) (hd : dispatch tbl v = some body) (hb : body env s = .ok (s', some v)) :
    migrateLoop tbl env (n + 1) v s =
      .error ("Version migrate from " ++ v ++ " stuck in same version") ∧
    (get_version s = .ok v →
      migrateWith tbl env s =
        .error ("Version migrate from " ++ v ++ " stuck in same version")) := by
  have hloop : ∀ m : Nat, migrateLoop tbl env (m + 1) v s =
      .error ("Version migrate from " ++ v ++ " stuck in same version") := by
    intro m
    rw [migrateLoop, hd]
    simp only [hb, Except.bind, bind]
    simp
  refine ⟨hloop n, fun hv => ?_⟩
  unfold migrateWith
  rw [hv]
  simp only [Except.bind, bind]
  have : migrateFuel = 99 + 1 := rfl
  rw [this, hloop 99]

theorem c2_witness :
    migrateLoop loopTbl baseEnv 1 "loop" emptyState =
      .error ("Version migrate from " ++ "loop" ++ " stuck in same version") :=
  (c2_migrate_self_loop_aborts loopTbl baseEnv 0 "loop" emptyState emptyState
    (fun _ s => .ok (s, some "loop")) rfl rfl).1

/-! ## Claim C1: chain termination

Each handler returns its static next version on every successful run. -/

theorem next_version_unknown : ∀ env s r, version_unknown env s = .ok r → r.2 = some "version_1_0_2" := by
  intro env s r h
  unfold version_unknown at h
  try simp only [bind, Except.bind, pure, Except.pure] at h
  repeat' split at h
  all_goals first
    | (injection h with h2; rw [← h2])
    | injection h

theorem next_version_1_0_1 : ∀ env s r, version_1_0_1 env s = .ok r → r.2 = some "version_1_0_2" := by
  intro env s r h
  unfold version_1_0_1 at h
  try simp only [bind, Except.bind, pure, Except.pure] at h
  repeat' split at h
  all_goals first
    | (injection h with h2; rw [← h2])
    | injection h

theorem next_version_1_0_2 : ∀ env s r, version_1_0_2 env s = .ok r → r.2 = some "version_1_0_3" := by
  intro env s r h
  unfold version_1_0_2 at h
  try simp only [bind, Except.bind, pure, Except.pure] at h
  repeat' split at h
  all_goals first
    | (injection h with h2; rw [← h2])
    | injection h

theorem next_version_1_0_3 : ∀ env s r, version_1_0_3 env s = .ok r → r.2 = some "version_1_0_4" := by
  intro env s r h
  unfold version_1_0_3 at h
  try simp only [bind, Except.bind, pure, Except.pure] at h
  repeat' split at h
  all_goals first
    | (injection h with h2; rw [← h2])
    | injection h

theorem next_version_1_0_4 : ∀ env s r, version_1_0_4 env s = .ok r → r.2 = some "version_1_0_5" := by
  intro env s r h
  unfold version_1_0_4 at h
  try simp only [bind, Except.bind, pure, Except.pure] at h
  repeat' split at h
  all_goals first
    | (injection h with h2; rw [← h2])
    | injection h

theorem next_version_1_0_5 : ∀ env s r, version_1_0_5 env s = .ok r → r.2 = some "version_1_0_6" := by
  intro env s r h
  unfold version_1_0_5 at h
  try simp only [bind, Except.bind, pure, Except.pure] at h
  repeat' split at h
  all_goals first
    | (injection h with h2; rw [← h2])
    | injection h

theorem next_version_1_0_6 : ∀ env s r, version_1_0_6 env s = .ok r → r.2 = some "version_2_0_0" := by
  intro env s r h
  unfold version_1_0_6 at h
  try simp only [bind, Except.bind, pure, Except.pure] at h
  repeat' split at h
  all_goals first
    | (injection h with h2; rw [← h2])
    | injection h

theorem next_version_2_0_0 : ∀ env s r, version_2_0_0 env s = .ok r → r.2 = some "version_2_0_1" := by
  intro env s r h
  unfold version_2_0_0 at h
  try simp only [bind, Except.bind, pure, Except.pure] at h
  repeat' split at h
  all_goals first
    | (injection h with h2; rw [← h2])
    | injection h

theorem next_version_2_0_1 : ∀ env s r, version_2_0_1 env s = .ok r → r.2 = some "version_2_0_2" := by
  intro env s r h
  unfold version_2_0_1 at h
  try simp only [bind, Except.bind, pure, Except.pure] at h
  repeat' split at h
  all_goals first
    | (injection h with h2; rw [← h2])
    | injection h

theorem next_version_2_0_2 : ∀ env s r, version_2_0_2 env s = .ok r → r.2 = some "version_3_0_0" := by
  intro env s r h
  unfold version_2_0_2 at h
  try simp only [bind, Except.bind, pure, Except.pure] at h
  repeat' split at h
  all_goals first
    | (injection h with h2; rw [← h2])
    | injection h

theorem next_version_3_0_0 : ∀ env s r, version_3_0_0 env s = .ok r → r.2 = some "version_3_0_1" := by
  intro env s r h
  unfold version_3_0_0 at h
  try simp only [bind, Except.bind, pure, Except.pure] at h
  repeat' split at h
  all_goals first
    | (injection h with h2; rw [← h2])
    | injection h

theorem next_version_3_0_1 : ∀ env s r, version_3_0_1 env s = .ok r → r.2 = some "version_3_0_2" := by
  intro env s r h
  unfold version_3_0_1 at h
  try simp only [bind, Except.bind, pure, Except.pure] at h
  repeat' split at h
  all_goals first
    | (injection h with h2; rw [← h2])
    | injection h

theorem next_version_3_0_2 : ∀ env s r, version_3_0_2 env s = .ok r → r.2 = some "version_3_0_3" := by
  intro env s r h
  unfold version_3_0_2 at h
  try simp only [bind, Except.bind, pure, Except.pure] at h
  repeat' split at h
  all_goals first
    | (injection h with h2; rw [← h2])
    | injection h

theorem next_version_3_0_3 : ∀ env s r, version_3_0_3 env s = .ok r → r.2 = some "version_3_0_4" := by
  intro env s r h
  unfold version_3_0_3 at h
  try simp only [bind, Except.bind, pure, Except.pure] at h
  repeat' split at h
  all_goals first
    | (injection h with h2; rw [← h2])
    | injection h

theorem next_version_3_0_4 : ∀ env s r, version_3_0_4 env s = .ok r → r.2 = some "version_3_0_5" := by
  intro env s r h
  unfold version_3_0_4 at h
  try simp only [bind, Except.bind, pure, Except.pure] at h
  repeat' split at h
  all_goals first
    | (injection h with h2; rw [← h2])
    | injection h

theorem next_version_3_0_5 : ∀ env s r, version_3_0_5 env s = .ok r → r.2 = some "version_3_0_6" := by
  intro env s r h
  unfold version_3_0_5 at h
  try simp only [bind, Except.bind, pure, Except.pure] at h
  repeat' split at h
  all_goals first
    | (injection h with h2; rw [← h2])
    | injection h

theorem next_version_3_0_6 : ∀ env s r, version_3_0_6 env s = .ok r → r.2 = some "version_3_0_7" := by
  intro env s r h
  unfold version_3_0_6 at h
  try simp only [bind, Except.bind, pure, Except.pure] at h
  repeat' split at h
  all_goals first
    | (injection h with h2; rw [← h2])
    | injection h

theorem next_version_3_0_7 : ∀ env s r, version_3_0_7 env s = .ok r → r.2 = some "version_4_0_0" := by
  intro env s r h
  unfold version_3_0_7 at h
  try simp only [bind, Except.bind, pure, Except.pure] at h
  repeat' split at h
  all_goals first
    | (injection h with h2; rw [← h2])
    | injection h

theorem next_version_4_0_0 : ∀ env s r, version_4_0_0 env s = .ok r → r.2 = some "version_4_0_1" := by
  intro env s r h
  unfold version_4_0_0 at h
  try simp only [bind, Except.bind, pure, Except.pure] at h
  repeat' split at h
  all_goals first
    | (injection h with h2; rw [← h2])
    | injection h

theorem next_version_4_0_1 : ∀ env s r, version_4_0_1 env s = .ok r → r.2 = some "version_4_0_2" := by
  intro env s r h
  unfold version_4_0_1 at h
  try simp only [bind, Except.bind, pure, Except.pure] at h
  repeat' split at h
  all_goals first
    | (injection h with h2; rw [← h2])
    | injection h

theorem next_version_4_0_2 : ∀ env s r, version_4_0_2 env s = .ok r → r.2 = some "version_4_0_3" := by
  intro env s r h
  unfold version_4_0_2 at h
  try simp only [bind, Except.bind, pure, Except.pure] at h
  repeat' split at h
  all_goals first
    | (injection h with h2; rw [← h2])
    | injection h

theorem next_version_4_0_3 : ∀ env s r, version_4_0_3 env s = .ok r → r.2 = some "version_202305_01" := by
  intro env s r h
  unfold version_4_0_3 at h
  try simp only [bind, Except.bind, pure, Except.pure] at h
  repeat' split at h
  all_goals first
    | (injection h with h2; rw [← h2])
    | injection h

theorem next_version_202305_01 : ∀ env s r, version_202305_01 env s = .ok r → r.2 = some "version_202311_01" := by
  intro env s r h
  unfold version_202305_01 at h
  try simp only [bind, Except.bind, pure, Except.pure] at h
  repeat' split at h
  all_goals first
    | (injection h with h2; rw [← h2])
    | injection h

theorem next_version_202311_01 : ∀ env s r, version_202311_01 env s = .ok r → r.2 = some "version_202311_02" := by
  intro env s r h
  unfold version_202311_01 at h
  try simp only [bind, Except.bind, pure, Except.pure] at h
  repeat' split at h
  all_goals first
    | (injection h with h2; rw [← h2])
    | injection h

theorem next_version_202311_02 : ∀ env s r, version_202311_02 env s = .ok r → r.2 = some "version_202311_03" := by
  intro env s r h
  unfold version_202311_02 at h
  try simp only [bind, Except.bind, pure, Except.pure] at h
  repeat' split at h
  all_goals first
    | (injection h with h2; rw [← h2])
    | injection h

theorem next_version_202311_03 : ∀ env s r, version_202311_03 env s = .ok r → r.2 = some "version_202405_01" := by
  intro env s r h
  unfold version_202311_03 at h
  try simp only [bind, Except.bind, pure, Except.pure] at h
  repeat' split at h
  all_goals first
    | (injection h with h2; rw [← h2])
    | injection h

theorem next_version_202405_01 : ∀ env s r, version_202405_01 env s = .ok r → r.2 = some "version_202405_02" := by
  intro env s r h
  unfold version_202405_01 at h
  try simp only [bind, Except.bind, pure, Except.pure] at h
  repeat' split at h
  all_goals first
    | (injection h with h2; rw [← h2])
    | injection h

theorem next_version_202405_02 : ∀ env s r, version_202405_02 env s = .ok r → r.2 = some "version_202411_01" := by
  intro env s r h
  unfold version_202405_02 at h
  try simp only [bind, Except.bind, pure, Except.pure] at h
  repeat' split at h
  all_goals first
    | (injection h with h2; rw [← h2])
    | injection h

theorem next_version_202411_01 : ∀ env s r, version_202411_01 env s = .ok r → r.2 = some "version_202411_02" := by
  intro env s r h
  unfold version_202411_01 at h
  try simp only [bind, Except.bind, pure, Except.pure] at h
  repeat' split at h
  all_goals first
    | (injection h with h2; rw [← h2])
    | injection h

theorem next_version_202411_02 : ∀ env s r, version_202411_02 env s = .ok r → r.2 = some "version_202505_01" := by
  intro env s r h
  unfold version_202411_02 at h
  try simp only [bind, Except.bind, pure, Except.pure] at h
  repeat' split at h
  all_goals first
    | (injection h with h2; rw [← h2])
    | injection h

theorem next_version_202505_01 : ∀ env s r, version_202505_01 env s = .ok r → r.2 = none := by
  intro env s r h
  unfold version_202505_01 at h
  try simp only [bind, Except.bind, pure, Except.pure] at h
  repeat' split at h
  all_goals first
    | (injection h with h2; rw [← h2])
    | injection h


/-- **C1**: for every version marker reachable by the engine (every
marker a defined handler writes, plus the `version_unknown` bootstrap
state), a handler exists, following the static successor chain reaches
the terminal handler (the one returning `none`) within 30 steps, no
handler's successor is its own version, and every handler really returns
its static successor on every successful run, whatever the store
contents. -/
theorem c1_chain_termination :
    (∀ v ∈ reachableMarkers, (dispatch versionHandlers v).isSome = true) ∧
    (∀ v ∈ reachableMarkers,
      (chainSteps 40 v).isSome = true ∧ (chainSteps 40 v).getD 40 ≤ 30) ∧
    (∀ v ∈ reachableMarkers, staticNext v ≠ some (some v)) ∧
    (∀ v body, (v, body) ∈ versionHandlers →
      ∃ nx, staticNext v = some nx ∧ ∀ env s r, body env s = .ok r → r.2 = nx) := by
  refine ⟨by decide, by decide, by decide, ?_⟩
  intro v body hm
  fin_cases hm
  · exact ⟨_, rfl, next_version_unknown⟩
  · exact ⟨_, rfl, next_version_1_0_1⟩
  · exact ⟨_, rfl, next_version_1_0_2⟩
  · exact ⟨_, rfl, next_version_1_0_3⟩
  · exact ⟨_, rfl, next_version_1_0_4⟩
  · exact ⟨_, rfl, next_version_1_0_5⟩
  · exact ⟨_, rfl, next_version_1_0_6⟩
  · exact ⟨_, rfl, next_version_2_0_0⟩
  · exact ⟨_, rfl, next_version_2_0_1⟩
  · exact ⟨_, rfl, next_version_2_0_2⟩
  · exact ⟨_, rfl, next_version_3_0_0⟩
  · exact ⟨_, rfl, next_version_3_0_1⟩
  · exact ⟨_, rfl, next_version_3_0_2⟩
  · exact ⟨_, rfl, next_version_3_0_3⟩
  · exact ⟨_, rfl, next_version_3_0_4⟩
  · exact ⟨_, rfl, next_version_3_0_5⟩
  · exact ⟨_, rfl, next_version_3_0_6⟩
  · exact ⟨_, rfl, next_version_3_0_7⟩
  · exact ⟨_, rfl, next_version_4_0_0⟩
  · exact ⟨_, rfl, next_version_4_0_1⟩
  · exact ⟨_, rfl, next_version_4_0_2⟩
  · exact ⟨_, rfl, next_version_4_0_3⟩
  · exact ⟨_, rfl, next_version_202305_01⟩
  · exact ⟨_, rfl, next_version_202311_01⟩
  · exact ⟨_, rfl, next_version_202311_02⟩
  · exact ⟨_, rfl, next_version_202311_03⟩
  · exact ⟨_, rfl, next_version_202405_01⟩
  · exact ⟨_, rfl, next_version_202405_02⟩
  · exact ⟨_, rfl, next_version_202411_01⟩
  · exact ⟨_, rfl, next_version_202411_02⟩
  · exact ⟨_, rfl, next_version_202505_01⟩

theorem c1_chain_termination_witness :
    ∃ nx, staticNext "version_unknown" = some nx ∧
      ∀ env s r, version_unknown env s = .ok r → r.2 = nx :=
  c1_chain_termination.2.2.2 "version_unknown" version_unknown (List.Mem.head _)


/-- **C9**: starting from the absent-marker bootstrap state with a config
store containing only `PFC_WD_TABLE` entries and one address-keyed
`INTERFACE` entry, the bootstrap handler writes `version_1_0_2`, and the
full `migrate()` run ends with `PFC_WD_TABLE` gone, its entries under
`PFC_WD`, an address-less `INTERFACE` alias present, and the marker at
the terminal version `version_202505_01`. -/
theorem c9_bootstrap_scenario :
    get_version scenarioState = .ok "version_unknown" ∧
    (version_unknown baseEnv scenarioState).map (fun pr => (get_version pr.1, pr.2)) =
      .ok (.ok "version_1_0_2", some "version_1_0_2") ∧
    (migrate baseEnv scenarioState).map (fun sf =>
        decide (cfgGetTable sf.configDB "PFC_WD_TABLE" = [] ∧
          cfgFind sf.configDB "PFC_WD" ["Ethernet0"] =
            some [("action", "drop"), ("detection_time", "400")] ∧
          cfgFind sf.configDB "PFC_WD" ["GLOBAL"] = some [("POLL_INTERVAL", "400")] ∧
          cfgFind sf.configDB "INTERFACE" ["Vlan1000"] = some [] ∧
          cfgFind sf.configDB "INTERFACE" ["Vlan1000", "192.168.0.1/21"] = some [] ∧
          get_version sf = .ok "version_202505_01")) =
      .ok true := by
  refine ⟨by decide, by decide, by decide⟩

/-- **C10** (amended): `get_version` answers `version_unknown` when the
`VERSIONS|DATABASE` entry is absent or its `VERSION` value is the empty
string, returns any other stored value verbatim, and raises `KeyError`
for a non-empty entry lacking the field; and for a stored marker that
`getattr` cannot resolve to any `DBMigrator` method, `migrate()` raises
`AttributeError` before invoking anything, leaving the stores untouched.
(A marker naming a non-handler method is instead dispatched to it — see
the counterexample.) -/
theorem c10_get_version_and_unknown_marker :
    (∀ s : MigState, (cfgGetEntry s.configDB "VERSIONS" ["DATABASE"] = [] ∨
        fGet (cfgGetEntry s.configDB "VERSIONS" ["DATABASE"]) "VERSION" = some "") →
      get_version s = .ok "version_unknown") ∧
    (∀ (s : MigState) (v : String),
      fGet (cfgGetEntry s.configDB "VERSIONS" ["DATABASE"]) "VERSION" = some v → v ≠ "" →
      get_version s = .ok v) ∧
    (∀ s : MigState, cfgGetEntry s.configDB "VERSIONS" ["DATABASE"] ≠ [] →
      fGet (cfgGetEntry s.configDB "VERSIONS" ["DATABASE"]) "VERSION" = none →
      get_version s = .error "KeyError: VERSION") ∧
    (∀ (env : Env) (s : MigState) (v : String),
      get_version s = .ok v → dispatch dbMigratorAttrs v = none →
      migrate env s =
        .error ("AttributeError: 'DBMigrator' object has no attribute '" ++ v ++ "'")) := by
  refine ⟨?_, ?_, ?_, ?_⟩
  · intro s h
    unfold get_version
    cases h with
    | inl h => rw [if_pos (by rw [h]; rfl)]; rfl
    | inr h =>
      by_cases he : (cfgGetEntry s.configDB "VERSIONS" ["DATABASE"] == []) = true
      · rw [if_pos he]; rfl
      · rw [if_neg he, h]; rfl
  · intro s v hf hv
    unfold get_version
    have hne : (cfgGetEntry s.configDB "VERSIONS" ["DATABASE"] == []) = false := by
      cases hq : cfgGetEntry s.configDB "VERSIONS" ["DATABASE"] == []
      · rfl
      · have := eq_of_beq hq
        rw [this] at hf
        exact absurd hf (by simp [fGet])
    rw [if_neg (by simp [hne]), hf]
    rcases v with ⟨l⟩
    rcases l with _ | ⟨c, cs⟩
    · exact absurd rfl hv
    · rfl
  · intro s hne hf
    unfold get_version
    rw [if_neg (by simpa using hne), hf]
  · intro env s v hv hd
    unfold migrate migrateWith
    rw [hv]
    simp only [Except.bind, bind]
    have hfuel : migrateFuel = 99 + 1 := rfl
    rw [hfuel, migrateLoop, hd]

theorem c10_witness :
    get_version emptyState = .ok "version_unknown" :=
  c10_get_version_and_unknown_marker.1 emptyState (Or.inl (by decide))

/-- **C10 counterexample**: the stored marker `migrate_copp_table` names
no version handler, yet `migrate()` does not raise: it dispatches to the
non-handler method (which deletes the `COPP_TABLE:x` APPL_DB key), then
runs the common pass and finishes with the stale marker still in place —
refuting "raises an exception before invoking any handler". -/
theorem c10_counterexample :
    (dispatch versionHandlers "migrate_copp_table").isNone = true ∧
    kvHasKey coppMarkerState.appDB "COPP_TABLE:x" = true ∧
    (migrate mlnxEnv coppMarkerState).map (fun sf =>
        (kvHasKey sf.appDB "COPP_TABLE:x", get_version sf)) =
      .ok (false, .ok "migrate_copp_table") := by
  refine ⟨by decide, by decide, by decide⟩


/-! ## Claim C3: abandon atomicity of the dynamic-buffer bulk transform -/

theorem pendProfileRemovals_ok {σ : Type} (speed_list cable_len_list : List String)
    (append_item_method : PendingItem → σ → σ) :
    ∀ (l : List (CKey × Entry)) (st : σ), (∀ ke ∈ l, ke.1.length = 1) →
      ∃ st', pendProfileRemovals speed_list cable_len_list append_item_method l st = .ok st' := by
  intro l
  induction l with
  | nil => exact fun st _ => ⟨st, rfl⟩
  | cons ke rest ih =>
    intro st hk
    obtain ⟨n, hn⟩ : ∃ n, ke.1 = [n] := by
      have := hk ke (List.mem_cons_self ke rest)
      cases hke : ke.1 with
      | nil => rw [hke] at this; simp at this
      | cons a l2 =>
        cases l2 with
        | nil => exact ⟨a, rfl⟩
        | cons b l3 => rw [hke] at this; simp at this
    have hrest : ∀ ke ∈ rest, ke.1.length = 1 :=
      fun ke2 hm => hk ke2 (List.mem_cons_of_mem ke hm)
    unfold pendProfileRemovals
    rw [hn]
    simp only [bind, Except.bind, pure, Except.pure]
    exact ih _ hrest

theorem processBufferPgs_abandons (ports : List (CKey × Entry)) (cableLengths : Entry) :
    ∀ (l : List (CKey × Entry)) (st : PendingState),
      (∃ ke ∈ l, bufferPgOutcome ports cableLengths ke.1 ke.2 = none) →
      processBufferPgs mlnxAbandon mlnxAppendItem ports cableLengths l st =
        (⟨[], true⟩, true) := by
  intro l
  induction l with
  | nil => rintro st ⟨ke, hm, _⟩; exact absurd hm (List.not_mem_nil ke)
  | cons ke rest ih =>
    rintro st ⟨ke2, hm, ho⟩
    unfold processBufferPgs
    cases hout : bufferPgOutcome ports cableLengths ke.1 ke.2 with
    | none => rfl
    | some o =>
      have hm2 : ke2 ∈ rest := by
        cases hm with
        | head => rw [ho] at hout; exact absurd hout (by simp)
        | tail _ h => exact h
      cases o with
      | none => exact ih st ⟨ke2, hm2, ho⟩
      | some it => exact ih (mlnxAppendItem it st) ⟨ke2, hm2, ho⟩

/-- **C3**: in the validated dynamic-buffer bulk transform, if any single
`BUFFER_PG` entry fails its precondition check (`bufferPgOutcome = none`
covers a non-default profile on PG `0`, a PG other than `0`/`3-4`, a
profile name outside the `pg_lossless_<speed>_<cable_length>_profile`
convention, a speed/cable-length mismatch against `PORT`/`CABLE_LENGTH`,
and the exception paths of the `try` block), the run calls the abandon
method, ends with the pending list discarded (`⟨[], true⟩`) while still
returning `True`, and flushing that pending state modifies zero entries
of any config store. -/
theorem c3_abandon_atomicity
    (db : ConfigDB) (speed_list cable_len_list : List String) (th : String)
    (ps : PendingState)
    (hkeys : ∀ ke ∈ cfgGetTable db "BUFFER_PROFILE", ke.1.length = 1)
    (hfail : ∃ ke ∈ cfgGetTable db "BUFFER_PG",
      bufferPgOutcome (cfgGetTable db "PORT")
        (((cfgGetTable db "CABLE_LENGTH").head?.map (fun p => p.2)).getD [])
        ke.1 ke.2 = none) :
    migrate_config_db_buffer_tables_for_dynamic_calculation db speed_list cable_len_list th
      mlnxAbandon mlnxAppendItem ps = .ok (⟨[], true⟩, true) ∧
    (∀ d : ConfigDB, mlnxApplyPending ⟨[], true⟩ d = d) := by
  constructor
  · obtain ⟨st1, hst1⟩ := pendProfileRemovals_ok speed_list cable_len_list mlnxAppendItem
      (cfgGetTable db "BUFFER_PROFILE") ps hkeys
    unfold migrate_config_db_buffer_tables_for_dynamic_calculation
    rw [hst1]
    simp only [bind, Except.bind, pure, Except.pure]
    by_cases hempty : ((cfgGetTable db "BUFFER_PG").isEmpty ||
        (cfgGetTable db "PORT").isEmpty || (cfgGetTable db "CABLE_LENGTH").isEmpty) = true
    · rw [if_pos hempty]
      rfl
    · rw [if_neg hempty]
      rw [processBufferPgs_abandons _ _ _ st1 hfail]
      rfl
  · intro d
    rfl

theorem c3_witness :
    migrate_config_db_buffer_tables_for_dynamic_calculation abandonDb ["40000"] ["5m"] "0"
      mlnxAbandon mlnxAppendItem ⟨[], false⟩ = .ok (⟨[], true⟩, true) ∧
    (∀ d : ConfigDB, mlnxApplyPending ⟨[], true⟩ d = d) :=
  c3_abandon_atomicity abandonDb ["40000"] ["5m"] "0" ⟨[], false⟩ (by decide)
    ⟨(["Ethernet0", "1-2"], [("profile", "[BUFFER_PROFILE|pg_lossless_40000_5m_profile]")]),
     by decide, by decide⟩


/-! ## Claim C4: Mellanox-gated steps advance only on full success -/

theorem mlnxAppendItem_inv (P : PendingItem → Prop) (it : PendingItem) (st : PendingState)
    (h : ∀ j ∈ st.items, P j) (hit : P it) :
    ∀ j ∈ (mlnxAppendItem it st).items, P j := by
  intro j hj
  unfold mlnxAppendItem at hj
  simp only [List.mem_append, List.mem_singleton] at hj
  cases hj with
  | inl hj => exact h j hj
  | inr hj => rw [hj]; exact hit

theorem pendProfileRemovals_inv (sl cll : List String) :
    ∀ (l : List (CKey × Entry)) (st st' : PendingState),
      pendProfileRemovals sl cll mlnxAppendItem l st = .ok st' →
      (∀ it ∈ st.items, it.1 ≠ "VERSIONS") → ∀ it ∈ st'.items, it.1 ≠ "VERSIONS" := by
  intro l
  induction l with
  | nil =>
    intro st st' h hinv
    injection h with h2
    rw [← h2]
    exact hinv
  | cons ke rest ih =>
    intro st st' h hinv
    unfold pendProfileRemovals at h
    rcases hk : ke.1 with _ | ⟨n, l2⟩
    · rw [hk] at h
      simp only [bind, Except.bind] at h
      exact absurd h (by simp)
    · rcases l2 with _ | ⟨m, l3⟩
      · rw [hk] at h
        simp only [bind, Except.bind, pure, Except.pure] at h
        cases hps : profileSearch n with
        | none =>
          rw [hps] at h
          exact ih st st' h hinv
        | some sc =>
          rw [hps] at h
          refine ih _ st' h ?_
          show ∀ it ∈ (if sc.1 ∈ sl ∧ sc.2 ∈ cll then
              mlnxAppendItem ("BUFFER_PROFILE", [n], none) st else st).items, it.1 ≠ "VERSIONS"
          by_cases hin : sc.1 ∈ sl ∧ sc.2 ∈ cll
          · rw [if_pos hin]
            exact mlnxAppendItem_inv _ _ st hinv (by simp)
          · rw [if_neg hin]
            exact hinv
      · rw [hk] at h
        simp only [bind, Except.bind] at h
        exact absurd h (by simp)

theorem processBufferPgs_inv (ports : List (CKey × Entry)) (cableLengths : Entry) :
    ∀ (l : List (CKey × Entry)) (st : PendingState),
      (∀ it ∈ st.items, it.1 ≠ "VERSIONS") →
      ∀ it ∈ (processBufferPgs mlnxAbandon mlnxAppendItem ports cableLengths l st).1.items,
        it.1 ≠ "VERSIONS" := by
  intro l
  induction l with
  | nil => intro st h; exact h
  | cons ke rest ih =>
    intro st h
    unfold processBufferPgs
    cases hout : bufferPgOutcome ports cableLengths ke.1 ke.2 with
    | none => intro it hit; exact absurd hit (by simp [mlnxAbandon])
    | some o =>
      cases o with
      | none => exact ih st h
      | some it2 =>
        refine ih _ (mlnxAppendItem_inv _ _ st h ?_)
        have : it2.1 = "BUFFER_PG" := by
          unfold bufferPgOutcome at hout
          repeat' split at hout
          all_goals first
            | (injection hout with h2; injection h2 with h3; rw [← h3])
            | (injection hout with h2; injection h2)
            | injection hout
        rw [this]
        decide

theorem migrate_calc_ok (db : ConfigDB) (sl cll : List String) (th : String)
    (ps : PendingState)
    (hkeys : ∀ ke ∈ cfgGetTable db "BUFFER_PROFILE", ke.1.length = 1)
    (hps : ∀ it ∈ ps.items, it.1 ≠ "VERSIONS") :
    ∃ ps', migrate_config_db_buffer_tables_for_dynamic_calculation db sl cll th
        mlnxAbandon mlnxAppendItem ps = .ok (ps', true) ∧
      ∀ it ∈ ps'.items, it.1 ≠ "VERSIONS" := by
  obtain ⟨st1, hst1⟩ := pendProfileRemovals_ok sl cll mlnxAppendItem
    (cfgGetTable db "BUFFER_PROFILE") ps hkeys
  have hinv1 := pendProfileRemovals_inv sl cll (cfgGetTable db "BUFFER_PROFILE") ps st1 hst1 hps
  unfold migrate_config_db_buffer_tables_for_dynamic_calculation
  rw [hst1]
  simp only [bind, Except.bind, pure, Except.pure]
  by_cases hempty : ((cfgGetTable db "BUFFER_PG").isEmpty ||
      (cfgGetTable db "PORT").isEmpty || (cfgGetTable db "CABLE_LENGTH").isEmpty) = true
  · rw [if_pos hempty]
    exact ⟨⟨[], true⟩, rfl, by intro it hit; exact absurd hit (by simp)⟩
  · rw [if_neg hempty]
    have hinv2 := processBufferPgs_inv (cfgGetTable db "PORT")
      ((((cfgGetTable db "CABLE_LENGTH").head?).map (fun p => p.2)).getD [])
      (cfgGetTable db "BUFFER_PG") st1 hinv1
    cases hpr : processBufferPgs mlnxAbandon mlnxAppendItem (cfgGetTable db "PORT")
        ((((cfgGetTable db "CABLE_LENGTH").head?).map (fun p => p.2)).getD [])
        (cfgGetTable db "BUFFER_PG") st1 with
    | mk st2 aborted =>
      rw [hpr] at hinv2
      cases aborted with
      | true => exact ⟨st2, rfl, hinv2⟩
      | false =>
        refine ⟨_, rfl, ?_⟩
        refine mlnxAppendItem_inv _ _ _ (mlnxAppendItem_inv _ _ _
          (mlnxAppendItem_inv _ _ _ hinv2 ?_) ?_) ?_ <;> simp

theorem foldl_setEntry_marker :
    ∀ (l : List PendingItem) (d : ConfigDB), (∀ it ∈ l, it.1 ≠ "VERSIONS") →
      markerOf (l.foldl (fun d2 it => cfgSetEntry d2 it.1 it.2.1 it.2.2) d) = markerOf d := by
  intro l
  induction l with
  | nil => intro d _; rfl
  | cons it rest ih =>
    intro d h
    rw [List.foldl_cons]
    rw [ih _ (fun j hj => h j (List.mem_cons_of_mem it hj))]
    have hne : it.1 ≠ "VERSIONS" := h it (List.mem_cons_self it rest)
    unfold markerOf
    refine cfgFind_setEntry_ne d it.1 it.2.1 it.2.2 "VERSIONS" ["DATABASE"] (Or.inl ?_)
    cases hb : "VERSIONS" == it.1
    · rfl
    · exact absurd (eq_of_beq hb).symm hne

theorem applyPending_marker (ps : PendingState) (d : ConfigDB)
    (h : ∀ it ∈ ps.items, it.1 ≠ "VERSIONS") :
    markerOf (mlnxApplyPending ps d) = markerOf d := by
  unfold mlnxApplyPending
  cases hab : ps.abandoned
  · simp only [Bool.false_eq_true, if_neg, not_false_iff]
    exact foldl_setEntry_marker ps.items d h
  · simp


theorem prepare_dynamic_buffer_fields (s : MigState)
    (a b c : Option (List (CKey × Entry))) :
    (prepare_dynamic_buffer_for_warm_reboot s a b c).1.configDB = s.configDB ∧
    (prepare_dynamic_buffer_for_warm_reboot s a b c).1.trace = s.trace ∧
    (prepare_dynamic_buffer_for_warm_reboot s a b c).1.pending = s.pending ∧
    (prepare_dynamic_buffer_for_warm_reboot s a b c).2 = true := by
  cases hc : (!(kvGet s.stateDB "WARM_RESTART_ENABLE_TABLE|system" "enable" == some "true" &&
      (kvGet s.stateDB "BUFFER_MAX_PARAM_TABLE|global" "mmu_size" == none ||
        kvGet s.stateDB "BUFFER_MAX_PARAM_TABLE|global" "mmu_size" == some ""))) <;>
    simp [prepare_dynamic_buffer_for_warm_reboot, hc]

theorem prepare_pair (s : MigState) (a b c : Option (List (CKey × Entry))) :
    prepare_dynamic_buffer_for_warm_reboot s a b c =
      ((prepare_dynamic_buffer_for_warm_reboot s a b c).1, true) := by
  have h := (prepare_dynamic_buffer_fields s a b c).2.2.2
  cases hp : prepare_dynamic_buffer_for_warm_reboot s a b c with
  | mk x y => rw [hp] at h; simp at h; rw [h]

theorem prepare_configDB (s : MigState) (a b c : Option (List (CKey × Entry))) :
    (prepare_dynamic_buffer_for_warm_reboot s a b c).1.configDB = s.configDB :=
  (prepare_dynamic_buffer_fields s a b c).1

theorem prepare_trace (s : MigState) (a b c : Option (List (CKey × Entry))) :
    (prepare_dynamic_buffer_for_warm_reboot s a b c).1.trace = s.trace :=
  (prepare_dynamic_buffer_fields s a b c).2.1

theorem markerOf_set_version (v : String) (s : MigState) (hv : v ≠ "") :
    markerOf (set_version v s).configDB = some [("VERSION", v)] := by
  unfold set_version markerOf
  rw [if_neg (by simpa using hv)]
  exact cfgFind_setEntryF_same s.configDB "VERSIONS" ["DATABASE"] [("VERSION", v)]


theorem markerOf_featureFold1 :
    ∀ (l : List (CKey × Entry)) (d : ConfigDB),
      markerOf (l.foldl (fun d ke =>
        match fGet ke.2 "status" with
        | none => d
        | some st =>
          cfgSetEntry d "FEATURE" ke.1 (some (fRemove (fSet ke.2 "state" st) "status"))) d) =
      markerOf d := by
  intro l
  induction l with
  | nil => intro d; rfl
  | cons ke rest ih =>
    intro d
    rw [List.foldl_cons, ih]
    cases hst : fGet ke.2 "status" with
    | none => rfl
    | some stv =>
      unfold markerOf
      exact cfgFind_setEntry_ne d "FEATURE" ke.1 _ "VERSIONS" ["DATABASE"]
        (Or.inl (by decide))

theorem markerOf_featureFold2 :
    ∀ (l : List (CKey × Entry)) (d : ConfigDB),
      markerOf (l.foldl (fun d ke =>
        cfgSetEntry (cfgModEntry d "FEATURE" ke.1 ke.2) "CONTAINER_FEATURE" ke.1 none) d) =
      markerOf d := by
  intro l
  induction l with
  | nil => intro d; rfl
  | cons ke rest ih =>
    intro d
    rw [List.foldl_cons, ih]
    unfold markerOf cfgModEntry
    rw [cfgFind_setEntry_ne _ "CONTAINER_FEATURE" ke.1 none "VERSIONS" ["DATABASE"]
      (Or.inl (by decide))]
    exact cfgFind_setEntryF_ne d "FEATURE" ke.1 _ "VERSIONS" ["DATABASE"]
      (Or.inl (by decide))

theorem markerOf_feature (db : ConfigDB) :
    markerOf (migrate_feature_table db) = markerOf db := by
  simp only [migrate_feature_table]
  rw [markerOf_featureFold2, markerOf_featureFold1]

theorem mlnxGatedStep_spec (env : Env) (s : MigState) (fromV toV : String)
    (hasic : env.asic_type = "mellanox") (hpend : s.pending = ⟨[], false⟩)
    (htoV : toV ≠ "") :
    markerOf (mlnxGatedStep env fromV toV s).configDB =
      (if env.mlnx_pool_size fromV toV && env.mlnx_profile fromV toV && env.mlnx_flush then
        some [("VERSION", toV)] else markerOf s.configDB) ∧
    ((env.mlnx_pool_size fromV toV && env.mlnx_profile fromV toV && env.mlnx_flush) = false →
      (mlnxGatedStep env fromV toV s).configDB = s.configDB) ∧
    (mlnxGatedStep env fromV toV s).trace = s.trace ++
      (if env.mlnx_pool_size fromV toV = false then
        ["mlnx_migrate_buffer_pool_size " ++ fromV ++ " " ++ toV]
       else if env.mlnx_profile fromV toV = false then
        ["mlnx_migrate_buffer_pool_size " ++ fromV ++ " " ++ toV,
         "mlnx_migrate_buffer_profile " ++ fromV ++ " " ++ toV]
       else
        ["mlnx_migrate_buffer_pool_size " ++ fromV ++ " " ++ toV,
         "mlnx_migrate_buffer_profile " ++ fromV ++ " " ++ toV,
         "mlnx_flush_new_buffer_configuration"]) := by
  have hsv : ∀ s' : MigState,
      markerOf (set_version toV s').configDB = some [("VERSION", toV)] :=
    fun s' => markerOf_set_version toV s' htoV
  have hsvt : ∀ (v : String) (s' : MigState), (set_version v s').trace = s'.trace :=
    fun v s' => rfl
  cases hp : env.mlnx_pool_size fromV toV <;>
    cases hpr : env.mlnx_profile fromV toV <;>
      cases hf : env.mlnx_flush <;>
        simp [mlnxGatedStep, hasic, mlnxPoolSize, mlnxProfile, mlnxFlushCall, hp, hpr, hf,
          hpend, mlnxApplyPending, hsv, hsvt]

/-- **C4** (amended): for the Mellanox platform-conditional steps
`version_1_0_2` through `version_1_0_6`, the delegated sub-migrator
operations are combined by short-circuit conjunction — the trace records
exactly the calls made up to the first failure — the version marker is
written for the next version iff every boolean sub-migrator result is
success, and any failure leaves the version marker (for `version_1_0_2`,
the whole config store) unchanged, while the step still returns the next
version so that it retries on the next invocation.  The remaining
Mellanox-conditional step, `version_3_0_3`, deviates from the claim: it
calls `mlnx_reclaiming_unused_buffer` but discards its result and writes
the next version marker unconditionally (see the counterexample). -/
theorem c4_mellanox_gated_steps (env : Env) (s : MigState)
    (hasic : env.asic_type = "mellanox")
    (hpend : s.pending = ⟨[], false⟩)
    (hkeys : ∀ ke ∈ cfgGetTable s.configDB "BUFFER_PROFILE", ke.1.length = 1) :
    (∃ s2, version_1_0_2 env s = .ok (s2, some "version_1_0_3") ∧
      markerOf s2.configDB =
        (if env.mlnx_pool_size "version_1_0_2" "version_1_0_3" && env.mlnx_flush then
          some [("VERSION", "version_1_0_3")] else markerOf s.configDB) ∧
      ((env.mlnx_pool_size "version_1_0_2" "version_1_0_3" && env.mlnx_flush) = false →
        s2.configDB = s.configDB) ∧
      s2.trace = s.trace ++
        (if env.mlnx_pool_size "version_1_0_2" "version_1_0_3" then
          ["mlnx_migrate_buffer_pool_size version_1_0_2 version_1_0_3",
           "mlnx_flush_new_buffer_configuration"]
         else ["mlnx_migrate_buffer_pool_size version_1_0_2 version_1_0_3"])) ∧
    (version_1_0_3 env s).map (fun pr => (markerOf pr.1.configDB, pr.1.trace, pr.2)) =
      .ok ((if env.mlnx_pool_size "version_1_0_3" "version_1_0_4" &&
              env.mlnx_profile "version_1_0_3" "version_1_0_4" && env.mlnx_flush then
             some [("VERSION", "version_1_0_4")] else markerOf s.configDB),
           s.trace ++
             (if env.mlnx_pool_size "version_1_0_3" "version_1_0_4" = false then
               ["mlnx_migrate_buffer_pool_size version_1_0_3 version_1_0_4"]
              else if env.mlnx_profile "version_1_0_3" "version_1_0_4" = false then
               ["mlnx_migrate_buffer_pool_size version_1_0_3 version_1_0_4",
                "mlnx_migrate_buffer_profile version_1_0_3 version_1_0_4"]
              else
               ["mlnx_migrate_buffer_pool_size version_1_0_3 version_1_0_4",
                "mlnx_migrate_buffer_profile version_1_0_3 version_1_0_4",
                "mlnx_flush_new_buffer_configuration"]),
           some "version_1_0_4") ∧
    (version_1_0_4 env s).map (fun pr => (markerOf pr.1.configDB, pr.1.trace, pr.2)) =
      .ok ((if env.mlnx_pool_size "version_1_0_4" "version_1_0_5" &&
              env.mlnx_profile "version_1_0_4" "version_1_0_5" && env.mlnx_flush then
             some [("VERSION", "version_1_0_5")] else markerOf s.configDB),
           s.trace ++
             (if env.mlnx_pool_size "version_1_0_4" "version_1_0_5" = false then
               ["mlnx_migrate_buffer_pool_size version_1_0_4 version_1_0_5"]
              else if env.mlnx_profile "version_1_0_4" "version_1_0_5" = false then
               ["mlnx_migrate_buffer_pool_size version_1_0_4 version_1_0_5",
                "mlnx_migrate_buffer_profile version_1_0_4 version_1_0_5"]
              else
               ["mlnx_migrate_buffer_pool_size version_1_0_4 version_1_0_5",
                "mlnx_migrate_buffer_profile version_1_0_4 version_1_0_5",
                "mlnx_flush_new_buffer_configuration"]),
           some "version_1_0_5") ∧
    (version_1_0_5 env s).map (fun pr => (markerOf pr.1.configDB, pr.1.trace, pr.2)) =
      .ok ((if env.mlnx_pool_size "version_1_0_5" "version_1_0_6" &&
              env.mlnx_profile "version_1_0_5" "version_1_0_6" && env.mlnx_flush then
             some [("VERSION", "version_1_0_6")] else markerOf s.configDB),
           s.trace ++
             (if env.mlnx_pool_size "version_1_0_5" "version_1_0_6" = false then
               ["mlnx_migrate_buffer_pool_size version_1_0_5 version_1_0_6"]
              else if env.mlnx_profile "version_1_0_5" "version_1_0_6" = false then
               ["mlnx_migrate_buffer_pool_size version_1_0_5 version_1_0_6",
                "mlnx_migrate_buffer_profile version_1_0_5 version_1_0_6"]
              else
               ["mlnx_migrate_buffer_pool_size version_1_0_5 version_1_0_6",
                "mlnx_migrate_buffer_profile version_1_0_5 version_1_0_6",
                "mlnx_flush_new_buffer_configuration"]),
           some "version_1_0_6") ∧
    (version_1_0_6 env s).map (fun pr => (markerOf pr.1.configDB, pr.1.trace, pr.2)) =
      .ok ((if env.mlnx_pool_size "version_1_0_6" "version_2_0_0" &&
              env.mlnx_profile "version_1_0_6" "version_2_0_0" && env.mlnx_flush then
             some [("VERSION", "version_2_0_0")] else markerOf s.configDB),
           s.trace ++
             (if env.mlnx_pool_size "version_1_0_6" "version_2_0_0" = false then
               ["mlnx_migrate_buffer_pool_size version_1_0_6 version_2_0_0"]
              else if env.mlnx_profile "version_1_0_6" "version_2_0_0" = false then
               ["mlnx_migrate_buffer_pool_size version_1_0_6 version_2_0_0",
                "mlnx_migrate_buffer_profile version_1_0_6 version_2_0_0"]
              else
               ["mlnx_migrate_buffer_pool_size version_1_0_6 version_2_0_0",
                "mlnx_migrate_buffer_profile version_1_0_6 version_2_0_0",
                "mlnx_is_buffer_model_dynamic",
                "mlnx_flush_new_buffer_configuration"]),
           some "version_2_0_0") ∧
    (version_3_0_3 env s).map (fun pr => (markerOf pr.1.configDB, pr.1.trace, pr.2)) =
      .ok (some [("VERSION", "version_3_0_4")],
           s.trace ++ ["mlnx_reclaiming_unused_buffer"], some "version_3_0_4") := by
  refine ⟨?_, ?_, ?_, ?_, ?_, ?_⟩
  · refine ⟨_, rfl, ?_⟩
    rw [hasic]
    cases hp : env.mlnx_pool_size "version_1_0_2" "version_1_0_3" <;>
      cases hf : env.mlnx_flush <;>
        simp [mlnxPoolSize, mlnxFlushCall, hp, hf, hpend, mlnxApplyPending, set_version,
          markerOf, cfgSetEntry, cfgFind_setEntryF_same]
  · have h := mlnxGatedStep_spec env { s with configDB := migrate_feature_table s.configDB }
      "version_1_0_3" "version_1_0_4" hasic hpend (by decide)
    unfold version_1_0_3
    simp only [Except.map]
    rw [h.1, h.2.2]
    simp [markerOf_feature]
  · have h := mlnxGatedStep_spec env s "version_1_0_4" "version_1_0_5" hasic hpend (by decide)
    unfold version_1_0_4
    simp only [Except.map]
    rw [h.1, h.2.2]
    rfl
  · have h := mlnxGatedStep_spec env s "version_1_0_5" "version_1_0_6" hasic hpend (by decide)
    unfold version_1_0_5
    simp only [Except.map]
    rw [h.1, h.2.2]
    rfl
  · obtain ⟨ps', hcalc, hinv⟩ := migrate_calc_ok s.configDB env.default_speed_list
      env.default_cable_len_list "0" ⟨[], false⟩ hkeys
      (fun it hit => absurd hit (List.not_mem_nil it))
    unfold version_1_0_6
    rw [hasic]
    cases hp : env.mlnx_pool_size "version_1_0_6" "version_2_0_0"
    · simp [mlnxPoolSize, hp, Except.map]
    · cases hpr : env.mlnx_profile "version_1_0_6" "version_2_0_0"
      · simp [mlnxPoolSize, mlnxProfile, hp, hpr, Except.map]
      · cases hd : env.mlnx_is_dynamic <;> cases hf : env.mlnx_flush
        · simp [mlnxPoolSize, mlnxProfile, mlnxIsDynamic, mlnxFlushCall, hp, hpr, hd, hf,
            hpend, hcalc, mlnxApplyPending, bind, Except.bind, pure, Except.pure, Except.map]
        · simp only [mlnxPoolSize, mlnxProfile, mlnxIsDynamic, mlnxFlushCall, hp, hpr, hd, hf,
            hpend, bind, Except.bind, pure, Except.pure, if_true, if_false, Bool.false_eq_true,
            Bool.true_eq_false, if_neg, not_false_iff]
          rw [prepare_pair]
          simp [mlnxApplyPending, set_version, markerOf, cfgSetEntry, cfgFind_setEntryF_same,
            prepare_configDB, prepare_trace, hp, hpr, hf, Except.map]
        · simp [mlnxPoolSize, mlnxProfile, mlnxIsDynamic, mlnxFlushCall, hp, hpr, hd, hf,
            hpend, hcalc, bind, Except.bind, pure, Except.pure, Except.map,
            applyPending_marker ps' s.configDB hinv]
        · simp only [mlnxPoolSize, mlnxProfile, mlnxIsDynamic, mlnxFlushCall, hp, hpr, hd, hf,
            hpend, bind, Except.bind, pure, Except.pure, if_true, if_false, Bool.false_eq_true,
            Bool.true_eq_false, if_neg, not_false_iff, hcalc]
          rw [prepare_pair]
          simp [set_version, markerOf, cfgSetEntry, cfgFind_setEntryF_same,
            prepare_configDB, prepare_trace, hp, hpr, hf, Except.map]
  · simp [version_3_0_3, hasic, mlnxReclaiming, set_version, markerOf, cfgSetEntry,
      cfgFind_setEntryF_same, Except.map]

theorem c4_witness :
    (∃ s2, version_1_0_2 mlnxFailEnv emptyState = .ok (s2, some "version_1_0_3") ∧
      markerOf s2.configDB =
        (if mlnxFailEnv.mlnx_pool_size "version_1_0_2" "version_1_0_3" && mlnxFailEnv.mlnx_flush then
          some [("VERSION", "version_1_0_3")] else markerOf emptyState.configDB) ∧
      ((mlnxFailEnv.mlnx_pool_size "version_1_0_2" "version_1_0_3" && mlnxFailEnv.mlnx_flush) = false →
        s2.configDB = emptyState.configDB) ∧
      s2.trace = emptyState.trace ++
        (if mlnxFailEnv.mlnx_pool_size "version_1_0_2" "version_1_0_3" then
          ["mlnx_migrate_buffer_pool_size version_1_0_2 version_1_0_3",
           "mlnx_flush_new_buffer_configuration"]
         else ["mlnx_migrate_buffer_pool_size version_1_0_2 version_1_0_3"])) ∧
    (version_1_0_4 mlnxFailEnv emptyState).map
        (fun pr => (markerOf pr.1.configDB, pr.1.trace, pr.2)) =
      .ok ((if mlnxFailEnv.mlnx_pool_size "version_1_0_4" "version_1_0_5" &&
              mlnxFailEnv.mlnx_profile "version_1_0_4" "version_1_0_5" && mlnxFailEnv.mlnx_flush then
             some [("VERSION", "version_1_0_5")] else markerOf emptyState.configDB),
           emptyState.trace ++
             (if mlnxFailEnv.mlnx_pool_size "version_1_0_4" "version_1_0_5" = false then
               ["mlnx_migrate_buffer_pool_size version_1_0_4 version_1_0_5"]
              else if mlnxFailEnv.mlnx_profile "version_1_0_4" "version_1_0_5" = false then
               ["mlnx_migrate_buffer_pool_size version_1_0_4 version_1_0_5",
                "mlnx_migrate_buffer_profile version_1_0_4 version_1_0_5"]
              else
               ["mlnx_migrate_buffer_pool_size version_1_0_4 version_1_0_5",
                "mlnx_migrate_buffer_profile version_1_0_4 version_1_0_5",
                "mlnx_flush_new_buffer_configuration"]),
           some "version_1_0_5") ∧
    (version_3_0_3 mlnxFailEnv emptyState).map
        (fun pr => (markerOf pr.1.configDB, pr.1.trace, pr.2)) =
      .ok (some [("VERSION", "version_3_0_4")],
           emptyState.trace ++ ["mlnx_reclaiming_unused_buffer"], some "version_3_0_4") :=
  ⟨(c4_mellanox_gated_steps mlnxFailEnv emptyState rfl rfl (by decide)).1,
   (c4_mellanox_gated_steps mlnxFailEnv emptyState rfl rfl (by decide)).2.2.1,
   (c4_mellanox_gated_steps mlnxFailEnv emptyState rfl rfl (by decide)).2.2.2.2.2⟩

/-- **C4** counterexample: `version_3_0_3` is a Mellanox
platform-conditional step delegating to the sub-migrator, yet with the
`mlnx_reclaiming_unused_buffer` call reporting failure the step still
writes the `version_3_0_4` marker (the call's result is discarded) —
refuting the claim that every such step leaves the marker unchanged on
sub-migrator failure. -/
theorem c4_counterexample :
    mlnxReclaimFailEnv.asic_type = "mellanox" ∧
    mlnxReclaimFailEnv.mlnx_reclaiming = false ∧
    markerOf emptyState.configDB = none ∧
    (version_3_0_3 mlnxReclaimFailEnv emptyState).map
        (fun pr => (markerOf pr.1.configDB, pr.1.trace, pr.2)) =
      .ok (some [("VERSION", "version_3_0_4")],
           ["mlnx_reclaiming_unused_buffer"], some "version_3_0_4") := by
  decide


theorem fGet_mem (e : Entry) (f v : String) (h : fGet e f = some v) : (f, v) ∈ e := by
  induction e with
  | nil => simp [fGet] at h
  | cons p t ih =>
    rw [fGet_cons] at h
    by_cases hp : (p.1 == f) = true
    · rw [if_pos hp] at h
      injection h with h2
      rcases p with ⟨p1, p2⟩
      cases eq_of_beq hp
      cases h2
      exact List.mem_cons_self _ _
    · rw [if_neg hp] at h
      exact List.mem_cons_of_mem p (ih h)

theorem fSet_map_fst (e : Entry) (f v : String) (h : (fGet e f).isSome = true) :
    (fSet e f v).map Prod.fst = e.map Prod.fst := by
  induction e with
  | nil => simp [fGet] at h
  | cons p t ih =>
    by_cases hp : (p.1 == f) = true
    · have := eq_of_beq hp
      simp [fSet, hp, this]
    · have hp' : (p.1 == f) = false := by
        cases hg : p.1 == f
        · rfl
        · exact absurd hg hp
      rw [fGet_cons, if_neg (by simp [hp'])] at h
      simp [fSet, hp', ih h]

theorem kvGet_writeFold_skip (its : Entry) (a : KVDB) (key f : String)
    (h : ∀ fv ∈ its, (fv.1 == f) = false) :
    kvGet (its.foldl (fun a (fv : String × String) => kvSetField a key fv.1 fv.2) a) key f =
      kvGet a key f := by
  induction its generalizing a with
  | nil => rfl
  | cons p t ih =>
    simp only [List.foldl_cons]
    rw [ih _ (fun fv hfv => h fv (List.mem_cons_of_mem p hfv))]
    exact kvGet_setField_other a key p.1 p.2 key f
      (Or.inr (beq_symm_false (h p (List.mem_cons_self p t))))

theorem kvGet_writeFold_mem (its : Entry) (a : KVDB) (key f v : String)
    (hnd : (its.map Prod.fst).Nodup) (hmem : (f, v) ∈ its) :
    kvGet (its.foldl (fun a (fv : String × String) => kvSetField a key fv.1 fv.2) a) key f =
      some v := by
  induction its generalizing a with
  | nil => cases hmem
  | cons p t ih =>
    simp only [List.map_cons, List.nodup_cons] at hnd
    rcases List.mem_cons.mp hmem with heq | hmem'
    · cases heq.symm
      simp only [List.foldl_cons]
      rw [kvGet_writeFold_skip]
      · exact kvGet_setField_same a key f v
      · intro fv hfv
        have hmf : fv.1 ∈ t.map Prod.fst := List.mem_map_of_mem Prod.fst hfv
        have hne : fv.1 ≠ f := fun hc => hnd.1 (hc ▸ hmf)
        cases hg : fv.1 == f
        · rfl
        · exact absurd (eq_of_beq hg) hne
    · exact ih _ hnd.2 hmem'

theorem vxlanWrite_preserve (mapping : Entry) (appKey : String) (s : MigState)
    (key f v : String) (h : kvGet s.appDB key f = some v) :
    kvGet ((mapping.foldl (fun s (fv : String × String) =>
        if kvHexists s.appDB appKey fv.1 then s
        else { s with appDB := kvSetField s.appDB appKey fv.1 fv.2 }) s).appDB) key f =
      some v := by
  induction mapping generalizing s with
  | nil => exact h
  | cons p t ih =>
    simp only [List.foldl_cons]
    apply ih
    by_cases hex : kvHexists s.appDB appKey p.1 = true
    · rw [if_pos hex]; exact h
    · rw [if_neg hex]
      cases hkk : key == appKey
      · exact (kvGet_setField_other s.appDB appKey p.1 p.2 key f (Or.inl hkk)).trans h
      · cases hff : f == p.1
        · exact (kvGet_setField_other s.appDB appKey p.1 p.2 key f (Or.inr hff)).trans h
        · exfalso
          apply hex
          rw [← eq_of_beq hkk, ← eq_of_beq hff, kvHexists, h]
          rfl

theorem vxlan_outer_preserve (l : List String) (s : MigState) (key f v : String)
    (h : kvGet s.appDB key f = some v) :
    kvGet ((l.foldl (fun s vk =>
        let parts := pySplit vk "|"
        let mapping := match parts with
          | t :: k => cfgGetEntry s.configDB t k
          | [] => []
        let appKey := match parts with
          | h :: rest => pyJoin ":" ((h ++ "_TABLE") :: rest)
          | [] => ""
        mapping.foldl (fun s (fv : String × String) =>
          if kvHexists s.appDB appKey fv.1 then s
          else { s with appDB := kvSetField s.appDB appKey fv.1 fv.2 }) s) s).appDB) key f =
      some v := by
  induction l generalizing s with
  | nil => exact h
  | cons vk t ih =>
    simp only [List.foldl_cons]
    exact ih _ (vxlanWrite_preserve _ _ s key f v h)

/-- **C5** (amended): in `prepare_dynamic_buffer_for_warm_reboot`'s copy loop,
a copied entry's cross-table reference field is rewritten with `translateRef`
(the `|`-to-`:` translation appending `_TABLE`), and rows with a missing,
empty or `NULL` reference are skipped without touching the runtime store;
merge-don't-clobber holds for `migrate_vxlan_config` (a field the runtime
store already holds is never changed) — but not for the buffer copy itself,
which writes unconditionally (see the counterexample). -/
theorem c5_translate_and_guard :
    (∀ (a : KVDB) (tname rf : String) (k : CKey) (items : Entry) (r : String),
      (items.map Prod.fst).Nodup → fGet items rf = some r → r ≠ "" → r ≠ "NULL" →
      (copyBufferEntry a tname (some rf) k items).2 = true ∧
      kvGet (copyBufferEntry a tname (some rf) k items).1
        (tname ++ ":" ++ pyJoin ":" k) rf = some (translateRef r)) ∧
    (∀ (a : KVDB) (tname rf : String) (k : CKey) (items : Entry),
      fGet items rf = none ∨ fGet items rf = some "" ∨ fGet items rf = some "NULL" →
      copyBufferEntry a tname (some rf) k items = (a, false)) ∧
    (∀ (s : MigState) (key f v : String),
      kvGet s.appDB key f = some v →
      kvGet (migrate_vxlan_config s).appDB key f = some v) := by
  refine ⟨?_, ?_, ?_⟩
  · intro a tname rf k items r hnd hrf hne hnn
    have h1 : (r == "") = false := by
      cases hg : r == ""
      · rfl
      · exact absurd (eq_of_beq hg) hne
    have h2 : (r == "NULL") = false := by
      cases hg : r == "NULL"
      · rfl
      · exact absurd (eq_of_beq hg) hnn
    unfold copyBufferEntry
    simp only [hrf, h1, h2, Bool.or_self, Bool.or_false, Bool.false_or,
      Bool.false_eq_true, if_false, if_neg]
    refine ⟨trivial, ?_⟩
    apply kvGet_writeFold_mem
    · rw [fSet_map_fst items rf _ (by rw [hrf]; rfl)]
      exact hnd
    · exact fGet_mem _ _ _ (fGet_fSet_same items rf (translateRef r))
  · intro a tname rf k items h
    rcases h with h | h | h <;> simp [copyBufferEntry, h]
  · intro s key f v h
    unfold migrate_vxlan_config
    exact vxlan_outer_preserve _ s key f v h

theorem c5_witness :
    (((copyBufferEntry [] "BUFFER_PROFILE_TABLE" (some "pool") ["prof1"]
        [("pool", "BUFFER_POOL|ingress_pool"), ("size", "100")]).2 = true ∧
      kvGet (copyBufferEntry [] "BUFFER_PROFILE_TABLE" (some "pool") ["prof1"]
        [("pool", "BUFFER_POOL|ingress_pool"), ("size", "100")]).1
        ("BUFFER_PROFILE_TABLE" ++ ":" ++ pyJoin ":" ["prof1"]) "pool" =
          some (translateRef "BUFFER_POOL|ingress_pool")) ∧
     copyBufferEntry [] "BUFFER_QUEUE_TABLE" (some "profile") ["q"]
        [("profile", "NULL")] = ([], false)) ∧
    kvGet (migrate_vxlan_config clobberState).appDB "BUFFER_PROFILE_TABLE:prof1" "size" =
      some "999" :=
  ⟨⟨c5_translate_and_guard.1 [] "BUFFER_PROFILE_TABLE" "pool" ["prof1"]
      [("pool", "BUFFER_POOL|ingress_pool"), ("size", "100")] "BUFFER_POOL|ingress_pool"
      (by decide) (by decide) (by decide) (by decide),
    c5_translate_and_guard.2.1 [] "BUFFER_QUEUE_TABLE" "profile" ["q"]
      [("profile", "NULL")] (Or.inr (Or.inr (by decide)))⟩,
   c5_translate_and_guard.2.2 clobberState "BUFFER_PROFILE_TABLE:prof1" "size" "999"
      (by decide)⟩

/-- **C5** counterexample: the runtime store already holds
`size = 999` for `BUFFER_PROFILE_TABLE:prof1`, yet
`prepare_dynamic_buffer_for_warm_reboot` overwrites it with the config
store's `100` — the buffer propagation writes every field unconditionally,
refuting the claim's merge-don't-clobber clause (the reference field is
still translated as claimed). -/
theorem c5_counterexample :
    kvGet clobberState.appDB "BUFFER_PROFILE_TABLE:prof1" "size" = some "999" ∧
    kvGet (prepare_dynamic_buffer_for_warm_reboot clobberState).1.appDB
        "BUFFER_PROFILE_TABLE:prof1" "size" = some "100" ∧
    kvGet (prepare_dynamic_buffer_for_warm_reboot clobberState).1.appDB
        "BUFFER_PROFILE_TABLE:prof1" "pool" = some "BUFFER_POOL_TABLE:ingress_pool" := by
  decide

/-! ## Claim C6: merge-don't-clobber of the fill-in steps -/

theorem beq_eq_false_of_ne {α : Type} [BEq α] [LawfulBEq α] {a b : α} (h : a ≠ b) :
    (a == b) = false := by
  cases hg : a == b
  · rfl
  · exact absurd (eq_of_beq hg) h

theorem singleton_beq_false {a b : String} (h : (a == b) = false) :
    ((([a] : CKey)) == [b]) = false := by
  show (a == b && (([] : CKey) == [])) = false
  rw [h]
  rfl

theorem cfgFind_setEntry_same (db : ConfigDB) (t : String) (k : CKey) (v : Option Entry) :
    cfgFind (cfgSetEntry db t k v) t k = v := by
  cases v with
  | none => exact cfgFind_deleteEntry_same db t k
  | some e => exact cfgFind_setEntryF_same db t k e

theorem cfgFind_fillStep_same (db : ConfigDB) (T k : String) (v : Option Entry) :
    cfgFind (fillStep T k v db) T [k] =
      if cfgGetEntry db T [k] == [] then v else cfgFind db T [k] := by
  unfold fillStep
  by_cases h : (cfgGetEntry db T [k] == []) = true
  · rw [if_pos h, if_pos h, cfgFind_setEntry_same]
  · rw [if_neg h, if_neg h]

theorem cfgFind_fillStep_ne (db : ConfigDB) (T k : String) (v : Option Entry)
    (T' : String) (k' : CKey) (h : (T' == T) = false ∨ (k' == ([k] : CKey)) = false) :
    cfgFind (fillStep T k v db) T' k' = cfgFind db T' k' := by
  unfold fillStep
  by_cases hc : (cfgGetEntry db T [k] == []) = true
  · rw [if_pos hc]
    exact cfgFind_setEntry_ne db T [k] v T' k' h
  · rw [if_neg hc]

theorem cfgGetEntry_fillStep_ne (db : ConfigDB) (T k : String) (v : Option Entry)
    (T' : String) (k' : CKey) (h : (T' == T) = false ∨ (k' == ([k] : CKey)) = false) :
    cfgGetEntry (fillStep T k v db) T' k' = cfgGetEntry db T' k' := by
  unfold cfgGetEntry
  rw [cfgFind_fillStep_ne db T k v T' k' h]

theorem fillOne_laws (db : ConfigDB) (T k1 : String) (v1 : Option Entry) :
    (cfgGetEntry db T [k1] ≠ [] →
      cfgFind (fillStep T k1 v1 db) T [k1] = cfgFind db T [k1]) ∧
    (cfgGetEntry db T [k1] = [] →
      cfgFind (fillStep T k1 v1 db) T [k1] = v1) := by
  constructor
  · intro hne
    rw [cfgFind_fillStep_same]
    simp [beq_eq_false_of_ne hne]
  · intro he
    rw [cfgFind_fillStep_same]
    simp [he]

theorem fillPair_laws (db : ConfigDB) (T k1 k2 : String) (v1 v2 : Option Entry)
    (hk : (k2 == k1) = false) :
    (cfgGetEntry db T [k1] ≠ [] →
      cfgFind (fillStep T k2 v2 (fillStep T k1 v1 db)) T [k1] = cfgFind db T [k1]) ∧
    (cfgGetEntry db T [k1] = [] →
      cfgFind (fillStep T k2 v2 (fillStep T k1 v1 db)) T [k1] = v1) ∧
    (cfgGetEntry db T [k2] ≠ [] →
      cfgFind (fillStep T k2 v2 (fillStep T k1 v1 db)) T [k2] = cfgFind db T [k2]) ∧
    (cfgGetEntry db T [k2] = [] →
      cfgFind (fillStep T k2 v2 (fillStep T k1 v1 db)) T [k2] = v2) := by
  have hone := fillOne_laws db T k1 v1
  have hg : cfgGetEntry (fillStep T k1 v1 db) T [k2] = cfgGetEntry db T [k2] :=
    cfgGetEntry_fillStep_ne db T k1 v1 T [k2] (Or.inr (singleton_beq_false hk))
  have hf : cfgFind (fillStep T k1 v1 db) T [k2] = cfgFind db T [k2] :=
    cfgFind_fillStep_ne db T k1 v1 T [k2] (Or.inr (singleton_beq_false hk))
  refine ⟨?_, ?_, ?_, ?_⟩
  · intro hne
    rw [cfgFind_fillStep_ne _ _ _ _ _ _
      (Or.inr (singleton_beq_false (beq_symm_false hk)))]
    exact hone.1 hne
  · intro he
    rw [cfgFind_fillStep_ne _ _ _ _ _ _
      (Or.inr (singleton_beq_false (beq_symm_false hk)))]
    exact hone.2 he
  · intro hne
    rw [cfgFind_fillStep_same, hg, hf]
    simp [beq_eq_false_of_ne hne]
  · intro he
    rw [cfgFind_fillStep_same, hg]
    simp [he]

theorem cfgFind_aaaAuthzStep_ne (v : Option Entry) (db : ConfigDB) (T' : String) (k' : CKey)
    (h : (T' == "AAA") = false ∨ (k' == (["authorization"] : CKey)) = false) :
    cfgFind (aaaAuthzStep v db) T' k' = cfgFind db T' k' := by
  simp only [aaaAuthzStep]
  split
  · split
    · exact cfgFind_setEntry_ne db "AAA" ["authorization"] v T' k' h
    · rfl
  · split
    · exact cfgFind_deleteEntry_ne db "AAA" ["authorization"] T' k' h
    · rfl

theorem aaaChain_laws (db : ConfigDB) (v1 v2 v3 : Option Entry) :
    (cfgGetEntry db "AAA" ["authentication"] ≠ [] →
      cfgFind (aaaAuthzStep v3 (fillStep "AAA" "accounting" v2
          (fillStep "AAA" "authentication" v1 db))) "AAA" ["authentication"] =
        cfgFind db "AAA" ["authentication"]) ∧
    (cfgGetEntry db "AAA" ["authentication"] = [] →
      cfgFind (aaaAuthzStep v3 (fillStep "AAA" "accounting" v2
          (fillStep "AAA" "authentication" v1 db))) "AAA" ["authentication"] = v1) ∧
    (cfgGetEntry db "AAA" ["accounting"] ≠ [] →
      cfgFind (aaaAuthzStep v3 (fillStep "AAA" "accounting" v2
          (fillStep "AAA" "authentication" v1 db))) "AAA" ["accounting"] =
        cfgFind db "AAA" ["accounting"]) ∧
    (cfgGetEntry db "AAA" ["accounting"] = [] →
      cfgFind (aaaAuthzStep v3 (fillStep "AAA" "accounting" v2
          (fillStep "AAA" "authentication" v1 db))) "AAA" ["accounting"] = v2) := by
  have h := fillPair_laws db "AAA" "authentication" "accounting" v1 v2 (by decide)
  have hne1 := cfgFind_aaaAuthzStep_ne v3
    (fillStep "AAA" "accounting" v2 (fillStep "AAA" "authentication" v1 db))
    "AAA" ["authentication"] (Or.inr (singleton_beq_false (by decide)))
  have hne2 := cfgFind_aaaAuthzStep_ne v3
    (fillStep "AAA" "accounting" v2 (fillStep "AAA" "authentication" v1 db))
    "AAA" ["accounting"] (Or.inr (singleton_beq_false (by decide)))
  exact ⟨fun hx => hne1.trans (h.1 hx), fun hx => hne1.trans (h.2.1 hx),
         fun hx => hne2.trans (h.2.2.1 hx), fun hx => hne2.trans (h.2.2.2 hx)⟩

theorem cfgFind_tblFold_skip (tbl : List (String × Entry)) (d : ConfigDB) (T a : String)
    (h : ∀ p ∈ tbl, (p.1 == a) = false) :
    cfgFind (tbl.foldl (fun d ac => cfgSetEntry d T [ac.1] (some ac.2)) d) T [a] =
      cfgFind d T [a] := by
  induction tbl generalizing d with
  | nil => rfl
  | cons p t ih =>
    simp only [List.foldl_cons]
    rw [ih _ (fun q hq => h q (List.mem_cons_of_mem p hq))]
    exact cfgFind_setEntry_ne d T [p.1] (some p.2) T [a]
      (Or.inr (singleton_beq_false (beq_symm_false (h p (List.mem_cons_self p t)))))

theorem cfgFind_tblFold_mem (tbl : List (String × Entry)) (d : ConfigDB) (T a : String)
    (c : Entry) (hnd : (tbl.map Prod.fst).Nodup) (hmem : (a, c) ∈ tbl) :
    cfgFind (tbl.foldl (fun d ac => cfgSetEntry d T [ac.1] (some ac.2)) d) T [a] = some c := by
  induction tbl generalizing d with
  | nil => cases hmem
  | cons p t ih =>
    simp only [List.map_cons, List.nodup_cons] at hnd
    rcases List.mem_cons.mp hmem with heq | hmem'
    · cases heq.symm
      simp only [List.foldl_cons]
      rw [cfgFind_tblFold_skip]
      · exact cfgFind_setEntry_same d T [a] (some c)
      · intro q hq
        have hmf : q.1 ∈ t.map Prod.fst := List.mem_map_of_mem Prod.fst hq
        exact beq_eq_false_of_ne (fun hc => hnd.1 (hc ▸ hmf))
    · exact ih _ hnd.2 hmem'

/-- **C6** (amended): the snapshot fill-in steps for `RESTAPI`,
`TELEMETRY`, `CONSOLE_SWITCH`, `TACPLUS` and the `AAA`
authentication/accounting keys each preserve an operator-set destination
entry unchanged and, when the destination is absent, write exactly the
snapshot value; `migrate_dns_nameserver` is a no-op on a non-empty table
and fills every snapshot address when the table is empty; the
initial-config merge keeps every current field over the default and takes
the default only for absent fields; and `migrate_gnmi` skips only when
both `GNMI` keys exist — when just one exists it rewrites from the
snapshot (see the counterexample refuting the claim's universal
merge-don't-clobber reading). -/
theorem c6_fill_steps_merge :
    (∀ (env : Env) (db : ConfigDB) (rd : List (String × Entry)),
      (srcData env).bind (fun src => srcGet src "RESTAPI") = some rd →
      (cfgGetEntry db "RESTAPI" ["config"] ≠ [] →
        cfgFind (migrate_restapi env db) "RESTAPI" ["config"] =
          cfgFind db "RESTAPI" ["config"]) ∧
      (cfgGetEntry db "RESTAPI" ["config"] = [] →
        cfgFind (migrate_restapi env db) "RESTAPI" ["config"] = srcTblGet rd "config") ∧
      (cfgGetEntry db "RESTAPI" ["certs"] ≠ [] →
        cfgFind (migrate_restapi env db) "RESTAPI" ["certs"] =
          cfgFind db "RESTAPI" ["certs"]) ∧
      (cfgGetEntry db "RESTAPI" ["certs"] = [] →
        cfgFind (migrate_restapi env db) "RESTAPI" ["certs"] = srcTblGet rd "certs")) ∧
    (∀ (env : Env) (db : ConfigDB) (td : List (String × Entry)),
      (srcData env).bind (fun src => srcGet src "TELEMETRY") = some td →
      (cfgGetEntry db "TELEMETRY" ["gnmi"] ≠ [] →
        cfgFind (migrate_telemetry env db) "TELEMETRY" ["gnmi"] =
          cfgFind db "TELEMETRY" ["gnmi"]) ∧
      (cfgGetEntry db "TELEMETRY" ["gnmi"] = [] →
        cfgFind (migrate_telemetry env db) "TELEMETRY" ["gnmi"] = srcTblGet td "gnmi") ∧
      (cfgGetEntry db "TELEMETRY" ["certs"] ≠ [] →
        cfgFind (migrate_telemetry env db) "TELEMETRY" ["certs"] =
          cfgFind db "TELEMETRY" ["certs"]) ∧
      (cfgGetEntry db "TELEMETRY" ["certs"] = [] →
        cfgFind (migrate_telemetry env db) "TELEMETRY" ["certs"] = srcTblGet td "certs")) ∧
    (∀ (env : Env) (db : ConfigDB) (cd : List (String × Entry)),
      (srcData env).bind (fun src => srcGet src "CONSOLE_SWITCH") = some cd →
      (cfgGetEntry db "CONSOLE_SWITCH" ["console_mgmt"] ≠ [] →
        cfgFind (migrate_console_switch env db) "CONSOLE_SWITCH" ["console_mgmt"] =
          cfgFind db "CONSOLE_SWITCH" ["console_mgmt"]) ∧
      (cfgGetEntry db "CONSOLE_SWITCH" ["console_mgmt"] = [] →
        cfgFind (migrate_console_switch env db) "CONSOLE_SWITCH" ["console_mgmt"] =
          srcTblGet cd "console_mgmt")) ∧
    (∀ (env : Env) (db : ConfigDB) (tp : List (String × Entry)),
      (srcData env).bind (fun src => srcGet src "TACPLUS") = some tp →
      (cfgGetEntry db "TACPLUS" ["global"] ≠ [] →
        cfgFind (migrate_tacplus env db) "TACPLUS" ["global"] =
          cfgFind db "TACPLUS" ["global"]) ∧
      (cfgGetEntry db "TACPLUS" ["global"] = [] →
        cfgFind (migrate_tacplus env db) "TACPLUS" ["global"] = srcTblGet tp "global")) ∧
    (∀ (env : Env) (db : ConfigDB) (ad : List (String × Entry)),
      (srcData env).bind (fun src => srcGet src "AAA") = some ad →
      (cfgGetEntry db "AAA" ["authentication"] ≠ [] →
        cfgFind (migrate_aaa env db) "AAA" ["authentication"] =
          cfgFind db "AAA" ["authentication"]) ∧
      (cfgGetEntry db "AAA" ["authentication"] = [] →
        cfgFind (migrate_aaa env db) "AAA" ["authentication"] =
          srcTblGet ad "authentication") ∧
      (cfgGetEntry db "AAA" ["accounting"] ≠ [] →
        cfgFind (migrate_aaa env db) "AAA" ["accounting"] =
          cfgFind db "AAA" ["accounting"]) ∧
      (cfgGetEntry db "AAA" ["accounting"] = [] →
        cfgFind (migrate_aaa env db) "AAA" ["accounting"] = srcTblGet ad "accounting")) ∧
    (∀ (env : Env) (db : ConfigDB) (tbl : List (String × Entry)),
      (srcData env).bind (fun src => srcGet src "DNS_NAMESERVER") = some tbl →
      (cfgGetTable db "DNS_NAMESERVER" ≠ [] → migrate_dns_nameserver env db = db) ∧
      ((tbl.map Prod.fst).Nodup → cfgGetTable db "DNS_NAMESERVER" = [] →
        ∀ ac ∈ tbl,
          cfgFind (migrate_dns_nameserver env db) "DNS_NAMESERVER" [ac.1] =
            some ac.2)) ∧
    (∀ (t kstr : String) (init : Entry) (db : ConfigDB) (f : String),
      fGet (cfgGetEntry (applyInitCfg [(t, [(kstr, init)])] db) t (pySplit kstr "|")) f =
        (fGet (cfgGetEntry db t (pySplit kstr "|")) f).or (fGet init f)) ∧
    (∀ (env : Env) (db : ConfigDB),
      cfgGetEntry db "GNMI" ["gnmi"] ≠ [] → cfgGetEntry db "GNMI" ["certs"] ≠ [] →
      migrate_gnmi env db = db) := by
  refine ⟨?_, ?_, ?_, ?_, ?_, ?_, ?_, ?_⟩
  · intro env db rd hsrc
    have hre : migrate_restapi env db =
        fillStep "RESTAPI" "certs" (srcTblGet rd "certs")
          (fillStep "RESTAPI" "config" (srcTblGet rd "config") db) := by
      unfold migrate_restapi fillStep
      rw [hsrc]
    rw [hre]
    exact fillPair_laws db "RESTAPI" "config" "certs" _ _ (by decide)
  · intro env db td hsrc
    have hre : migrate_telemetry env db =
        fillStep "TELEMETRY" "certs" (srcTblGet td "certs")
          (fillStep "TELEMETRY" "gnmi" (srcTblGet td "gnmi") db) := by
      unfold migrate_telemetry fillStep
      rw [hsrc]
    rw [hre]
    exact fillPair_laws db "TELEMETRY" "gnmi" "certs" _ _ (by decide)
  · intro env db cd hsrc
    have hre : migrate_console_switch env db =
        fillStep "CONSOLE_SWITCH" "console_mgmt" (srcTblGet cd "console_mgmt") db := by
      unfold migrate_console_switch fillStep
      rw [hsrc]
    rw [hre]
    exact fillOne_laws db "CONSOLE_SWITCH" "console_mgmt" _
  · intro env db tp hsrc
    have hre : migrate_tacplus env db =
        fillStep "TACPLUS" "global" (srcTblGet tp "global") db := by
      unfold migrate_tacplus fillStep
      rw [hsrc]
    rw [hre]
    exact fillOne_laws db "TACPLUS" "global" _
  · intro env db ad hsrc
    have haaa : migrate_aaa env db =
        aaaAuthzStep (srcTblGet ad "authorization")
          (fillStep "AAA" "accounting" (srcTblGet ad "accounting")
            (fillStep "AAA" "authentication" (srcTblGet ad "authentication") db)) := by
      unfold migrate_aaa fillStep aaaAuthzStep
      rw [hsrc]
    rw [haaa]
    exact aaaChain_laws db _ _ _
  · intro env db tbl hsrc
    constructor
    · intro hne
      unfold migrate_dns_nameserver
      rw [hsrc]
      show (if (cfgGetTable db "DNS_NAMESERVER").isEmpty then
          tbl.foldl (fun d ac => cfgSetEntry d "DNS_NAMESERVER" [ac.1] (some ac.2)) db
        else db) = db
      have hb : (cfgGetTable db "DNS_NAMESERVER").isEmpty = false := by
        cases hg : (cfgGetTable db "DNS_NAMESERVER").isEmpty
        · rfl
        · exact absurd (List.isEmpty_iff.mp hg) hne
      simp [hb]
    · intro hnd hempty ac hac
      obtain ⟨a, c⟩ := ac
      unfold migrate_dns_nameserver
      rw [hsrc]
      show cfgFind (if (cfgGetTable db "DNS_NAMESERVER").isEmpty then
          tbl.foldl (fun d ac => cfgSetEntry d "DNS_NAMESERVER" [ac.1] (some ac.2)) db
        else db) "DNS_NAMESERVER" [(a, c).1] = some (a, c).2
      rw [hempty]
      simp only [List.isEmpty_nil, if_true]
      exact cfgFind_tblFold_mem tbl db "DNS_NAMESERVER" a c hnd hac
  · intro t kstr init db f
    simp [applyInitCfg, cfgGetEntry, cfgSetEntry, cfgFind_setEntryF_same, fGet_fMerge]
  · intro env db hg hc
    unfold migrate_gnmi
    simp [bne, beq_eq_false_of_ne hg, beq_eq_false_of_ne hc]

theorem c6_witness :
    cfgFind (migrate_restapi restapiEnv []) "RESTAPI" ["config"] =
      srcTblGet [("config", [("client_auth", "true")]),
                 ("certs", [("ca_crt", "/etc/x.crt")])] "config" ∧
    migrate_gnmi gnmiEnv
        [("GNMI", ["gnmi"], [("x", "1")]), ("GNMI", ["certs"], [("c", "3")])] =
      [("GNMI", ["gnmi"], [("x", "1")]), ("GNMI", ["certs"], [("c", "3")])] :=
  ⟨(c6_fill_steps_merge.1 restapiEnv []
      [("config", [("client_auth", "true")]), ("certs", [("ca_crt", "/etc/x.crt")])]
      (by decide)).2.1 rfl,
   c6_fill_steps_merge.2.2.2.2.2.2.2 gnmiEnv
      [("GNMI", ["gnmi"], [("x", "1")]), ("GNMI", ["certs"], [("c", "3")])]
      (by decide) (by decide)⟩

/-- **C6** counterexample: the config store holds an operator-set
`GNMI|gnmi` entry `x=1` but no `GNMI|certs`; `migrate_gnmi` then copies
the snapshot's `gnmi` key over the existing entry, replacing it with
`y=2` — refuting the claim that every fill-in step leaves an
already-present destination value unchanged. -/
theorem c6_counterexample :
    cfgGetEntry gnmiDb "GNMI" ["gnmi"] = [("x", "1")] ∧
    cfgGetEntry (migrate_gnmi gnmiEnv gnmiDb) "GNMI" ["gnmi"] = [("y", "2")] := by
  decide

/-! ## Claim C7: the AAA authorization fail-safe -/

theorem aaaAuthzStep_laws (v : Option Entry) (db : ConfigDB) :
    (passkeyOk (cfgGetEntry db "TACPLUS" ["global"]) = false →
      cfgFind (aaaAuthzStep v db) "AAA" ["authorization"] = none) ∧
    (passkeyOk (cfgGetEntry db "TACPLUS" ["global"]) = true →
      cfgGetEntry db "AAA" ["authorization"] ≠ [] →
      cfgFind (aaaAuthzStep v db) "AAA" ["authorization"] =
        cfgFind db "AAA" ["authorization"]) ∧
    (passkeyOk (cfgGetEntry db "TACPLUS" ["global"]) = true →
      cfgGetEntry db "AAA" ["authorization"] = [] →
      cfgFind (aaaAuthzStep v db) "AAA" ["authorization"] = v) := by
  refine ⟨?_, ?_, ?_⟩
  · intro hpk
    unfold passkeyOk at hpk
    simp only [aaaAuthzStep, hpk, Bool.false_eq_true, if_false]
    by_cases hs : (cfgFind db "AAA" ["authorization"]).isSome = true
    · rw [if_pos hs]
      exact cfgFind_deleteEntry_same db "AAA" ["authorization"]
    · rw [if_neg hs]
      cases ho : cfgFind db "AAA" ["authorization"] with
      | none => rfl
      | some e => exact absurd (by rw [ho]; rfl) hs
  · intro hpk hne
    unfold passkeyOk at hpk
    simp only [aaaAuthzStep, hpk, if_true]
    rw [if_neg (fun hq => hne (eq_of_beq hq))]
  · intro hpk he
    unfold passkeyOk at hpk
    simp only [aaaAuthzStep, hpk, if_true]
    rw [if_pos (by rw [he]; rfl), cfgFind_setEntry_same]

/-- **C7** (amended): when the snapshot carries an `AAA` table, the final
`migrate_aaa` of the common pass enforces the fail-safe — an empty or
missing `passkey` on `TACPLUS|global` leaves no `AAA|authorization`
entry, even one present before the pass, and the snapshot's
authorization default is written exactly when a non-empty passkey exists
and no authorization entry is present.  Without a snapshot `AAA` table,
however, `migrate_aaa` returns immediately and a stale authorization
entry survives the pass (see the counterexample). -/
theorem c7_aaa_authorization (env : Env) (s sPre : MigState) (ad : List (String × Entry))
    (hpre : commonOpsPreAaa env s = .ok sPre)
    (hsrc : (srcData env).bind (fun src => srcGet src "AAA") = some ad) :
    common_migration_ops env s =
      .ok { sPre with configDB := migrate_aaa env sPre.configDB } ∧
    (passkeyOk (cfgGetEntry sPre.configDB "TACPLUS" ["global"]) = false →
      cfgFind (migrate_aaa env sPre.configDB) "AAA" ["authorization"] = none) ∧
    (passkeyOk (cfgGetEntry sPre.configDB "TACPLUS" ["global"]) = true →
      cfgGetEntry sPre.configDB "AAA" ["authorization"] ≠ [] →
      cfgFind (migrate_aaa env sPre.configDB) "AAA" ["authorization"] =
        cfgFind sPre.configDB "AAA" ["authorization"]) ∧
    (passkeyOk (cfgGetEntry sPre.configDB "TACPLUS" ["global"]) = true →
      cfgGetEntry sPre.configDB "AAA" ["authorization"] = [] →
      cfgFind (migrate_aaa env sPre.configDB) "AAA" ["authorization"] =
        srcTblGet ad "authorization") := by
  have haaa : migrate_aaa env sPre.configDB =
      aaaAuthzStep (srcTblGet ad "authorization")
        (fillStep "AAA" "accounting" (srcTblGet ad "accounting")
          (fillStep "AAA" "authentication" (srcTblGet ad "authentication")
            sPre.configDB)) := by
    unfold migrate_aaa fillStep aaaAuthzStep
    rw [hsrc]
  have htac : cfgGetEntry (fillStep "AAA" "accounting" (srcTblGet ad "accounting")
      (fillStep "AAA" "authentication" (srcTblGet ad "authentication") sPre.configDB))
      "TACPLUS" ["global"] = cfgGetEntry sPre.configDB "TACPLUS" ["global"] := by
    rw [cfgGetEntry_fillStep_ne _ _ _ _ _ _ (Or.inl (by decide)),
        cfgGetEntry_fillStep_ne _ _ _ _ _ _ (Or.inl (by decide))]
  have hag : cfgGetEntry (fillStep "AAA" "accounting" (srcTblGet ad "accounting")
      (fillStep "AAA" "authentication" (srcTblGet ad "authentication") sPre.configDB))
      "AAA" ["authorization"] = cfgGetEntry sPre.configDB "AAA" ["authorization"] := by
    rw [cfgGetEntry_fillStep_ne _ _ _ _ _ _ (Or.inr (singleton_beq_false (by decide))),
        cfgGetEntry_fillStep_ne _ _ _ _ _ _ (Or.inr (singleton_beq_false (by decide)))]
  have haf : cfgFind (fillStep "AAA" "accounting" (srcTblGet ad "accounting")
      (fillStep "AAA" "authentication" (srcTblGet ad "authentication") sPre.configDB))
      "AAA" ["authorization"] = cfgFind sPre.configDB "AAA" ["authorization"] := by
    rw [cfgFind_fillStep_ne _ _ _ _ _ _ (Or.inr (singleton_beq_false (by decide))),
        cfgFind_fillStep_ne _ _ _ _ _ _ (Or.inr (singleton_beq_false (by decide)))]
  have hlaws := aaaAuthzStep_laws (srcTblGet ad "authorization")
    (fillStep "AAA" "accounting" (srcTblGet ad "accounting")
      (fillStep "AAA" "authentication" (srcTblGet ad "authentication") sPre.configDB))
  refine ⟨?_, ?_, ?_, ?_⟩
  · unfold common_migration_ops
    rw [hpre]
    rfl
  · intro hpk
    rw [haaa]
    exact hlaws.1 (by rw [htac]; exact hpk)
  · intro hpk hne
    rw [haaa]
    exact (hlaws.2.1 (by rw [htac]; exact hpk) (by rw [hag]; exact hne)).trans haf
  · intro hpk he
    rw [haaa]
    exact hlaws.2.2 (by rw [htac]; exact hpk) (by rw [hag]; exact he)

theorem c7_witness :
    common_migration_ops aaaEnv aaaState =
      .ok { aaaState with configDB := migrate_aaa aaaEnv aaaState.configDB } ∧
    cfgFind (migrate_aaa aaaEnv aaaState.configDB) "AAA" ["authorization"] = none :=
  ⟨(c7_aaa_authorization aaaEnv aaaState aaaState
      [("authentication", [("login", "tacacs+")]),
       ("accounting", [("login", "tacacs+,local")]),
       ("authorization", [("login", "tacacs+")])]
      (by decide) (by decide)).1,
   (c7_aaa_authorization aaaEnv aaaState aaaState
      [("authentication", [("login", "tacacs+")]),
       ("accounting", [("login", "tacacs+,local")]),
       ("authorization", [("login", "tacacs+")])]
      (by decide) (by decide)).2.1 (by decide)⟩

/-- **C7** counterexample: with no source-of-truth snapshot at all,
`TACPLUS|global` carrying an empty `passkey` and a pre-existing
`AAA|authorization` entry, the common pass completes successfully and the
authorization entry survives it — `migrate_aaa` returns before reaching
its deletion branch whenever the snapshot lacks an `AAA` table, refuting
the claim's unconditional fail-safe. -/
theorem c7_counterexample :
    fGet (cfgGetEntry aaaState.configDB "TACPLUS" ["global"]) "passkey" = some "" ∧
    cfgFind aaaState.configDB "AAA" ["authorization"] = some [("login", "tacacs+")] ∧
    (common_migration_ops baseEnv aaaState).map
        (fun s => cfgFind s.configDB "AAA" ["authorization"]) =
      .ok (some [("login", "tacacs+")]) := by
  decide

/-! ## Claim C8: interface-table key normalization -/

theorem optNone_or {α : Type} (o : Option α) : Option.or none o = o := by
  cases o <;> rfl

theorem optOr_none {α : Type} (o : Option α) : Option.or o none = o := by
  cases o <;> rfl

theorem cfgFind_append (d1 d2 : ConfigDB) (t : String) (k : CKey) :
    cfgFind (d1 ++ d2) t k = (cfgFind d1 t k).or (cfgFind d2 t k) := by
  unfold cfgFind
  rw [List.find?_append]
  cases List.find? (fun r => r.1 == t && r.2.1 == k) d1 <;> rfl

theorem cfgSetEntryF_absent (d : ConfigDB) (t : String) (k : CKey) (e : Entry)
    (h : cfgFind d t k = none) : cfgSetEntryF d t k e = d ++ [(t, k, e)] := by
  induction d with
  | nil => rfl
  | cons r d' ih =>
    rw [cfgFind_cons] at h
    by_cases hc : (r.1 == t && r.2.1 == k) = true
    · rw [if_pos hc] at h
      cases h
    · rw [if_neg hc] at h
      rw [cfgSetEntryF, if_neg hc, ih h]
      rfl

theorem key_single_of_not_prefix (k : CKey) (h : is_ip_prefix_in_key k = false) :
    ∃ x, k = [x] := by
  rcases k with _ | ⟨x, xs⟩
  · exact Bool.noConfusion h
  · rcases xs with _ | ⟨y, ys⟩
    · exact ⟨x, rfl⟩
    · exact Bool.noConfusion h

theorem collect_inner_acc (l : List (CKey × Entry)) (acc : List String) (b : String)
    (hb : b ∈ acc) :
    b ∈ l.foldl (fun acc2 ke => if is_ip_prefix_in_key ke.1 then acc2 else acc2 ++ ke.1) acc := by
  induction l generalizing acc with
  | nil => exact hb
  | cons ke rest ih =>
    simp only [List.foldl_cons]
    by_cases hp : is_ip_prefix_in_key ke.1 = true
    · rw [if_pos hp]
      exact ih acc hb
    · rw [if_neg hp]
      exact ih _ (List.mem_append_left _ hb)

theorem collect_inner_mem (l : List (CKey × Entry)) (acc : List String) (b : String) (e : Entry)
    (hm : ([b], e) ∈ l) :
    b ∈ l.foldl (fun acc2 ke => if is_ip_prefix_in_key ke.1 then acc2 else acc2 ++ ke.1) acc := by
  induction l generalizing acc with
  | nil => cases hm
  | cons ke rest ih =>
    simp only [List.foldl_cons]
    rcases List.mem_cons.mp hm with heq | hm'
    · rw [← heq]
      rw [if_neg (fun hc => Bool.noConfusion hc)]
      exact collect_inner_acc rest _ b
        (List.mem_append_right _ (List.mem_singleton_self b))
    · by_cases hp : is_ip_prefix_in_key ke.1 = true
      · rw [if_pos hp]
        exact ih _ hm'
      · rw [if_neg hp]
        exact ih _ hm'

theorem collect_inner_src (l : List (CKey × Entry)) (acc : List String) (b : String)
    (h : b ∈ l.foldl (fun acc2 ke =>
      if is_ip_prefix_in_key ke.1 then acc2 else acc2 ++ ke.1) acc) :
    b ∈ acc ∨ ∃ e, ([b], e) ∈ l := by
  induction l generalizing acc with
  | nil => exact Or.inl h
  | cons ke rest ih =>
    simp only [List.foldl_cons] at h
    by_cases hp : is_ip_prefix_in_key ke.1 = true
    · rw [if_pos hp] at h
      rcases ih acc h with h' | ⟨e, he⟩
      · exact Or.inl h'
      · exact Or.inr ⟨e, List.mem_cons_of_mem _ he⟩
    · rw [if_neg hp] at h
      have hp' : is_ip_prefix_in_key ke.1 = false := by
        cases hg : is_ip_prefix_in_key ke.1
        · rfl
        · exact absurd hg hp
      obtain ⟨x, hx⟩ := key_single_of_not_prefix ke.1 hp'
      rcases ih _ h with h' | ⟨e, he⟩
      · rcases List.mem_append.mp h' with h'' | h''
        · exact Or.inl h''
        · rw [hx] at h''
          have hbx : b = x := List.mem_singleton.mp h''
          refine Or.inr ⟨ke.2, ?_⟩
          have hke : (([b] : CKey), ke.2) = ke := by
            rw [hbx, ← hx]
          rw [hke]
          exact List.mem_cons_self ke rest
      · exact Or.inr ⟨e, List.mem_cons_of_mem _ he⟩

theorem mem_collect (db : ConfigDB) (t : String) (ht : t ∈ ifTables) (b : String) (e : Entry)
    (hm : ([b], e) ∈ cfgGetTable db t) : b ∈ collectIfBases db := by
  fin_cases ht
  · exact collect_inner_acc _ _ b (collect_inner_acc _ _ b (collect_inner_acc _ _ b
      (collect_inner_mem _ [] b e hm)))
  · exact collect_inner_acc _ _ b (collect_inner_acc _ _ b (collect_inner_mem _ _ b e hm))
  · exact collect_inner_acc _ _ b (collect_inner_mem _ _ b e hm)
  · exact collect_inner_mem _ _ b e hm

theorem collect_src (db : ConfigDB) (b : String) (h : b ∈ collectIfBases db) :
    ∃ t, t ∈ ifTables ∧ ∃ e, (t, [b], e) ∈ db := by
  rcases collect_inner_src (cfgGetTable db "LOOPBACK_INTERFACE") _ b h with h1 | ⟨e, he⟩
  · rcases collect_inner_src (cfgGetTable db "VLAN_INTERFACE") _ b h1 with h2 | ⟨e, he⟩
    · rcases collect_inner_src (cfgGetTable db "PORTCHANNEL_INTERFACE") _ b h2 with h3 | ⟨e, he⟩
      · rcases collect_inner_src (cfgGetTable db "INTERFACE") _ b h3 with h4 | ⟨e, he⟩
        · cases h4
        · exact ⟨"INTERFACE", by decide, e, (mem_cfgGetTable db _ _ e).mp he⟩
      · exact ⟨"PORTCHANNEL_INTERFACE", by decide, e, (mem_cfgGetTable db _ _ e).mp he⟩
    · exact ⟨"VLAN_INTERFACE", by decide, e, (mem_cfgGetTable db _ _ e).mp he⟩
  · exact ⟨"LOOPBACK_INTERFACE", by decide, e, (mem_cfgGetTable db _ _ e).mp he⟩

theorem hasALess_of_row (db : ConfigDB) (t : String) (ht : t ∈ ifTables) (b : String)
    (e : Entry) (he : (t, [b], e) ∈ db) : hasALess db b = true := by
  unfold hasALess
  exact List.any_eq_true.mpr ⟨t, ht, (cfgFind_isSome_iff db t [b]).mpr ⟨e, he⟩⟩

theorem rows_of_hasALess (db : ConfigDB) (b : String) (h : hasALess db b = true) :
    ∃ t, t ∈ ifTables ∧ ∃ e, (t, [b], e) ∈ db := by
  unfold hasALess at h
  obtain ⟨t, ht, hp⟩ := List.any_eq_true.mp h
  obtain ⟨e, he⟩ := (cfgFind_isSome_iff db t [b]).mp hp
  exact ⟨t, ht, e, he⟩

theorem none_of_hasALess_false (db : ConfigDB) (b : String) (h : hasALess db b = false) :
    ∀ t, t ∈ ifTables → cfgFind db t [b] = none := by
  intro t ht
  cases hf : cfgFind db t [b] with
  | none => rfl
  | some e =>
    have hT : hasALess db b = true :=
      List.any_eq_true.mpr ⟨t, ht, by rw [hf]; rfl⟩
    rw [h] at hT
    exact Bool.noConfusion hT

theorem stinv_init (db : ConfigDB) : StInv db (db, collectIfBases db) := by
  refine ⟨fun b hb => hb, ?_, fun t k _ => rfl, ?_, fun t k e hm _ => hm, fun b _ t' => rfl⟩
  · intro t ht b hb
    obtain ⟨e, he⟩ := (cfgFind_isSome_iff db t [b]).mp hb
    exact mem_collect db t ht b e ((mem_cfgGetTable db t [b] e).mpr he)
  · intro b hb
    obtain ⟨t, ht, e, he⟩ := collect_src db b hb
    exact hasALess_of_row db t ht b e he


theorem addIfAliases_master (db : ConfigDB) (t : String) (ht : t ∈ ifTables)
    (l : List (CKey × Entry)) (st : ConfigDB × List String)
    (hl : ∀ p, p ∈ l → (t, p.1, p.2) ∈ st.1)
    (hI : StInv db st) :
    StInv db (addIfAliases t l st) ∧
    (∀ b, hasALess db b = false → freshAliasInv db b st →
      freshAliasInv db b (addIfAliases t l st)) ∧
    (∀ b, b ∈ st.2 → b ∈ (addIfAliases t l st).2) ∧
    (∀ row, row ∈ st.1 → row ∈ (addIfAliases t l st).1) ∧
    (∀ b c r e, (b :: c :: r, e) ∈ l → b ∈ (addIfAliases t l st).2) := by
  induction l generalizing st with
  | nil =>
    refine ⟨hI, fun b _ hJ => hJ, fun b hb => hb, fun row hr => hr, ?_⟩
    intro b c r e hm
    cases hm
  | cons p rest ih =>
    obtain ⟨d, names⟩ := st
    obtain ⟨k, ev⟩ := p
    have hl' : ∀ q, q ∈ rest → (t, q.1, q.2) ∈ d :=
      fun q hq => hl q (List.mem_cons_of_mem _ hq)
    rcases k with _ | ⟨b0, k'⟩
    · obtain ⟨ihI, ihJ, ihN, ihM, ihL⟩ := ih (d, names) hl' hI
      refine ⟨ihI, ihJ, ihN, ihM, ?_⟩
      intro b c r e hm
      rcases List.mem_cons.mp hm with heq | hm'
      · injection heq with h1 h2
        exact absurd h1 (List.cons_ne_nil _ _)
      · exact ihL b c r e hm'
    rcases k' with _ | ⟨c0, r0⟩
    · obtain ⟨ihI, ihJ, ihN, ihM, ihL⟩ := ih (d, names) hl' hI
      refine ⟨ihI, ihJ, ihN, ihM, ?_⟩
      intro b c r e hm
      rcases List.mem_cons.mp hm with heq | hm'
      · injection heq with h1 h2
        injection h1 with hb1 hcr
        exact absurd hcr (List.cons_ne_nil _ _)
      · exact ihL b c r e hm'
    by_cases hb0 : b0 ∈ names
    · have hred : addIfAliases t ((b0 :: c0 :: r0, ev) :: rest) (d, names) =
          addIfAliases t rest (d, names) := by
        show (if b0 ∈ names then addIfAliases t rest (d, names)
              else addIfAliases t rest (cfgSetEntryF d t [b0] ev, names ++ [b0])) =
          addIfAliases t rest (d, names)
        exact if_pos hb0
      rw [hred]
      obtain ⟨ihI, ihJ, ihN, ihM, ihL⟩ := ih (d, names) hl' hI
      refine ⟨ihI, ihJ, ihN, ihM, ?_⟩
      intro b c r e hm
      rcases List.mem_cons.mp hm with heq | hm'
      · injection heq with h1 h2
        injection h1 with hb1 hcr
        rw [hb1]
        exact ihN b0 hb0
      · exact ihL b c r e hm'
    · have habs : cfgFind d t [b0] = none := by
        cases hf : cfgFind d t [b0] with
        | none => rfl
        | some e0 => exact absurd (hI.2.1 t ht b0 (by rw [hf]; rfl)) hb0
      have happ : cfgSetEntryF d t [b0] ev = d ++ [(t, [b0], ev)] :=
        cfgSetEntryF_absent d t [b0] ev habs
      have hred : addIfAliases t ((b0 :: c0 :: r0, ev) :: rest) (d, names) =
          addIfAliases t rest (cfgSetEntryF d t [b0] ev, names ++ [b0]) := by
        show (if b0 ∈ names then addIfAliases t rest (d, names)
              else addIfAliases t rest (cfgSetEntryF d t [b0] ev, names ++ [b0])) =
          addIfAliases t rest (cfgSetEntryF d t [b0] ev, names ++ [b0])
        exact if_neg hb0
      rw [hred]
      have hl2 : ∀ q, q ∈ rest → (t, q.1, q.2) ∈ cfgSetEntryF d t [b0] ev := by
        intro q hq
        rw [happ]
        exact List.mem_append_left _ (hl' q hq)
      have hI' : StInv db (cfgSetEntryF d t [b0] ev, names ++ [b0]) := by
        obtain ⟨i0, i1, i2, i4, i7, ik⟩ := hI
        refine ⟨?_, ?_, ?_, ?_, ?_, ?_⟩
        · intro b hb
          exact List.mem_append_left _ (i0 b hb)
        · intro t2 ht2 b hb
          rw [happ, cfgFind_append] at hb
          cases hf : cfgFind d t2 [b] with
          | some e2 => exact List.mem_append_left _ (i1 t2 ht2 b (by rw [hf]; rfl))
          | none =>
            rw [hf, optNone_or] at hb
            by_cases hc : (t == t2 && (([b0] : CKey) == [b])) = true
            · have hbb : b0 = b := by
                have h2 := eq_of_beq (Bool.and_elim_right hc)
                injection h2 with h3 h4
              rw [← hbb]
              exact List.mem_append_right _ (List.mem_singleton_self b0)
            · have hn : cfgFind [(t, [b0], ev)] t2 [b] = none := by
                rw [cfgFind_cons, if_neg hc]
                rfl
              rw [hn] at hb
              exact Bool.noConfusion hb
        · intro t2 k2 hs
          rw [happ, cfgFind_append, i2 t2 k2 hs]
          cases hf : cfgFind db t2 k2 with
          | some e2 => rfl
          | none =>
            rw [hf] at hs
            exact Bool.noConfusion hs
        · intro b hb
          rcases List.mem_append.mp hb with hb1 | hb2
          · have hd := i4 b hb1
            obtain ⟨tx, htx, hsx⟩ := List.any_eq_true.mp hd
            have hsx2 : (cfgFind d tx [b]).isSome = true := hsx
            refine List.any_eq_true.mpr ⟨tx, htx, ?_⟩
            rw [happ, cfgFind_append]
            cases he : cfgFind d tx [b] with
            | none =>
              rw [he] at hsx2
              exact Bool.noConfusion hsx2
            | some e2 => rfl
          · have hbb : b = b0 := List.mem_singleton.mp hb2
            refine List.any_eq_true.mpr ⟨t, ht, ?_⟩
            rw [hbb, happ, cfgFind_append, habs, optNone_or, cfgFind_cons,
              if_pos (by simp)]
            rfl
        · intro t2 k2 e2 hm hlen
          rw [happ] at hm
          rcases List.mem_append.mp hm with hm1 | hm2
          · exact i7 t2 k2 e2 hm1 hlen
          · have heq := List.mem_singleton.mp hm2
            injection heq with h1 h2
            injection h2 with h3 h4
            rw [h3] at hlen
            exact absurd hlen (Nat.not_succ_le_self 1)
        · intro b hb t2
          have hbn : b ≠ b0 := fun hc => hb0 (hc ▸ i0 b hb)
          rw [happ, cfgFind_append]
          have hsing : cfgFind [(t, [b0], ev)] t2 [b] = none := by
            rw [cfgFind_cons, if_neg, cfgFind_nil]
            intro hc
            have h2 := eq_of_beq (Bool.and_elim_right hc)
            injection h2 with h3 h4
            exact hbn h3.symm
          rw [hsing, optOr_none]
          exact ik b hb t2
      have hJstep : ∀ b, hasALess db b = false → freshAliasInv db b (d, names) →
          freshAliasInv db b (cfgSetEntryF d t [b0] ev, names ++ [b0]) := by
        intro b hfre hJ
        by_cases hbb : b = b0
        · subst hbb
          rcases hJ with ⟨hnn, hall⟩ | ⟨hin, _⟩
          · right
            refine ⟨List.mem_append_right _ (List.mem_singleton_self b), t, ht, ev,
              ?_, ?_, ?_⟩
            · rw [happ, cfgFind_append, habs, optNone_or, cfgFind_cons,
                if_pos (by simp)]
            · intro t2 ht2 hne2
              rw [happ, cfgFind_append, hall t2 ht2, optNone_or, cfgFind_cons,
                if_neg, cfgFind_nil]
              intro hc
              exact hne2 (eq_of_beq (Bool.and_elim_left hc)).symm
            · refine ⟨t, ht, c0 :: r0, List.cons_ne_nil c0 r0, ?_⟩
              have hrow : (t, b :: c0 :: r0, ev) ∈ d :=
                hl (b :: c0 :: r0, ev) (List.mem_cons_self _ _)
              exact hI.2.2.2.2.1 t (b :: c0 :: r0) ev hrow (Nat.le_add_left 2 r0.length)
          · exact absurd hin hb0
        · have hkeepb : ∀ t2, cfgFind (cfgSetEntryF d t [b0] ev) t2 [b] = cfgFind d t2 [b] := by
            intro t2
            rw [happ, cfgFind_append]
            have hsing : cfgFind [(t, [b0], ev)] t2 [b] = none := by
              rw [cfgFind_cons, if_neg, cfgFind_nil]
              intro hc
              have h2 := eq_of_beq (Bool.and_elim_right hc)
              injection h2 with h3 h4
              exact hbb h3.symm
            rw [hsing, optOr_none]
          rcases hJ with ⟨hnn, hall⟩ | ⟨hin, tw, htw, ev2, hsome, hothers, hcontent⟩
          · left
            refine ⟨?_, ?_⟩
            · intro hc
              rcases List.mem_append.mp hc with h | h
              · exact hnn h
              · exact hbb (List.mem_singleton.mp h)
            · intro t2 ht2
              rw [hkeepb t2]
              exact hall t2 ht2
          · right
            exact ⟨List.mem_append_left _ hin, tw, htw, ev2,
              by rw [hkeepb]; exact hsome,
              fun t2 ht2 hne2 => by rw [hkeepb]; exact hothers t2 ht2 hne2, hcontent⟩
      obtain ⟨ihI, ihJ, ihN, ihM, ihL⟩ :=
        ih (cfgSetEntryF d t [b0] ev, names ++ [b0]) hl2 hI'
      refine ⟨ihI, ?_, ?_, ?_, ?_⟩
      · intro b hf hJ
        exact ihJ b hf (hJstep b hf hJ)
      · intro b hb
        exact ihN b (List.mem_append_left _ hb)
      · intro row hr
        refine ihM row ?_
        rw [happ]
        exact List.mem_append_left _ hr
      · intro b c r e hm
        rcases List.mem_cons.mp hm with heq | hm'
        · injection heq with h1 h2
          injection h1 with hb1 hcr
          rw [hb1]
          exact ihN b0 (List.mem_append_right _ (List.mem_singleton_self b0))
        · exact ihL b c r e hm'


theorem ifFold_master (db : ConfigDB) (ts' : List String)
    (hts : ∀ t, t ∈ ts' → t ∈ ifTables)
    (st : ConfigDB × List String) (hI : StInv db st) :
    StInv db (ts'.foldl (fun st t => addIfAliases t (cfgGetTable st.1 t) st) st) ∧
    (∀ b, hasALess db b = false → freshAliasInv db b st →
      freshAliasInv db b
        (ts'.foldl (fun st t => addIfAliases t (cfgGetTable st.1 t) st) st)) ∧
    (∀ b, b ∈ st.2 →
      b ∈ (ts'.foldl (fun st t => addIfAliases t (cfgGetTable st.1 t) st) st).2) ∧
    (∀ row, row ∈ st.1 →
      row ∈ (ts'.foldl (fun st t => addIfAliases t (cfgGetTable st.1 t) st) st).1) ∧
    (∀ t, t ∈ ts' → ∀ b c r e, (t, b :: c :: r, e) ∈ st.1 →
      b ∈ (ts'.foldl (fun st t => addIfAliases t (cfgGetTable st.1 t) st) st).2) := by
  induction ts' generalizing st with
  | nil =>
    refine ⟨hI, fun b _ hJ => hJ, fun b hb => hb, fun row hr => hr, ?_⟩
    intro t htm
    cases htm
  | cons t0 tsr ih =>
    simp only [List.foldl_cons]
    have ht0 : t0 ∈ ifTables := hts t0 (List.mem_cons_self _ _)
    have hl0 : ∀ p, p ∈ cfgGetTable st.1 t0 → (t0, p.1, p.2) ∈ st.1 := by
      intro p hp
      exact (mem_cfgGetTable st.1 t0 p.1 p.2).mp (by rw [Prod.mk.eta]; exact hp)
    obtain ⟨mI, mJ, mN, mM, mL⟩ := addIfAliases_master db t0 ht0
      (cfgGetTable st.1 t0) st hl0 hI
    obtain ⟨fI, fJ, fN, fM, fL⟩ := ih (fun t htm => hts t (List.mem_cons_of_mem _ htm))
      (addIfAliases t0 (cfgGetTable st.1 t0) st) mI
    refine ⟨fI, ?_, ?_, ?_, ?_⟩
    · intro b hf hJ
      exact fJ b hf (mJ b hf hJ)
    · intro b hb
      exact fN b (mN b hb)
    · intro row hr
      exact fM row (mM row hr)
    · intro t htm b c r e hrow
      rcases List.mem_cons.mp htm with heq | htm'
      · subst heq
        exact fN b (mL b c r e ((mem_cfgGetTable st.1 t (b :: c :: r) e).mpr hrow))
      · exact fL t htm' b c r e (mM _ hrow)

theorem addIfAliases_noop (t : String) (l : List (CKey × Entry))
    (st : ConfigDB × List String)
    (h : ∀ p, p ∈ l → ∀ b c r, p.1 = b :: c :: r → b ∈ st.2) :
    addIfAliases t l st = st := by
  obtain ⟨d, names⟩ := st
  induction l with
  | nil => rfl
  | cons p rest ih =>
    obtain ⟨k, ev⟩ := p
    have h' : ∀ q, q ∈ rest → ∀ b c r, q.1 = b :: c :: r → b ∈ (d, names).2 :=
      fun q hq => h q (List.mem_cons_of_mem _ hq)
    rcases k with _ | ⟨b0, k'⟩
    · exact ih h'
    rcases k' with _ | ⟨c0, r0⟩
    · exact ih h'
    have hb0 : b0 ∈ names :=
      h (b0 :: c0 :: r0, ev) (List.mem_cons_self _ _) b0 c0 r0 rfl
    have hred : addIfAliases t ((b0 :: c0 :: r0, ev) :: rest) (d, names) =
        addIfAliases t rest (d, names) := by
      show (if b0 ∈ names then addIfAliases t rest (d, names)
            else addIfAliases t rest (cfgSetEntryF d t [b0] ev, names ++ [b0])) =
        addIfAliases t rest (d, names)
      exact if_pos hb0
    rw [hred]
    exact ih h'

theorem ifFold_noop (ts' : List String) (st : ConfigDB × List String)
    (h : ∀ t, t ∈ ts' → ∀ p, p ∈ cfgGetTable st.1 t →
      ∀ b c r, p.1 = b :: c :: r → b ∈ st.2) :
    ts'.foldl (fun st t => addIfAliases t (cfgGetTable st.1 t) st) st = st := by
  induction ts' with
  | nil => rfl
  | cons t0 tsr ih =>
    simp only [List.foldl_cons]
    rw [addIfAliases_noop t0 (cfgGetTable st.1 t0) st
      (fun p hp => h t0 (List.mem_cons_self _ _) p hp)]
    exact ih (fun t htm => h t (List.mem_cons_of_mem _ htm))

/-- **C8**: for the interface-table key normalization step — after the
step, every compound-keyed entry's base name has an address-less entry in
one of the four interface tables; every pre-existing row (in particular
every pre-existing address-less entry) is unchanged; for a base that
already had an address-less entry no table's row at that base changes;
for a fresh base the alias is created in exactly one table, carrying the
field contents of one of the original compound entries for that base;
and running the step a second time changes nothing. -/
theorem c8_interface_key_normalization (db : ConfigDB) :
    (∀ t, t ∈ ifTables → ∀ b c r e, (t, b :: c :: r, e) ∈ db →
      hasALess (migrate_interface_table db) b = true) ∧
    (∀ t k, (cfgFind db t k).isSome = true →
      cfgFind (migrate_interface_table db) t k = cfgFind db t k) ∧
    (∀ b, hasALess db b = true →
      ∀ t', cfgFind (migrate_interface_table db) t' [b] = cfgFind db t' [b]) ∧
    (∀ b, hasALess db b = false →
      ∀ t, t ∈ ifTables → ∀ c r e, (t, b :: c :: r, e) ∈ db →
      ∃ tw, tw ∈ ifTables ∧ ∃ ev,
        cfgFind (migrate_interface_table db) tw [b] = some ev ∧
        (∀ t', t' ∈ ifTables → t' ≠ tw →
          cfgFind (migrate_interface_table db) t' [b] = none) ∧
        ∃ ts, ts ∈ ifTables ∧ ∃ rest, rest ≠ [] ∧ (ts, b :: rest, ev) ∈ db) ∧
    migrate_interface_table (migrate_interface_table db) = migrate_interface_table db := by
  obtain ⟨fI, fJ, fN, fM, fL⟩ := ifFold_master db ifTables (fun t ht => ht)
    (db, collectIfBases db) (stinv_init db)
  have hmig : migrate_interface_table db =
      (ifTables.foldl (fun st t => addIfAliases t (cfgGetTable st.1 t) st)
        (db, collectIfBases db)).1 := rfl
  refine ⟨?_, ?_, ?_, ?_, ?_⟩
  · intro t ht b c r e hrow
    rw [hmig]
    exact fI.2.2.2.1 b (fL t ht b c r e hrow)
  · intro t k hs
    rw [hmig]
    exact fI.2.2.1 t k hs
  · intro b hex t'
    obtain ⟨tx, htx, e, he⟩ := rows_of_hasALess db b hex
    rw [hmig]
    exact fI.2.2.2.2.2 b
      (mem_collect db tx htx b e ((mem_cfgGetTable db tx [b] e).mpr he)) t'
  · intro b hf t ht c r e hrow
    have hJ0 : freshAliasInv db b (db, collectIfBases db) := by
      left
      refine ⟨?_, fun t2 ht2 => none_of_hasALess_false db b hf t2 ht2⟩
      intro hc
      obtain ⟨tx, htx, e0, he0⟩ := collect_src db b hc
      have hT := hasALess_of_row db tx htx b e0 he0
      rw [hf] at hT
      exact Bool.noConfusion hT
    rcases fJ b hf hJ0 with ⟨hnn, _⟩ | ⟨_, tw, htw, ev, hsome, hothers, hcontent⟩
    · exact absurd (fL t ht b c r e hrow) hnn
    · rw [hmig]
      exact ⟨tw, htw, ev, hsome, hothers, hcontent⟩
  · have hmig2 : migrate_interface_table (migrate_interface_table db) =
        (ifTables.foldl (fun st t => addIfAliases t (cfgGetTable st.1 t) st)
          (migrate_interface_table db,
            collectIfBases (migrate_interface_table db))).1 := rfl
    rw [hmig2, ifFold_noop]
    intro t ht p hp b c r hk
    have hrowR : (t, p.1, p.2) ∈ migrate_interface_table db :=
      (mem_cfgGetTable (migrate_interface_table db) t p.1 p.2).mp
        (by rw [Prod.mk.eta]; exact hp)
    rw [hk] at hrowR
    have hrow_db : (t, b :: c :: r, p.2) ∈ db := by
      rw [hmig] at hrowR
      exact fI.2.2.2.2.1 t (b :: c :: r) p.2 hrowR (Nat.le_add_left 2 r.length)
    have hb2 := fL t ht b c r p.2 hrow_db
    have hAL : hasALess (migrate_interface_table db) b = true := by
      rw [hmig]
      exact fI.2.2.2.1 b hb2
    obtain ⟨tx, htx, e0, he0⟩ := rows_of_hasALess (migrate_interface_table db) b hAL
    exact mem_collect (migrate_interface_table db) tx htx b e0
      ((mem_cfgGetTable (migrate_interface_table db) tx [b] e0).mpr he0)

theorem c8_witness :
    hasALess (migrate_interface_table ifDb) "Ethernet8" = true ∧
    cfgFind (migrate_interface_table ifDb) "VLAN_INTERFACE" ["Vlan200"] =
      cfgFind ifDb "VLAN_INTERFACE" ["Vlan200"] ∧
    migrate_interface_table (migrate_interface_table ifDb) =
      migrate_interface_table ifDb :=
  ⟨(c8_interface_key_normalization ifDb).1 "INTERFACE" (by decide)
      "Ethernet8" "10.0.0.0/31" [] [("f", "1")] (by decide),
   (c8_interface_key_normalization ifDb).2.1 "VLAN_INTERFACE" ["Vlan200"] (by decide),
   (c8_interface_key_normalization ifDb).2.2.2.2⟩

end DBMig
